import Mathlib

/-!
# cncjs widgets: probe-cycle generation and controller-state handling

A shallow embedding of the pure parts of
`src/app/widgets/Probe/index.jsx` (the `gcode` formatter, `populateProbeCommands`,
`getWorkCoordinateSystem`, `canClick`, `getInitialState`, the handlers of the controller
events, the edit actions, `componentDidUpdate`, `runProbeCommands`), of
`src/app/widgets/GCode/index.jsx` (the state, the handlers of the controller events and the
subscriber of `'gcode:bbox'`), of `src/app/widgets/Webcam/index.jsx` (the two rotations) and
of `src/app/widgets/Connection/Connection.jsx` (the two port permissions), together with
the fragment of JavaScript value semantics those functions rely on (truthiness, `ToString`,
`ToNumber`, arithmetic, `toFixed`, string concatenation, object literals, lodash `get` /
`map` / `includes`).

The development is organised as: JavaScript numbers and their text form, the rounding of
exact results to doubles (IEEE 754 round to nearest) with the shortest numeral of a double,
JavaScript values and coercions, the lodash helpers, the widget state and the widget functions, the
units, the persisted configuration and the events of the widget, its initial state,
connection events and edits, the G-code, Webcam and Connection widgets, the notions used to
state the properties, evaluations of the definitions on examples, lemmas on the formatter
and on the command lists, the properties of the command lists, lemmas on the readiness check
and on the events, the properties of readiness, units and persistence, lemmas on the initial
state, the G-code widget and the rotations, and the properties of conversion, connection
events and the other widgets.
-/

namespace Cncjs

/-! ## JavaScript numbers -/

/-- A JavaScript number. A finite number is identified with its shortest decimal
numeral `± digits × 10 ^ exp` (the numeral that `Number::toString` prints), so that
printing and negation are exact. Binary rounding of numerals with more than fifteen
significant digits is outside the model: such numerals are kept exactly. -/
inductive JSNum where
  | nan
  | inf (neg : Bool)
  | fin (neg : Bool) (digits : Nat) (exp : Int)
  deriving DecidableEq

namespace JSNum

/-- The number denoted by a natural-number literal such as `20` or `100`. -/
def ofNat (n : Nat) : JSNum := fin false n 0

/-- Unary minus on a number: the sign flips, also on zero and on the infinities. -/
def neg : JSNum → JSNum
  | nan => nan
  | inf b => inf (!b)
  | fin b d e => fin (!b) d e

/-- The decimal digits of `d` without trailing zeros, with the number of zeros removed. -/
def significand (d : Nat) : List Char × Nat :=
  let ds := Nat.toDigits 10 d
  let kept := (ds.reverse.dropWhile (fun c => c == '0')).reverse
  (kept, ds.length - kept.length)

/-- The text of a positive finite number `s × 10 ^ (n - k)` whose `k` significant digits
are `ds`, following the case split of `Number::toString` (radix 10) in ECMA-262. -/
def positiveToString (ds : List Char) (n : Int) : String :=
  let k : Int := ds.length
  if k ≤ n ∧ n ≤ 21 then
    String.mk (ds ++ List.replicate (n - k).toNat '0')
  else if 0 < n ∧ n ≤ 21 then
    String.mk (ds.take n.toNat ++ '.' :: ds.drop n.toNat)
  else if -6 < n ∧ n ≤ 0 then
    String.mk ('0' :: '.' :: (List.replicate (-n).toNat '0' ++ ds))
  else
    let e := n - 1
    let sign := if e < 0 then '-' else '+'
    let mant := match ds with
      | [] => []
      | [c] => [c]
      | c :: rest => c :: '.' :: rest
    String.mk (mant ++ 'e' :: sign :: Nat.toDigits 10 e.natAbs)

/-- The operation `Number::toString(x)` of ECMA-262 in radix 10: `NaN`, `0` for both
zeros, a leading `-` for negative numbers, `Infinity`, and otherwise the digits laid
out in plain or exponential notation. -/
def toString : JSNum → String
  | nan => "NaN"
  | inf b => if b then "-Infinity" else "Infinity"
  | fin b d e =>
    if d = 0 then "0"
    else
      let sk := significand d
      let body := positiveToString sk.1 (sk.1.length + sk.2 + e)
      if b then "-" ++ body else body

/-- Whether the number is `+0`, `-0` or `NaN` (the falsy numbers). -/
def isFalsy : JSNum → Bool
  | nan => true
  | inf _ => false
  | fin _ d _ => d == 0

/-- The check `isLength` of lodash on a number: `v > -1 && v % 1 == 0 && v <= 2^53 - 1`.
It returns the length as a natural number when the check passes. -/
def asLength : JSNum → Option Nat
  | nan => none
  | inf _ => none
  | fin b d e =>
    if d = 0 then some 0
    else if b then none
    else
      let sk := significand d
      let shift : Int := sk.2 + e
      if shift < 0 then none
      else
        let v := d * 10 ^ e.toNat / 10 ^ (-e).toNat
        if v ≤ 9007199254740991 then some v else none

/-- Strict equality `===` on numbers: `NaN` equals nothing, the two zeros are equal, and
finite numbers are compared by value. -/
def strictEq : JSNum → JSNum → Bool
  | inf a, inf b => a == b
  | fin a d e, fin b d2 e2 =>
    if d = 0 ∨ d2 = 0 then d == d2
    else
      let m := min e e2
      a == b && d * 10 ^ (e - m).toNat == d2 * 10 ^ (e2 - m).toNat
  | _, _ => false

/-- The operator `+` on two numbers, computed on the decimal numerals. -/
def add : JSNum → JSNum → JSNum
  | nan, _ => nan
  | _, nan => nan
  | inf a, inf b => if a = b then inf a else nan
  | inf a, fin _ _ _ => inf a
  | fin _ _ _, inf b => inf b
  | fin a d e, fin b d2 e2 =>
    let m := min e e2
    let x : Int := (if a then -1 else 1) * (d * 10 ^ (e - m).toNat : Nat)
    let y : Int := (if b then -1 else 1) * (d2 * 10 ^ (e2 - m).toNat : Nat)
    let s := x + y
    if s = 0 then fin (a && b && d == 0 && d2 == 0) 0 0
    else fin (decide (s < 0)) s.natAbs m

/-- The operator `*` on two numbers, computed on the decimal numerals: the exact product,
which is what JavaScript gives when the product needs no rounding (`times` is the product
rounded to the nearest double). -/
def mul : JSNum → JSNum → JSNum
  | nan, _ => nan
  | _, nan => nan
  | inf a, inf b => inf (a != b)
  | inf a, fin b d _ => if d = 0 then nan else inf (a != b)
  | fin a d _, inf b => if d = 0 then nan else inf (a != b)
  | fin a d e, fin b d2 e2 => fin (a != b) (d * d2) (e + e2)

/-- The operator `/` on two numbers, computed on the decimal numerals; a quotient of two
finite numbers is rounded to a numeral of at least seventeen significant digits (`over` is
the quotient rounded to the nearest double). -/
def div : JSNum → JSNum → JSNum
  | nan, _ => nan
  | _, nan => nan
  | inf _, inf _ => nan
  | inf a, fin b _ _ => inf (a != b)
  | fin a _ _, inf b => fin (a != b) 0 0
  | fin a d e, fin b d2 e2 =>
    if d2 = 0 then (if d = 0 then nan else inf (a != b))
    else
      let t := 18 + (Nat.toDigits 10 d2).length - (Nat.toDigits 10 d).length
      fin (a != b) ((2 * d * 10 ^ t + d2) / (2 * d2)) (e - e2 - (t : Int))

/-- The operator `-` on two numbers: `x - y` is `x + (-y)`. -/
def sub (x y : JSNum) : JSNum := x.add y.neg

/-- The function `Math.abs`. -/
def abs : JSNum → JSNum
  | nan => nan
  | inf _ => inf false
  | fin _ d e => fin false d e

/-- The operator `%` on two numbers (`Number::remainder` of ECMA-262): the result has the
sign of the dividend and is computed exactly on the decimal numerals. -/
def rem : JSNum → JSNum → JSNum
  | nan, _ => nan
  | _, nan => nan
  | inf _, _ => nan
  | fin a d e, inf _ => fin a d e
  | fin a d e, fin _ d2 e2 =>
    if d2 = 0 then nan
    else if d = 0 then fin a d e
    else
      let m := min e e2
      fin a ((d * 10 ^ (e - m).toNat) % (d2 * 10 ^ (e2 - m).toNat)) m

/-- The method `Number.prototype.toFixed(f)` of ECMA-262: the text of a number that is not
finite, the text `Number::toString` gives from `10 ^ 21` on, and otherwise the integer `n`
nearest to `x × 10 ^ f` (the larger one on a tie) written with `f` digits after the point. -/
def toFixed (f : Nat) : JSNum → String
  | nan => "NaN"
  | inf b => if b then "-Infinity" else "Infinity"
  | fin b d e =>
    if 10 ^ (21 + (-e).toNat) ≤ d * 10 ^ e.toNat then toString (fin b d e)
    else
      let shift : Int := e + f
      let n := if 0 ≤ shift then d * 10 ^ shift.toNat
        else (2 * d + 10 ^ (-shift).toNat) / (2 * 10 ^ (-shift).toNat)
      let ds := Nat.toDigits 10 n
      let m := List.replicate (f + 1 - ds.length) '0' ++ ds
      let body := if f = 0 then m else m.take (m.length - f) ++ '.' :: m.drop (m.length - f)
      String.mk ((if b && d != 0 then ['-'] else []) ++ body)

/-- The comparison `0 <= x` on a number (false for `NaN`, true for both zeros). -/
def nonneg : JSNum → Bool
  | nan => false
  | inf b => !b
  | fin b d _ => !b || d == 0

/-- The characters `StrWhiteSpaceChar` that `StringToNumber` strips at both ends. -/
def isStrWhiteSpace (c : Char) : Bool :=
  let n := c.toNat
  n == 0x9 || n == 0xA || n == 0xB || n == 0xC || n == 0xD || n == 0x20 || n == 0xA0 ||
  n == 0x1680 || (0x2000 ≤ n && n ≤ 0x200A) || n == 0x2028 || n == 0x2029 ||
  n == 0x202F || n == 0x205F || n == 0x3000 || n == 0xFEFF

/-- The value of a run of digits in the given radix (`none` for a character that is not a
digit of that radix, or for an empty run). -/
def digitsValue (radix : Nat) (cs : List Char) : Option Nat :=
  let digit (c : Char) : Option Nat :=
    let n := c.toNat
    let v := if 48 ≤ n ∧ n ≤ 57 then n - 48
      else if 97 ≤ n ∧ n ≤ 102 then n - 87
      else if 65 ≤ n ∧ n ≤ 70 then n - 55
      else radix
    if v < radix then some v else none
  if cs.isEmpty then none
  else cs.foldl (fun acc c => acc.bind (fun a => (digit c).map (fun v => radix * a + v))) (some 0)

/-- The production `ExponentPart` (optional): the exponent, `0` when there is none. -/
def exponentPart : List Char → Option Int
  | [] => some 0
  | c :: rest =>
    if c == 'e' || c == 'E' then
      match rest with
      | '+' :: ds => (digitsValue 10 ds).map (fun n => (n : Int))
      | '-' :: ds => (digitsValue 10 ds).map (fun n => -(n : Int))
      | ds => (digitsValue 10 ds).map (fun n => (n : Int))
    else none

/-- The production `StrUnsignedDecimalLiteral` without `Infinity`: digits with an optional
fraction and exponent, as mantissa and decimal exponent. -/
def unsignedDecimal (cs : List Char) : Option (Nat × Int) :=
  let ip := cs.takeWhile Char.isDigit
  let r1 := cs.dropWhile Char.isDigit
  match r1 with
  | '.' :: r2 =>
    let fp := r2.takeWhile Char.isDigit
    let r3 := r2.dropWhile Char.isDigit
    if ip.isEmpty && fp.isEmpty then none
    else (exponentPart r3).map
      (fun e => (((digitsValue 10 (ip ++ fp)).getD 0), e - (fp.length : Int)))
  | _ =>
    if ip.isEmpty then none
    else (exponentPart r1).map (fun e => (((digitsValue 10 ip).getD 0), e))

/-- The production `NonDecimalIntegerLiteral`: `0x`, `0o` or `0b` followed by digits. -/
def nonDecimalInteger : List Char → Option Nat
  | '0' :: p :: ds =>
    if p == 'x' || p == 'X' then digitsValue 16 ds
    else if p == 'o' || p == 'O' then digitsValue 8 ds
    else if p == 'b' || p == 'B' then digitsValue 2 ds
    else none
  | _ => none

/-- The operation `StringToNumber` of ECMA-262: white space is stripped, the empty string is
`+0`, a text that is no numeric literal is `NaN`. The numeral is kept as it is written: the
rounding to the nearest double (which shows beyond fifteen significant digits, and turns a
numeral beyond the range of doubles into an infinity or a zero) is outside the model. -/
def ofString (s : String) : JSNum :=
  let cs := ((s.data.dropWhile isStrWhiteSpace).reverse.dropWhile isStrWhiteSpace).reverse
  if cs.isEmpty then fin false 0 0
  else
    match nonDecimalInteger cs with
    | some n => fin false n 0
    | none =>
      let signed : Bool × List Char := match cs with
        | '+' :: r => (false, r)
        | '-' :: r => (true, r)
        | _ => (false, cs)
      if signed.2 = "Infinity".data then inf signed.1
      else
        match unsignedDecimal signed.2 with
        | some de => fin signed.1 de.1 de.2
        | none => nan

end JSNum

/-! ## Doubles: rounding to the nearest double and the shortest numeral -/

namespace Double

/-- The number of binary digits of `n` (`0` for `0`), computed in at most `fuel` steps
(`n` steps are enough). -/
def bitLength : Nat → Nat → Nat
  | 0, _ => 0
  | fuel + 1, n => if n = 0 then 0 else bitLength fuel (n / 2) + 1

/-- The binary exponent at which a double holds the fraction `N / D`: the exponent `e` of
its last binary digit, with `2 ^ 52 ≤ (N / D) / 2 ^ e < 2 ^ 53` for a normal double and
`e = -1074` for a subnormal one. -/
def exponentOf (N D : Nat) : Int :=
  let L : Int := (bitLength N N : Int) - (bitLength D D : Int)
  let fl : Int := if D * 2 ^ L.toNat ≤ N * 2 ^ (-L).toNat then L else L - 1
  max (fl - 52) (-1074)

/-- The integer nearest to `(N / D) / 2 ^ e`, the even one of two nearest integers. -/
def roundAt (N D : Nat) (e : Int) : Nat :=
  let num := N * 2 ^ (-e).toNat
  let den := D * 2 ^ e.toNat
  let q := num / den
  let r := num % den
  if den < 2 * r ∨ (den = 2 * r ∧ q % 2 = 1) then q + 1 else q

/-- The double nearest to the fraction `N / D` (IEEE 754 round to nearest, ties to even), as
the pair `(m, e)` of its value `m × 2 ^ e`, with `m < 2 ^ 53` and `-1074 ≤ e`. A value of
`2 ^ 1024` or more, which is no double, shows as `e > 971`. -/
def nearest (N D : Nat) : Nat × Int :=
  let e := exponentOf N D
  let m := roundAt N D e
  if m = 2 ^ 53 then (2 ^ 52, e + 1) else (m, e)

/-- The double nearest to the decimal numeral `d × 10 ^ e`. -/
def ofDecimal (d : Nat) (e : Int) : Nat × Int :=
  nearest (d * 10 ^ e.toNat) (10 ^ (-e).toNat)

/-- The exact value of the double nearest to the decimal numeral `d × 10 ^ e`. -/
def value (d : Nat) (e : Int) : ℚ :=
  ((ofDecimal d e).1 : ℚ) * 2 ^ (ofDecimal d e).2

/-- The decimal exponent of the first digit of the fraction `N / D`. -/
def decimalExponent (N D : Nat) : Int :=
  let t : Int := ((Nat.toDigits 10 N).length : Int) - ((Nat.toDigits 10 D).length : Int)
  if D * 10 ^ t.toNat ≤ N * 10 ^ (-t).toNat then t else t - 1

/-- The numeral with `k` digits that denotes the double `m × 2 ^ e`, if there is one: of the
two numerals with `k` digits around the value, one whose nearest double is the given one; of
two such, the nearer one, and the even one when they are equally near. -/
def withDigits (m : Nat) (e : Int) (k : Nat) : Option (Nat × Int) :=
  let N := m * 2 ^ e.toNat
  let D := 2 ^ (-e).toNat
  let scale : Int := decimalExponent N D - ((k : Int) - 1)
  let num := N * 10 ^ (-scale).toNat
  let den := D * 10 ^ scale.toNat
  let lo := num / den
  let r := num % den
  let okLo := decide (ofDecimal lo scale = (m, e))
  let okHi := decide (ofDecimal (lo + 1) scale = (m, e))
  let preferHi := decide (den < 2 * r) || (decide (den = 2 * r) && decide (lo % 2 = 1))
  if okLo && okHi then some (if preferHi then lo + 1 else lo, scale)
  else if okLo then some (lo, scale)
  else if okHi then some (lo + 1, scale)
  else none

/-- The exact decimal numeral of `m × 2 ^ e`. -/
def exactDecimal (m : Nat) (e : Int) : Nat × Int :=
  if 0 ≤ e then (m * 2 ^ e.toNat, 0) else (m * 5 ^ (-e).toNat, e)

/-- The shortest decimal numeral that denotes the double `m × 2 ^ e`, as digits and decimal
exponent (the digits that `Number::toString` prints): the first that is found among the
numerals with 1, 2, ..., 17 digits. -/
def shortest (m : Nat) (e : Int) : Nat × Int :=
  if m = 0 then (0, 0)
  else
    match (List.range 17).findSome? (fun i => withDigits m e (i + 1)) with
    | some de => if de.1 % 10 = 0 then (de.1 / 10, de.2 + 1) else de
    | none => exactDecimal m e

end Double

namespace JSNum

/-- The number that JavaScript holds for the exact result `± N / D` of an operation: the
nearest double, as its shortest numeral; an infinity when the result is beyond the range of
doubles, a zero when it rounds to zero. -/
def ofFraction (neg : Bool) (N D : Nat) : JSNum :=
  let me := Double.nearest N D
  if 971 < me.2 then inf neg
  else
    let de := Double.shortest me.1 me.2
    fin neg de.1 de.2

/-- The number with a numeral beyond the range of doubles read as the infinity that it
denotes; every other number is kept. -/
def ranged : JSNum → JSNum
  | fin b d e => if 971 < (Double.ofDecimal d e).2 then inf b else fin b d e
  | x => x

/-- The operator `*` on two numbers as JavaScript computes it (`Number::multiply`): the
exact product of the two doubles that the numerals denote, rounded to the nearest double. -/
def times (x y : JSNum) : JSNum :=
  match x.ranged, y.ranged with
  | nan, _ => nan
  | _, nan => nan
  | inf a, inf b => inf (a != b)
  | inf a, fin b d e => if (Double.ofDecimal d e).1 = 0 then nan else inf (a != b)
  | fin a d e, inf b => if (Double.ofDecimal d e).1 = 0 then nan else inf (a != b)
  | fin a d e, fin b d2 e2 =>
    let x := Double.ofDecimal d e
    let y := Double.ofDecimal d2 e2
    ofFraction (a != b) (x.1 * y.1 * 2 ^ (x.2 + y.2).toNat) (2 ^ (-(x.2 + y.2)).toNat)

/-- The operator `/` on two numbers as JavaScript computes it (`Number::divide`): the exact
quotient of the two doubles that the numerals denote, rounded to the nearest double. -/
def over (x y : JSNum) : JSNum :=
  match x.ranged, y.ranged with
  | nan, _ => nan
  | _, nan => nan
  | inf _, inf _ => nan
  | inf a, fin b _ _ => inf (a != b)
  | fin a _ _, inf b => fin (a != b) 0 0
  | fin a d e, fin b d2 e2 =>
    let x := Double.ofDecimal d e
    let y := Double.ofDecimal d2 e2
    if y.1 = 0 then (if x.1 = 0 then nan else inf (a != b))
    else ofFraction (a != b) (x.1 * 2 ^ (x.2 - y.2).toNat) (y.1 * 2 ^ (y.2 - x.2).toNat)

/-- The exact value of the double that a finite number is (`none` for `NaN`, for the
infinities and for a numeral beyond the range of doubles). -/
def exact : JSNum → Option ℚ
  | fin b d e =>
    let me := Double.ofDecimal d e
    if 971 < me.2 then none else some ((if b then -1 else 1) * (me.1 : ℚ) * 2 ^ me.2)
  | _ => none

/-- Whether two numbers are finite doubles that differ by at most `tol`. -/
def near (tol : ℚ) (x y : JSNum) : Bool :=
  match x.exact, y.exact with
  | some a, some b => decide (|a - b| ≤ tol)
  | _, _ => false

/-- Whether a number is finite with a magnitude of at most `bound` (on its numeral). -/
def magnitudeAtMost (bound : Nat) : JSNum → Bool
  | fin _ d e => decide (d * 10 ^ e.toNat ≤ bound * 10 ^ (-e).toNat)
  | _ => false

end JSNum

/-! ## JavaScript values and coercions -/

/-- A primitive JavaScript value. -/
inductive Prim where
  | undefined
  | null
  | bool (b : Bool)
  | num (n : JSNum)
  | str (s : String)
  deriving DecidableEq

/-- A JavaScript value: a primitive, an array, a plain object given by its own enumerable
properties in enumeration order (a key is looked up at its first occurrence), or a function
object given by the text that `Function.prototype.toString` returns for it. Plain objects are
data (as parsed from JSON): none of their members is callable. -/
inductive JSVal where
  | undefined
  | null
  | bool (b : Bool)
  | num (n : JSNum)
  | str (s : String)
  | arr (elems : List JSVal)
  | obj (fields : List (String × JSVal))
  | fn (source : String)

/-- The errors that the modelled code can throw. -/
inductive JSError where
  | typeError
  | rangeError
  deriving DecidableEq

namespace Prim

/-- The primitive as a value. -/
def val : Prim → JSVal
  | undefined => .undefined
  | null => .null
  | bool b => .bool b
  | num n => .num n
  | str s => .str s

/-- The operation `ToString` on a primitive. -/
def toString : Prim → String
  | undefined => "undefined"
  | null => "null"
  | bool b => if b then "true" else "false"
  | num n => n.toString
  | str s => s

/-- The operation `ToNumber` on a primitive. -/
def toNumber : Prim → JSNum
  | undefined => .nan
  | null => .fin false 0 0
  | bool b => if b then .fin false 1 0 else .fin false 0 0
  | num n => n
  | str s => JSNum.ofString s

/-- The text of one array element in `Array.prototype.join`: empty for `undefined` and
`null`, `ToString` otherwise. -/
def elemText : Prim → String
  | undefined => ""
  | null => ""
  | p => p.toString

end Prim

namespace JSVal

mutual
/-- The operation `ToPrimitive`. A primitive is returned as it is. An array goes through
`Array.prototype.toString`, which joins the elements with a comma. A plain object goes
through `Object.prototype.toString`, which gives `[object Object]`; when the object has an
own member named `toString` (which, being data, is not callable) no conversion method
returns a primitive and a `TypeError` is thrown. A function gives its source text. For these
values the result does not depend on the hint. -/
def toPrimitive : JSVal → Except JSError Prim
  | undefined => .ok .undefined
  | null => .ok .null
  | bool b => .ok (.bool b)
  | num n => .ok (.num n)
  | str s => .ok (.str s)
  | arr xs =>
    match toPrimitives xs with
    | .ok ps => .ok (.str (",".intercalate (ps.map Prim.elemText)))
    | .error e => .error e
  | obj fs =>
    if fs.any (fun kv => kv.1 == "toString") then .error .typeError
    else .ok (.str "[object Object]")
  | fn src => .ok (.str src)
/-- The operation `ToPrimitive` on each element of a list, from left to right. -/
def toPrimitives : List JSVal → Except JSError (List Prim)
  | [] => .ok []
  | x :: rest =>
    match toPrimitive x with
    | .ok p =>
      match toPrimitives rest with
      | .ok ps => .ok (p :: ps)
      | .error e => .error e
    | .error e => .error e
end

/-- The operation `ToString` (also `String(v)` and a template-literal substitution). -/
def toStr (v : JSVal) : Except JSError String :=
  (toPrimitive v).map Prim.toString

/-- The operation `ToNumber`. -/
def toNumber (v : JSVal) : Except JSError JSNum :=
  (toPrimitive v).map Prim.toNumber

/-- The unary operator `-v`. -/
def neg (v : JSVal) : Except JSError JSVal :=
  (toNumber v).map (fun n => num n.neg)

/-- The binary operator `a + b`: concatenation when either operand is a string after
`ToPrimitive`, numeric addition otherwise. -/
def add (a b : JSVal) : Except JSError JSVal := do
  let pa ← toPrimitive a
  let pb ← toPrimitive b
  match pa, pb with
  | .str x, _ => pure (str (x ++ pb.toString))
  | _, .str y => pure (str (pa.toString ++ y))
  | _, _ => pure (num (pa.toNumber.add pb.toNumber))

/-- The operation `ToBoolean`. -/
def truthy : JSVal → Bool
  | undefined => false
  | null => false
  | bool b => b
  | num n => !n.isFalsy
  | str s => !s.data.isEmpty
  | arr _ => true
  | obj _ => true
  | fn _ => true

/-- The operator `a || b`. -/
def or (a b : JSVal) : JSVal := if a.truthy then a else b

/-- The operator `a && b`. -/
def and (a b : JSVal) : JSVal := if a.truthy then b else a

/-- The operator `!a`. -/
def not (a : JSVal) : JSVal := bool (!a.truthy)

/-- The binary operator `a - b`: both operands go through `ToNumber`. -/
def sub (a b : JSVal) : Except JSError JSVal := do
  let x ← toNumber a
  let y ← toNumber b
  pure (num (x.sub y))

/-- The binary operator `a * b`: both operands go through `ToNumber`. -/
def mul (a b : JSVal) : Except JSError JSVal := do
  let x ← toNumber a
  let y ← toNumber b
  pure (num (x.mul y))

/-- The operator `a === b`. Arrays, objects and functions are compared by identity; the
model has no identities and takes two of them to be distinct, which is the case whenever
one side is a module constant or freshly parsed data. -/
def strictEq : JSVal → JSVal → Bool
  | undefined, undefined => true
  | null, null => true
  | bool a, bool b => a == b
  | num a, num b => a.strictEq b
  | str a, str b => a == b
  | _, _ => false

/-- The comparison `SameValueZero`: strict equality, except that `NaN` equals `NaN`. -/
def sameValueZero : JSVal → JSVal → Bool
  | num .nan, num .nan => true
  | a, b => a.strictEq b

/-- The property read `v[key]` for a key that no standard prototype defines and that is
neither an index nor `length`: the own member of a plain object, `undefined` otherwise. -/
def prop (v : JSVal) (key : String) : JSVal :=
  match v with
  | obj fs => (fs.lookup key).getD undefined
  | _ => undefined

end JSVal

/-! ## Strings, object literals and lodash helpers -/

/-- The method `String.prototype.toLowerCase`, on the letters `A` to `Z`; other characters
are kept. -/
def toLowerCase (s : String) : String := String.mk (s.data.map Char.toLower)

/-- The pieces of a text between the dots, as `stringToPath` of lodash gives them for a path
of plain names. -/
def splitDots : List Char → List Char → List String
  | acc, [] => [String.mk acc.reverse]
  | acc, c :: rest =>
    if c == '.' then String.mk acc.reverse :: splitDots [] rest
    else splitDots (c :: acc) rest

/-- The loop of `baseGet` in lodash: it follows the keys while the object is neither `null`
nor `undefined`, and gives `undefined` when it stops before the last key. -/
def baseGet : JSVal → List String → JSVal
  | object, [] => object
  | .undefined, _ :: _ => .undefined
  | .null, _ :: _ => .undefined
  | object, key :: rest => baseGet (object.prop key) rest

/-- The function `get(object, path)` of lodash for a dotted path of plain names. The path is
taken as a single key when the object has a member of that very name (`isKey`), and is
split at the dots otherwise. -/
def get (object : JSVal) (path : String) : JSVal :=
  match object with
  | .undefined => .undefined
  | .null => .undefined
  | .obj fs =>
    if fs.any (fun kv => kv.1 == path) then baseGet object [path]
    else baseGet object (splitDots [] path.data)
  | _ => baseGet object (splitDots [] path.data)

/-- The function `includes(array, value)` of lodash on an array: membership by
`SameValueZero`. -/
def includes (array : List JSVal) (value : JSVal) : Bool :=
  array.any (fun x => x.sameValueZero value)

/-- The index denoted by a property key that is an array index: a canonical decimal numeral
below `2^32 - 1`. -/
def arrayIndex (key : String) : Option Nat :=
  match JSNum.digitsValue 10 key.data with
  | some n => if Nat.toDigits 10 n = key.data ∧ n < 4294967295 then some n else none
  | none => none

/-- The own enumerable properties of a plain object, in enumeration order. -/
abbrev Obj := List (String × JSVal)

/-- Defining a property on a plain object: an existing key keeps its place and takes the new
value; a new array-index key goes among the index keys in ascending order, which come first;
any other new key goes last. -/
def Obj.set : Obj → String → JSVal → Obj
  | [], k, v => [(k, v)]
  | (k0, v0) :: rest, k, v =>
    if k0 = k then (k, v) :: rest
    else if rest.any (fun kv => kv.1 == k) then (k0, v0) :: Obj.set rest k v
    else
      match arrayIndex k, arrayIndex k0 with
      | some i, some i0 => if i < i0 then (k, v) :: (k0, v0) :: rest else (k0, v0) :: Obj.set rest k v
      | some _, none => (k, v) :: (k0, v0) :: rest
      | none, _ => (k0, v0) :: Obj.set rest k v

/-- An object literal `{ k1: v1, k2: v2, ... }` (keys may be computed): the properties are
defined from left to right on an empty object. -/
def objectLiteral (entries : List (String × JSVal)) : Obj :=
  entries.foldl (fun o kv => Obj.set o kv.1 kv.2) []

/-- A monadic map over a list, from left to right, stopping at the first error. -/
def traverse {α β : Type} (f : α → Except JSError β) : List α → Except JSError (List β)
  | [] => .ok []
  | x :: rest =>
    match f x with
    | .ok y =>
      match traverse f rest with
      | .ok ys => .ok (y :: ys)
      | .error e => .error e
    | .error e => .error e

/-- The check `isArrayLike` of lodash on a plain object: its `length` member is a number
that passes `isLength`. The length is returned when the check passes. -/
def arrayLikeLength (o : Obj) : Option Nat :=
  match o.lookup "length" with
  | some (.num n) => n.asLength
  | _ => none

/-- The function `map(collection, iteratee)` of lodash on a collection that is absent or a
plain object; the iteratee receives the value and the key. Nothing is visited for an absent
collection. An array-like object is visited at the indices below its length, after
`Array(length)` has been allocated, which throws a `RangeError` above `2^32 - 1`. Any other
object is visited at its own enumerable properties in order. -/
def map {β : Type} (collection : Option Obj) (iteratee : JSVal → JSVal → Except JSError β) :
    Except JSError (List β) :=
  match collection with
  | none => .ok []
  | some o =>
    match arrayLikeLength o with
    | some n =>
      if n > 4294967295 then .error .rangeError
      else traverse (fun i => iteratee ((o.lookup (Nat.repr i)).getD .undefined) (.num (.ofNat i)))
        (List.range n)
    | none => traverse (fun kv => iteratee kv.2 (.str kv.1)) o

/-! ## The Probe widget -/

/-- The constants that `Probe/index.jsx` imports from `app/constants`, `app/constants/controller`,
`app/constants/workflow` and `./constants`, which are not among the sources at hand, taken as
parameters (they are primitive values), together with the text that the JavaScript engine
prints for a built-in function of a given name, and the two helpers `in2mm` and
`mapValueToUnits` that the widget imports from `app/lib/units` (not among the sources
either): they return a number, or throw. -/
structure Env where
  GRBL : Prim
  MARLIN : Prim
  SMOOTHIE : Prim
  TINYG : Prim
  GRBL_MACHINE_STATE_IDLE : Prim
  SMOOTHIE_MACHINE_STATE_IDLE : Prim
  TINYG_MACHINE_STATE_READY : Prim
  TINYG_MACHINE_STATE_STOP : Prim
  TINYG_MACHINE_STATE_END : Prim
  WORKFLOW_STATE_IDLE : Prim
  IMPERIAL_UNITS : Prim
  METRIC_UNITS : Prim
  MODAL_NONE : Prim
  MODAL_PREVIEW : Prim
  nativeSource : String → String
  in2mm : JSVal → Except JSError JSNum
  mapValueToUnits : JSVal → JSVal → Except JSError JSNum

/-- The state of the Probe widget (`this.state`), with the nested records `controller`,
`workflow` and `modal` flattened into their members. -/
structure ProbeState where
  minimized : JSVal
  isFullscreen : JSVal
  canClick : JSVal
  port : JSVal
  units : JSVal
  controllerType : JSVal
  controllerState : JSVal
  workflowState : JSVal
  modalName : JSVal
  modalParams : JSVal
  probeAxis : JSVal
  probeCommand : JSVal
  useTLO : JSVal
  probeDepth : JSVal
  probeFeedrate : JSVal
  touchPlateHeight : JSVal
  retractionDistance : JSVal

/-- The iteratee of `gcode`: `(value, letter) => String(letter + value)`. -/
def gcodeWord (value letter : JSVal) : Except JSError String := do
  let sum ← JSVal.add letter value
  sum.toStr

/-- The function `gcode(cmd, params)`:
`s = map(params, (value, letter) => String(letter + value)).join(' ')`, then
`cmd + ' ' + s` when `s` is not empty and `cmd` itself otherwise. -/
def gcode (cmd : JSVal) (params : Option Obj) : Except JSError JSVal := do
  let words ← map params gcodeWord
  let s := " ".intercalate words
  if s.length > 0 then
    let head ← JSVal.add cmd (.str " ")
    JSVal.add head (.str s)
  else
    pure cmd

/-- The method `getWorkCoordinateSystem`. -/
def getWorkCoordinateSystem (env : Env) (st : ProbeState) : JSVal :=
  let controllerType := st.controllerType
  let controllerState := st.controllerState
  let defaultWCS := JSVal.str "G54"
  if controllerType.strictEq env.GRBL.val then
    (get controllerState "parserstate.modal.wcs").or defaultWCS
  else if controllerType.strictEq env.MARLIN.val then
    (get controllerState "modal.wcs").or defaultWCS
  else if controllerType.strictEq env.SMOOTHIE.val then
    (get controllerState "parserstate.modal.wcs").or defaultWCS
  else if controllerType.strictEq env.TINYG.val then
    (get controllerState "sr.modal.wcs").or defaultWCS
  else
    defaultWCS

/-- The method `canClick`. -/
def canClick (env : Env) (st : ProbeState) : Bool :=
  let port := st.port
  let controllerType := st.controllerType
  let controllerState := st.controllerState
  if !port.truthy then false
  else if !(st.workflowState.strictEq env.WORKFLOW_STATE_IDLE.val) then false
  else if !(includes [env.GRBL.val, env.MARLIN.val, env.SMOOTHIE.val, env.TINYG.val]
      controllerType) then false
  else if controllerType.strictEq env.GRBL.val &&
      !(includes [env.GRBL_MACHINE_STATE_IDLE.val] (get controllerState "status.machineState"))
    then false
  else if controllerType.strictEq env.SMOOTHIE.val &&
      !(includes [env.SMOOTHIE_MACHINE_STATE_IDLE.val]
        (get controllerState "status.machineState"))
    then false
  else if controllerType.strictEq env.TINYG.val &&
      !(includes [env.TINYG_MACHINE_STATE_READY.val, env.TINYG_MACHINE_STATE_STOP.val,
        env.TINYG_MACHINE_STATE_END.val] (get controllerState "sr.machineState"))
    then false
  else true

/-- The names of the members that every plain object inherits from `Object.prototype`. -/
def objectPrototypeKeys : List String :=
  ["constructor", "__defineGetter__", "__defineSetter__", "hasOwnProperty",
   "__lookupGetter__", "__lookupSetter__", "isPrototypeOf", "propertyIsEnumerable",
   "toString", "valueOf", "__proto__", "toLocaleString"]

/-- The member that a plain object inherits from `Object.prototype` under the given name:
the constructor `Object`, the prototype object itself for `__proto__`, a built-in method for
the other names, and nothing for any other key. -/
def objectPrototypeMember (env : Env) (key : String) : Option JSVal :=
  if key = "constructor" then some (.fn (env.nativeSource "Object"))
  else if key = "__proto__" then some (.obj [])
  else if objectPrototypeKeys.contains key then some (.fn (env.nativeSource key))
  else none

/-- The local function `mapWCSToP` of `populateProbeCommands`: the table read at `wcs`
(an own entry, else an inherited member, else `undefined`), then `|| 0`. -/
def mapWCSToP (env : Env) (wcs : JSVal) : Except JSError JSVal := do
  let key ← wcs.toStr
  let table : Obj := objectLiteral
    [("G54", .num (.ofNat 1)), ("G55", .num (.ofNat 2)), ("G56", .num (.ofNat 3)),
     ("G57", .num (.ofNat 4)), ("G58", .num (.ofNat 5)), ("G59", .num (.ofNat 6))]
  let found : JSVal := match table.lookup key with
    | some v => v
    | none => (objectPrototypeMember env key).getD .undefined
  pure (found.or (.num (.ofNat 0)))

/-- The call `probeAxis.toLowerCase()`: the method exists on strings only, so any other value
throws a `TypeError`. -/
def callToLowerCase : JSVal → Except JSError String
  | .str s => .ok (toLowerCase s)
  | _ => .error .typeError

/-- The list `tloProbeCommands` of `populateProbeCommands`. -/
def tloProbeCommands (probeAxis probeCommand probeDepth probeFeedrate touchPlateHeight
    retractionDistance : JSVal) (towardWorkpiece : Bool) (posname : String) :
    Except JSError (List JSVal) := do
  let c1 ← gcode (.str "; Cancel tool length offset") none
  let c2 ← gcode (.str "G49") none
  let c3 ← gcode (.str ("; " ++ (← probeAxis.toStr) ++ "-Probe")) none
  let c4 ← gcode (.str "G91") none
  let c5 ← gcode probeCommand (some (objectLiteral
    [(← probeAxis.toStr, ← if towardWorkpiece then probeDepth.neg else pure probeDepth),
     ("F", probeFeedrate)]))
  let c6 ← gcode (.str "G90") none
  let c7 ← gcode (.str "; A dwell time of one second") none
  let c8 ← gcode (.str "G4 P1") none
  let c9 ← gcode (.str "; Set tool length offset") none
  let c10 ← gcode (.str "G43.1") (some (objectLiteral
    [(← probeAxis.toStr,
      ← if towardWorkpiece then
          (do pure (.str ("[" ++ posname ++ "-" ++ (← touchPlateHeight.toStr) ++ "]")))
        else
          (do pure (.str ("[" ++ posname ++ "+" ++ (← touchPlateHeight.toStr) ++ "]"))))]))
  let c11 ← gcode (.str "; Retract from the touch plate") none
  let c12 ← gcode (.str "G91") none
  let c13 ← gcode (.str "G0") (some (objectLiteral [(← probeAxis.toStr, retractionDistance)]))
  let c14 ← gcode (.str "G90") none
  pure [c1, c2, c3, c4, c5, c6, c7, c8, c9, c10, c11, c12, c13, c14]

/-- The list `wcsProbeCommands` of `populateProbeCommands`. -/
def wcsProbeCommands (env : Env) (probeAxis probeCommand probeDepth probeFeedrate
    touchPlateHeight retractionDistance wcs : JSVal) (towardWorkpiece : Bool) :
    Except JSError (List JSVal) := do
  let c1 ← gcode (.str ("; " ++ (← probeAxis.toStr) ++ "-Probe")) none
  let c2 ← gcode (.str "G91") none
  let c3 ← gcode probeCommand (some (objectLiteral
    [(← probeAxis.toStr, ← if towardWorkpiece then probeDepth.neg else pure probeDepth),
     ("F", probeFeedrate)]))
  let c4 ← gcode (.str "G90") none
  let c5 ← gcode (.str ("; Set the active WCS " ++ (← probeAxis.toStr) ++ "0")) none
  let c6 ← gcode (.str "G10") (some (objectLiteral
    [("L", .num (.ofNat 20)), ("P", ← mapWCSToP env wcs), (← probeAxis.toStr, touchPlateHeight)]))
  let c7 ← gcode (.str "; Retract from the touch plate") none
  let c8 ← gcode (.str "G91") none
  let c9 ← gcode (.str "G0") (some (objectLiteral [(← probeAxis.toStr, retractionDistance)]))
  let c10 ← gcode (.str "G90") none
  pure [c1, c2, c3, c4, c5, c6, c7, c8, c9, c10]

/-- The action `populateProbeCommands`: both lists are built, then one is returned
according to `useTLO`. -/
def populateProbeCommands (env : Env) (st : ProbeState) : Except JSError (List JSVal) := do
  let probeAxis := st.probeAxis
  let probeCommand := st.probeCommand
  let useTLO := st.useTLO
  let probeDepth := st.probeDepth
  let probeFeedrate := st.probeFeedrate
  let touchPlateHeight := st.touchPlateHeight
  let retractionDistance := st.retractionDistance
  let wcs := getWorkCoordinateSystem env st
  let towardWorkpiece := includes [.str "G38.2", .str "G38.3"] probeCommand
  let posname := "pos" ++ (← callToLowerCase probeAxis)
  let tlo ← tloProbeCommands probeAxis probeCommand probeDepth probeFeedrate touchPlateHeight
    retractionDistance towardWorkpiece posname
  let wcsCommands ← wcsProbeCommands env probeAxis probeCommand probeDepth probeFeedrate
    touchPlateHeight retractionDistance wcs towardWorkpiece
  pure (if useTLO.truthy then tlo else wcsCommands)

/-! ## Units, persisted configuration and events of the Probe widget -/

/-- Modelled from the spec: the helper `in2mm` of `app/lib/units`, which is not among the
sources. The specification gives the conversion to millimetres as the multiplication by the
fixed inch-to-millimetre constant 25.4. The product is taken on the decimal numerals;
`Units.in2mm` is the same helper with the product rounded to a double. -/
def in2mm (val : JSVal) : Except JSError JSNum :=
  (val.toNumber).map (fun n => n.mul (.fin false 254 (-1)))

/-- Modelled from the spec: the helper `mapValueToUnits` of `app/lib/units`, which is not
among the sources. The specification gives the conversion from millimetres as the identity
for metric units and as the division by 25.4 otherwise, that is for imperial units; `NaN`
and negative values pass through. -/
def mapValueToUnits (imperialUnits : Prim) (val units : JSVal) : Except JSError JSNum :=
  (val.toNumber).map (fun n =>
    if units.strictEq imperialUnits.val then n.div (.fin false 254 (-1)) else n)

namespace Units

/-- Modelled from the spec: the helper `in2mm` of `app/lib/units`, which is not among the
sources, as the multiplication by 25.4 with the operator `*` of JavaScript, that is with the
product rounded to the nearest double. -/
def in2mm (val : JSVal) : Except JSError JSNum :=
  (val.toNumber).map (fun n => n.times (.fin false 254 (-1)))

/-- Modelled from the spec: the helper `mapValueToUnits` of `app/lib/units`, which is not
among the sources, as the identity for metric units and the division by 25.4 with the
operator `/` of JavaScript otherwise, that is with the quotient rounded to the nearest
double. -/
def mapValueToUnits (imperialUnits : Prim) (val units : JSVal) : Except JSError JSNum :=
  (val.toNumber).map (fun n =>
    if units.strictEq imperialUnits.val then n.over (.fin false 254 (-1)) else n)

end Units

/-- Modelled from the spec: the persisted configuration of the widget (the class
`WidgetConfig`, which is not among the sources), a store of values under flat keys with the
operations `get(key, default)` and `set(key, value)`. -/
abbrev Config := List (String × JSVal)

/-- Modelled from the spec: `config.get(key, defaultValue)`, the stored value, or the default
when the key holds none. -/
def Config.get (config : Config) (key : String) (defaultValue : JSVal) : JSVal :=
  (config.lookup key).getD defaultValue

/-- Modelled from the spec: `config.set(key, value)`, after which the key holds the value. -/
def Config.set (config : Config) (key : String) (value : JSVal) : Config :=
  (key, value) :: config.filter (fun kv => kv.1 != key)

/-- The Probe widget as a component instance: its state, the instance field
`unitsDidChange`, and its persisted configuration. -/
structure Widget where
  state : ProbeState
  unitsDidChange : Bool
  config : Config

/-- The member access `v.key` for a key that no standard prototype defines: a `TypeError` on
`undefined` and `null`, the own member of a plain object, `undefined` otherwise. -/
def JSVal.member (v : JSVal) (key : String) : Except JSError JSVal :=
  match v with
  | .undefined => .error .typeError
  | .null => .error .typeError
  | _ => .ok (v.prop key)

/-- The destructuring `const { key } = { ...source }`: the spread copies the own members of
`source` (none for `undefined` and `null`), then the member `key` of the copy is read. -/
def spreadMember (source : JSVal) (key : String) : JSVal := source.prop key

/-- The destructuring `const { key = {} } = { ...source }`: as `spreadMember`, with the empty
object in place of an `undefined` member (and of no other value). -/
def spreadMemberOrEmpty (source : JSVal) (key : String) : JSVal :=
  match source.prop key with
  | .undefined => .obj []
  | v => v

/-- The expression `{ 'G20': IMPERIAL_UNITS, 'G21': METRIC_UNITS }[token] || units`: the table
read at the token (an own entry, else an inherited member, else `undefined`), then the
previous units when that is falsy. -/
def unitsOfToken (env : Env) (token units : JSVal) : Except JSError JSVal := do
  let key ← token.toStr
  let table : Obj := objectLiteral
    [("G20", env.IMPERIAL_UNITS.val), ("G21", env.METRIC_UNITS.val)]
  let found : JSVal := match table.lookup key with
    | some v => v
    | none => (objectPrototypeMember env key).getD .undefined
  pure (found.or units)

/-- The two statements `const { modal = {} } = { ...record };` and
`units = { 'G20': IMPERIAL_UNITS, 'G21': METRIC_UNITS }[modal.units] || units;` that each
firmware block of the `'controller:state'` handler runs on its record. -/
def modalUnits (env : Env) (record units : JSVal) : Except JSError JSVal := do
  let modal := spreadMemberOrEmpty record "modal"
  unitsOfToken env (← modal.member "units") units

/-- The units that the `'controller:state'` handler computes: the four firmware blocks in
turn, each guarded by its own `if`, starting from the units of the state. -/
def controllerStateUnits (env : Env) (units type state : JSVal) : Except JSError JSVal := do
  let u1 ← if type.strictEq env.GRBL.val then
      modalUnits env (spreadMember state "parserstate") units
    else pure units
  let u2 ← if type.strictEq env.MARLIN.val then modalUnits env state u1 else pure u1
  let u3 ← if type.strictEq env.SMOOTHIE.val then
      modalUnits env (spreadMember state "parserstate") u2
    else pure u2
  let u4 ← if type.strictEq env.TINYG.val then
      modalUnits env (spreadMember state "sr") u3
    else pure u3
  pure u4

/-- The four values `mapValueToUnits(this.config.get(key), units)` that the
`'controller:state'` handler passes to `setState`, in the order of the source. -/
def persistedInUnits (env : Env) (config : Config) (units : JSVal) :
    Except JSError (JSNum × JSNum × JSNum × JSNum) := do
  let probeDepth ← env.mapValueToUnits (config.get "probeDepth" .undefined) units
  let probeFeedrate ← env.mapValueToUnits (config.get "probeFeedrate" .undefined) units
  let touchPlateHeight ← env.mapValueToUnits (config.get "touchPlateHeight" .undefined) units
  let retractionDistance ←
    env.mapValueToUnits (config.get "retractionDistance" .undefined) units
  pure (probeDepth, probeFeedrate, touchPlateHeight, retractionDistance)

/-- The handler of the event `'controller:state'`: the widget after the event, and the error
thrown, if any. An error in the computation of the units leaves the widget as it was; an
error in the arguments of `setState` comes after the assignment of `unitsDidChange`. -/
def controllerStateHandler (env : Env) (w : Widget) (type state : JSVal) :
    Widget × Option JSError :=
  match controllerStateUnits env w.state.units type state with
  | .error e => (w, some e)
  | .ok units =>
    let flagged : Widget :=
      { w with unitsDidChange := if !(w.state.units.strictEq units) then true
          else w.unitsDidChange }
    match persistedInUnits env w.config units with
    | .error e => (flagged, some e)
    | .ok values =>
      ({ flagged with state :=
          { w.state with
            units := units
            controllerType := type
            controllerState := state
            probeDepth := .num values.1
            probeFeedrate := .num values.2.1
            touchPlateHeight := .num values.2.2.1
            retractionDistance := .num values.2.2.2 } }, none)

/-- The outcome of a lifecycle method: the widget after it, the calls `config.set(key, value)`
that it made, in order, and the error thrown, if any. -/
structure Outcome where
  widget : Widget
  writes : List (String × JSVal)
  error : Option JSError

/-- The calls `this.config.set(key, Number(value))` of `componentDidUpdate`, in turn: a call
whose `Number(value)` throws ends the method, the earlier writes staying made. -/
def setNumbers (w : Widget) (writes : List (String × JSVal)) :
    List (String × JSVal) → Outcome
  | [] => ⟨w, writes, none⟩
  | (key, value) :: rest =>
    match value.toNumber with
    | .error e => ⟨w, writes, some e⟩
    | .ok n =>
      setNumbers { w with config := w.config.set key (.num n) } (writes ++ [(key, .num n)]) rest

/-- The four values that `componentDidUpdate` saves: `in2mm` of the displayed values when the
units are `IMPERIAL_UNITS`, the displayed values otherwise. -/
def valuesToSave (env : Env) (st : ProbeState) :
    Except JSError (JSVal × JSVal × JSVal × JSVal) :=
  if st.units.strictEq env.IMPERIAL_UNITS.val then do
    let probeDepth ← env.in2mm st.probeDepth
    let probeFeedrate ← env.in2mm st.probeFeedrate
    let touchPlateHeight ← env.in2mm st.touchPlateHeight
    let retractionDistance ← env.in2mm st.retractionDistance
    pure (.num probeDepth, .num probeFeedrate, .num touchPlateHeight, .num retractionDistance)
  else
    pure (st.probeDepth, st.probeFeedrate, st.touchPlateHeight, st.retractionDistance)

/-- The method `componentDidUpdate`: `minimized` is saved; when `unitsDidChange` is set it is
cleared and nothing else happens; otherwise `probeCommand` and `useTLO` are saved, then the
four values, converted to millimetres, as numbers. -/
def componentDidUpdate (env : Env) (w : Widget) : Outcome :=
  let st := w.state
  let w1 : Widget := { w with config := w.config.set "minimized" st.minimized }
  let writes1 := [("minimized", st.minimized)]
  if w1.unitsDidChange then
    ⟨{ w1 with unitsDidChange := false }, writes1, none⟩
  else
    let w2 : Widget :=
      { w1 with config :=
          (w1.config.set "probeCommand" st.probeCommand).set "useTLO" st.useTLO }
    let writes2 := writes1 ++ [("probeCommand", st.probeCommand), ("useTLO", st.useTLO)]
    match valuesToSave env st with
    | .error e => ⟨w2, writes2, some e⟩
    | .ok values =>
      setNumbers w2 writes2
        [("probeDepth", values.1), ("probeFeedrate", values.2.1),
         ("touchPlateHeight", values.2.2.1), ("retractionDistance", values.2.2.2)]

/-- The action `runProbeCommands` of the widget in the given state: the calls
`controller.command(name, argument)` that it hands to the controller transport. -/
def runProbeCommands (_st : ProbeState) (commands : JSVal) : List (String × JSVal) :=
  [("gcode", commands)]

/-! ## Initial state, connection events and edits of the Probe widget -/

/-- The members of the `controller` singleton (`app/lib/controller`, an instance of the
external controller library) that the widgets read: `controller.port`, `controller.type`,
`controller.state` and `controller.workflow.state`, at the time of the read. -/
structure Controller where
  port : JSVal
  type : JSVal
  state : JSVal
  workflowState : JSVal

/-- The expression `Number(value || 0).toFixed(3) * 1` of `getInitialState`. -/
def fixedThree (value : JSVal) : Except JSError JSVal := do
  let n ← (value.or (.num (.ofNat 0))).toNumber
  JSVal.mul (.str (n.toFixed 3)) (.num (.ofNat 1))

/-- The method `getInitialState` of the Probe widget: the fields of the state read from the
persisted configuration and from the `controller` singleton. -/
def getInitialState (env : Env) (controller : Controller) (config : Config) :
    Except JSError ProbeState := do
  let probeDepth ← fixedThree (config.get "probeDepth" .undefined)
  let probeFeedrate ← fixedThree (config.get "probeFeedrate" .undefined)
  let touchPlateHeight ← fixedThree (config.get "touchPlateHeight" .undefined)
  let retractionDistance ← fixedThree (config.get "retractionDistance" .undefined)
  pure
    { minimized := config.get "minimized" (.bool false)
      isFullscreen := .bool false
      canClick := .bool true
      port := controller.port
      units := env.METRIC_UNITS.val
      controllerType := controller.type
      controllerState := controller.state
      workflowState := controller.workflowState
      modalName := env.MODAL_NONE.val
      modalParams := .obj []
      probeAxis := config.get "probeAxis" (.str "Z")
      probeCommand := config.get "probeCommand" (.str "G38.2")
      useTLO := config.get "useTLO" .undefined
      probeDepth := probeDepth
      probeFeedrate := probeFeedrate
      touchPlateHeight := touchPlateHeight
      retractionDistance := retractionDistance }

/-- The handler of the event `'serialport:open'`: the port of the message is stored. -/
def serialportOpenHandler (w : Widget) (options : JSVal) : Widget × Option JSError :=
  match options.member "port" with
  | .error e => (w, some e)
  | .ok port => ({ w with state := { w.state with port := port } }, none)

/-- The handler of the event `'serialport:close'`: every field of the state is replaced by
the one of `getInitialState()`. An error thrown there leaves the widget as it was. -/
def serialportCloseHandler (env : Env) (controller : Controller) (w : Widget) :
    Widget × Option JSError :=
  match getInitialState env controller w.config with
  | .error e => (w, some e)
  | .ok initialState => ({ w with state := initialState }, none)

/-- The handler of the event `'workflow:state'`: the state member `workflow` becomes
`{ state: workflowState }`. -/
def workflowStateHandler (w : Widget) (workflowState : JSVal) : Widget :=
  { w with state := { w.state with workflowState := workflowState } }

/-- The action `changeProbeAxis`. -/
def changeProbeAxis (w : Widget) (value : JSVal) : Widget :=
  { w with state := { w.state with probeAxis := value } }

/-- The action `changeProbeCommand`. -/
def changeProbeCommand (w : Widget) (value : JSVal) : Widget :=
  { w with state := { w.state with probeCommand := value } }

/-- The action `toggleUseTLO`. -/
def toggleUseTLO (w : Widget) : Widget :=
  { w with state := { w.state with useTLO := w.state.useTLO.not } }

/-- The action `handleProbeDepthChange`, applied to the value `event.target.value` of the
input: the value is stored as it is. -/
def handleProbeDepthChange (w : Widget) (value : JSVal) : Widget :=
  { w with state := { w.state with probeDepth := value } }

/-- The action `handleProbeFeedrateChange`, applied to `event.target.value`. -/
def handleProbeFeedrateChange (w : Widget) (value : JSVal) : Widget :=
  { w with state := { w.state with probeFeedrate := value } }

/-- The action `handleTouchPlateHeightChange`, applied to `event.target.value`. -/
def handleTouchPlateHeightChange (w : Widget) (value : JSVal) : Widget :=
  { w with state := { w.state with touchPlateHeight := value } }

/-- The action `handleRetractionDistanceChange`, applied to `event.target.value`. -/
def handleRetractionDistanceChange (w : Widget) (value : JSVal) : Widget :=
  { w with state := { w.state with retractionDistance := value } }

/-! ## The G-code widget -/

/-- A corner or an extent of the bounding box: the members `x`, `y`, `z`. -/
structure Position where
  x : JSVal
  y : JSVal
  z : JSVal

/-- The state member `bbox` of the G-code widget: the members `min`, `max`, `delta`. -/
structure Bbox where
  min : Position
  max : Position
  delta : Position

/-- The state of the G-code widget. -/
structure GCodeState where
  minimized : JSVal
  isFullscreen : JSVal
  port : JSVal
  units : JSVal
  total : JSVal
  sent : JSVal
  received : JSVal
  startTime : JSVal
  finishTime : JSVal
  elapsedTime : JSVal
  remainingTime : JSVal
  bbox : Bbox

namespace GCodeWidget

/-- The object literal `{ min: { x: 0, y: 0, z: 0 }, max: { ... }, delta: { ... } }` that
`getInitialState` and the `'gcode:unload'` handler write. -/
def zeroBbox : Bbox where
  min := { x := .num (.ofNat 0), y := .num (.ofNat 0), z := .num (.ofNat 0) }
  max := { x := .num (.ofNat 0), y := .num (.ofNat 0), z := .num (.ofNat 0) }
  delta := { x := .num (.ofNat 0), y := .num (.ofNat 0), z := .num (.ofNat 0) }

/-- The method `getInitialState` of the G-code widget. -/
def getInitialState (env : Env) (controller : Controller) (config : Config) : GCodeState where
  minimized := config.get "minimized" (.bool false)
  isFullscreen := .bool false
  port := controller.port
  units := env.METRIC_UNITS.val
  total := .num (.ofNat 0)
  sent := .num (.ofNat 0)
  received := .num (.ofNat 0)
  startTime := .num (.ofNat 0)
  finishTime := .num (.ofNat 0)
  elapsedTime := .num (.ofNat 0)
  remainingTime := .num (.ofNat 0)
  bbox := zeroBbox

/-- The handler of the event `'serialport:open'`. -/
def serialportOpenHandler (g : GCodeState) (options : JSVal) : GCodeState × Option JSError :=
  match options.member "port" with
  | .error e => (g, some e)
  | .ok port => ({ g with port := port }, none)

/-- The handler of the event `'serialport:close'`: every field of the state is replaced by
the one of `getInitialState()`. -/
def serialportCloseHandler (env : Env) (controller : Controller) (config : Config)
    (_g : GCodeState) : GCodeState :=
  getInitialState env controller config

/-- The handler of the event `'gcode:unload'`. -/
def unloadHandler (g : GCodeState) : GCodeState := { g with bbox := zeroBbox }

/-- The handler of the event `'sender:status'`. -/
def senderStatusHandler (g : GCodeState) (data : JSVal) : GCodeState × Option JSError :=
  match data.member "total" with
  | .error e => (g, some e)
  | .ok total =>
    ({ g with
        total := total
        sent := data.prop "sent"
        received := data.prop "received"
        startTime := data.prop "startTime"
        finishTime := data.prop "finishTime"
        elapsedTime := data.prop "elapsedTime"
        remainingTime := data.prop "remainingTime" }, none)

/-- One firmware block of the `'controller:state'` handler, run when its guard `type === K`
holds: the units are computed from the record and from `this.state.units`, and stored with
`setState` when they are not `===` to the units of the state. The first component is the
state so far, the second the error thrown so far (after which nothing runs). -/
def unitsBlock (env : Env) (guard : Bool) (record : JSVal)
    (r : GCodeState × Option JSError) : GCodeState × Option JSError :=
  match r.2 with
  | some _ => r
  | none =>
    if guard then
      match modalUnits env record r.1.units with
      | .error e => (r.1, some e)
      | .ok units =>
        if !(r.1.units.strictEq units) then ({ r.1 with units := units }, none) else r
    else r

/-- The handler of the event `'controller:state'` of the G-code widget: the four firmware
blocks in turn. A `setState` in a block is taken to be applied before the next block reads
`this.state.units`; at most one block runs when the four firmware tags differ, so that the
order of application then plays no part. -/
def controllerStateHandler (env : Env) (g : GCodeState) (type state : JSVal) :
    GCodeState × Option JSError :=
  let r1 := unitsBlock env (type.strictEq env.GRBL.val) (spreadMember state "parserstate")
    (g, none)
  let r2 := unitsBlock env (type.strictEq env.MARLIN.val) state r1
  let r3 := unitsBlock env (type.strictEq env.SMOOTHIE.val) (spreadMember state "parserstate") r2
  unitsBlock env (type.strictEq env.TINYG.val) (spreadMember state "sr") r3

/-- The bounding box that the subscriber of `'gcode:bbox'` builds from its message: the
differences `bbox.max.x - bbox.min.x` (and for `y`, `z`) first, then the copies of the corners. -/
def bboxOfMessage (bbox : JSVal) : Except JSError Bbox := do
  let dX ← JSVal.sub (← (← bbox.member "max").member "x") (← (← bbox.member "min").member "x")
  let dY ← JSVal.sub (← (← bbox.member "max").member "y") (← (← bbox.member "min").member "y")
  let dZ ← JSVal.sub (← (← bbox.member "max").member "z") (← (← bbox.member "min").member "z")
  let min ← bbox.member "min"
  let max ← bbox.member "max"
  pure
    { min := { x := min.prop "x", y := min.prop "y", z := min.prop "z" }
      max := { x := max.prop "x", y := max.prop "y", z := max.prop "z" }
      delta := { x := dX, y := dY, z := dZ } }

/-- The subscriber of the topic `'gcode:bbox'`: the bounding box of the message is stored; an
error thrown on the way leaves the state as it was. -/
def bboxSubscriber (g : GCodeState) (bbox : JSVal) : GCodeState × Option JSError :=
  match bboxOfMessage bbox with
  | .error e => (g, some e)
  | .ok b => ({ g with bbox := b }, none)

/-- The method `toggleFullscreen`. -/
def toggleFullscreen (g : GCodeState) : GCodeState :=
  { g with
    minimized := if g.isFullscreen.truthy then g.minimized else .bool false
    isFullscreen := g.isFullscreen.not }

/-- The method `toggleMinimized`. -/
def toggleMinimized (g : GCodeState) : GCodeState := { g with minimized := g.minimized.not }

end GCodeWidget

/-! ## The Webcam widget -/

/-- The state of the Webcam widget. -/
structure WebcamState where
  disabled : JSVal
  minimized : JSVal
  isFullscreen : JSVal
  mediaSource : JSVal
  deviceId : JSVal
  url : JSVal
  scale : JSVal
  rotation : JSVal
  flipHorizontally : JSVal
  flipVertically : JSVal
  crosshair : JSVal
  muted : JSVal

namespace WebcamWidget

/-- The expression `(flipHorizontally && flipVertically) || (!flipHorizontally &&
!flipVertically)` that both rotations compute. -/
def flipsAgree (st : WebcamState) : JSVal :=
  (st.flipHorizontally.and st.flipVertically).or
    (st.flipHorizontally.not.and st.flipVertically.not)

/-- The expression `(Math.abs(Number(rotation || 0)) + modulus + i) % modulus` with
`modulus = 4`. -/
def nextRotation (rotation : JSVal) (i : JSNum) : Except JSError JSNum := do
  let n ← (rotation.or (.num (.ofNat 0))).toNumber
  pure (((n.abs.add (.ofNat 4)).add i).rem (.ofNat 4))

/-- The action `rotateLeft`: the step is `-1` when the flips agree, `1` otherwise. An error
thrown by `Number` leaves the state as it was. -/
def rotateLeft (st : WebcamState) : WebcamState × Option JSError :=
  let i : JSNum := if (flipsAgree st).truthy then (JSNum.ofNat 1).neg else .ofNat 1
  match nextRotation st.rotation i with
  | .error e => (st, some e)
  | .ok r => ({ st with rotation := .num r }, none)

/-- The action `rotateRight`: the step is `1` when the flips agree, `-1` otherwise. -/
def rotateRight (st : WebcamState) : WebcamState × Option JSError :=
  let i : JSNum := if (flipsAgree st).truthy then .ofNat 1 else (JSNum.ofNat 1).neg
  match nextRotation st.rotation i with
  | .error e => (st, some e)
  | .ok r => ({ st with rotation := .num r }, none)

end WebcamWidget

/-! ## The Connection widget -/

/-- The members of `this.props.state` that `render` of the Connection component reads. -/
structure ConnectionState where
  loading : JSVal
  connecting : JSVal
  connected : JSVal
  controllerType : JSVal
  ports : JSVal
  baudrates : JSVal
  port : JSVal
  baudrate : JSVal
  autoReconnect : JSVal
  connection : JSVal
  alertMessage : JSVal

namespace Connection

/-- The constant `canOpenPort` of `render`:
`port && baudrate && notConnecting && notConnected`. -/
def canOpenPort (state : ConnectionState) : JSVal :=
  let notConnecting := state.connecting.not
  let notConnected := state.connected.not
  ((state.port.and state.baudrate).and notConnecting).and notConnected

/-- The constant `canClosePort` of `render`: `connected`. -/
def canClosePort (state : ConnectionState) : JSVal := state.connected

end Connection

/-- One assignment of the constants (the values that cncjs gives them), with the text that
V8 prints for a built-in function and the helpers as the specification describes them; it
is used to evaluate the definitions on examples. -/
def sampleEnv : Env where
  GRBL := .str "Grbl"
  MARLIN := .str "Marlin"
  SMOOTHIE := .str "Smoothie"
  TINYG := .str "TinyG"
  GRBL_MACHINE_STATE_IDLE := .str "Idle"
  SMOOTHIE_MACHINE_STATE_IDLE := .str "Idle"
  TINYG_MACHINE_STATE_READY := .num (.ofNat 1)
  TINYG_MACHINE_STATE_STOP := .num (.ofNat 3)
  TINYG_MACHINE_STATE_END := .num (.ofNat 4)
  WORKFLOW_STATE_IDLE := .str "idle"
  IMPERIAL_UNITS := .str "in"
  METRIC_UNITS := .str "mm"
  MODAL_NONE := .str "none"
  MODAL_PREVIEW := .str "preview"
  nativeSource := fun name => "function " ++ name ++ "() \x7b [native code] \x7d"
  in2mm := in2mm
  mapValueToUnits := mapValueToUnits (.str "in")

/-- The constants of `sampleEnv` with the two helpers of `app/lib/units` computing on
doubles. -/
def unitsEnv : Env :=
  { sampleEnv with
    in2mm := Units.in2mm
    mapValueToUnits := Units.mapValueToUnits (.str "in") }

/-- A widget state with an open port, an idle Grbl controller that reports the given work
coordinate token, and the probe parameters of the specification's example
(axis `Z`, `G38.2`, depth 10, feedrate 100, plate height 19.5, retraction 5). -/
def sampleState (useTLO : JSVal) (wcs : JSVal) : ProbeState where
  minimized := .bool false
  isFullscreen := .bool false
  canClick := .bool true
  port := .str "/dev/ttyUSB0"
  units := .str "mm"
  controllerType := .str "Grbl"
  controllerState := .obj
    [("status", .obj [("machineState", .str "Idle")]),
     ("parserstate", .obj [("modal", .obj [("units", .str "G21"), ("wcs", wcs)])])]
  workflowState := .str "idle"
  modalName := .str "none"
  modalParams := .obj []
  probeAxis := .str "Z"
  probeCommand := .str "G38.2"
  useTLO := useTLO
  probeDepth := .num (.ofNat 10)
  probeFeedrate := .num (.ofNat 100)
  touchPlateHeight := .num (.fin false 195 (-1))
  retractionDistance := .num (.ofNat 5)

/-- A widget whose state is `sampleState` with the given units, controller type and state,
with the flag `unitsDidChange` cleared, and with the probe parameters of the specification's
example persisted in millimetres. -/
def sampleWidget (units type state : JSVal) : Widget where
  state := { sampleState .undefined (.str "G54") with
    units := units, controllerType := type, controllerState := state }
  unitsDidChange := false
  config :=
    [("minimized", .bool false), ("probeCommand", .str "G38.2"),
     ("probeDepth", .num (.ofNat 10)), ("probeFeedrate", .num (.ofNat 100)),
     ("touchPlateHeight", .num (.fin false 195 (-1))),
     ("retractionDistance", .num (.ofNat 5))]

/-- A `controller` singleton without a connection: no port, no firmware, an empty state and
an idle workflow. -/
def sampleController : Controller where
  port := .str ""
  type := .str ""
  state := .obj []
  workflowState := .str "idle"

/-- The sample widget in inches that displays a probe depth of 0.3937 in. -/
def sampleInches : Widget :=
  { sampleWidget (.str "in") (.str "Grbl") (.obj []) with
    state := { (sampleWidget (.str "in") (.str "Grbl") (.obj [])).state with
      probeDepth := .num (.fin false 3937 (-4)) } }

/-- The sample widget in millimetres whose stored probe depth is 9.99998. -/
def sampleStored : Widget :=
  { sampleWidget (.str "mm") (.str "Grbl") (.obj []) with
    config := (sampleWidget (.str "mm") (.str "Grbl") (.obj [])).config.set "probeDepth"
      (.num (.fin false 999998 (-5))) }

/-- A state of the G-code widget with an open port and the given units. -/
def sampleGCode (units : JSVal) : GCodeState :=
  { GCodeWidget.getInitialState sampleEnv sampleController [] with
    port := .str "/dev/ttyUSB0", units := units }

/-- A state of the Webcam widget with the given rotation and flips. -/
def sampleWebcam (rotation flipHorizontally flipVertically : JSVal) : WebcamState where
  disabled := .bool false
  minimized := .bool false
  isFullscreen := .bool false
  mediaSource := .str "local"
  deviceId := .str ""
  url := .str ""
  scale := .num (.ofNat 1)
  rotation := rotation
  flipHorizontally := flipHorizontally
  flipVertically := flipVertically
  crosshair := .bool false
  muted := .bool false

/-! ## Notions used to state the properties -/

/-- The four firmware tags are told apart by `===`: each tag equals itself and no other
(as the four different names of the firmwares do). -/
def Env.kindsDistinct (env : Env) : Bool :=
  let g := env.GRBL.val
  let m := env.MARLIN.val
  let s := env.SMOOTHIE.val
  let t := env.TINYG.val
  g.strictEq g && m.strictEq m && s.strictEq s && t.strictEq t &&
  !(g.strictEq m) && !(g.strictEq s) && !(g.strictEq t) &&
  !(m.strictEq g) && !(m.strictEq s) && !(m.strictEq t) &&
  !(s.strictEq g) && !(s.strictEq m) && !(s.strictEq t) &&
  !(t.strictEq g) && !(t.strictEq m) && !(t.strictEq s)

/-- The primitive that `ToPrimitive` gives for a value (`undefined` when it throws). -/
def primOf (v : JSVal) : Prim :=
  match v.toPrimitive with
  | .ok p => p
  | .error _ => .undefined

/-- An axis name that keeps its place in the object literals of `populateProbeCommands`:
it is not empty, differs from the letters `F`, `L`, `P` and from `length`, and is no array
index. The axes `X`, `Y`, `Z` are of this kind. -/
def PlainAxis (a : String) : Prop :=
  a ≠ "" ∧ a ≠ "F" ∧ a ≠ "L" ∧ a ≠ "P" ∧ a ≠ "length" ∧ arrayIndex a = none

instance (a : String) : Decidable (PlainAxis a) := by
  unfold PlainAxis
  infer_instance

/-- The probe depth as it is written in the probe move: negated (as a number) when
probing toward the workpiece, as it is otherwise. -/
def signedDepth (towardWorkpiece : Bool) (d : Prim) : Prim :=
  if towardWorkpiece then .num d.toNumber.neg else d

/-- The register that `mapWCSToP` gives for a key that is no member of `Object.prototype`:
the table entry of `G54` to `G59`, and `0` for any other key. -/
def registerOf (key : String) : Nat :=
  if key = "G54" then 1 else if key = "G55" then 2 else if key = "G56" then 3
  else if key = "G57" then 4 else if key = "G58" then 5 else if key = "G59" then 6 else 0

/-- The widget state holds the probe parameter set `(a, pc, d, f, h, r)`: the axis and the
probe command are the strings `a` and `pc`, and the probe depth, the feedrate, the touch
plate height and the retraction distance are the primitive values `d`, `f`, `h`, `r`
(numbers as loaded from the configuration, or the text of an input box). -/
def HasParams (st : ProbeState) (a pc : String) (d f h r : Prim) : Prop :=
  st.probeAxis = .str a ∧ st.probeCommand = .str pc ∧ st.probeDepth = d.val ∧
  st.probeFeedrate = f.val ∧ st.touchPlateHeight = h.val ∧ st.retractionDistance = r.val

/-- Whether the probe command is `G38.2` or `G38.3` (probing toward the workpiece). -/
def isToward (pc : String) : Bool := pc == "G38.2" || pc == "G38.3"

/-- Whether a list element is a comment line: a string that starts with `;`. -/
def isComment : JSVal → Bool
  | .str s => s.data.head? == some ';'
  | _ => false

/-- The first token of a line: the text before its first space. -/
def firstToken (s : String) : String := String.mk (s.data.takeWhile (fun c => c != ' '))

/-- Whether a list element is a command line whose first token is one of the given
mnemonics. -/
def isCommandLine (mnemonics : List String) : JSVal → Bool
  | .str s => mnemonics.contains (firstToken s)
  | _ => false

/-- The number `n.toFixed(3) * 1`: the number `n` rounded to three decimal places. -/
def roundedThree (n : JSNum) : JSNum := (JSNum.ofString (n.toFixed 3)).mul (.ofNat 1)

/-- Whether a written value is a number that is `>= 0`. -/
def writtenNonneg (v : JSVal) : Bool :=
  match v with
  | .num n => n.nonneg
  | _ => false

/-- Whether a value is `===` to one of the numbers 0, 1, 2, 3. -/
def isQuarterTurn (v : JSVal) : Bool :=
  [0, 1, 2, 3].any (fun k => v.strictEq (.num (.ofNat k)))

/-- The bounding box is consistent: on each axis the member of `delta` is the difference
`max - min` of the stored corners, as the operator `-` computes it. -/
def Bbox.consistent (b : Bbox) : Prop :=
  JSVal.sub b.max.x b.min.x = .ok b.delta.x ∧
  JSVal.sub b.max.y b.min.y = .ok b.delta.y ∧
  JSVal.sub b.max.z b.min.z = .ok b.delta.z

/-- An event of the G-code widget: a message on the topic `'gcode:bbox'`, a controller event
with its arguments (for `'serialport:close'`, the `controller` singleton and the persisted
configuration at that time), or a click on one of the two toggles. -/
inductive GCodeEvent where
  | bbox (message : JSVal)
  | unload
  | portClose (controller : Controller) (config : Config)
  | portOpen (options : JSVal)
  | senderStatus (data : JSVal)
  | controllerState (type state : JSVal)
  | toggleFullscreen
  | toggleMinimized

/-- The state of the G-code widget after an event; a handler that throws leaves the state
as it made it. -/
def GCodeWidget.step (env : Env) (g : GCodeState) : GCodeEvent → GCodeState
  | .bbox message => (GCodeWidget.bboxSubscriber g message).1
  | .unload => GCodeWidget.unloadHandler g
  | .portClose controller config => GCodeWidget.serialportCloseHandler env controller config g
  | .portOpen options => (GCodeWidget.serialportOpenHandler g options).1
  | .senderStatus data => (GCodeWidget.senderStatusHandler g data).1
  | .controllerState type state => (GCodeWidget.controllerStateHandler env g type state).1
  | .toggleFullscreen => GCodeWidget.toggleFullscreen g
  | .toggleMinimized => GCodeWidget.toggleMinimized g

/-- The state of the G-code widget after a sequence of events, from its initial state. -/
def GCodeWidget.run (env : Env) (controller : Controller) (config : Config)
    (events : List GCodeEvent) : GCodeState :=
  events.foldl (GCodeWidget.step env) (GCodeWidget.getInitialState env controller config)

/-! ## Evaluation of the definitions on examples -/

theorem numberCheck_1 : (JSNum.fin false 10 0).toString = "10" := by decide

theorem numberCheck_2 : (JSNum.fin true 10 0).toString = "-10" := by decide

theorem numberCheck_3 : (JSNum.fin false 195 (-1)).toString = "19.5" := by decide

theorem numberCheck_4 : (JSNum.fin true 0 0).toString = "0" := by decide

theorem numberCheck_5 : (JSNum.fin false 1 21).toString = "1e+21" := by decide

theorem numberCheck_6 : (JSNum.fin false 1 20).toString = "100000000000000000000" := by decide

theorem numberCheck_7 : (JSNum.fin false 1 (-6)).toString = "0.000001" := by decide

theorem numberCheck_8 : (JSNum.fin false 1 (-7)).toString = "1e-7" := by decide

theorem numberCheck_9 : (JSNum.fin false 125 (-9)).toString = "1.25e-7" := by decide

theorem numberCheck_10 : (JSNum.fin false 12500 (-2)).toString = "125" := by decide

theorem numberCheck_11 : (JSNum.fin false 5 0).asLength = some 5 := by decide

theorem numberCheck_12 : (JSNum.fin false 50 (-1)).asLength = some 5 := by decide

theorem numberCheck_13 : (JSNum.fin false 5 (-1)).asLength = none := by decide

theorem numberCheck_14 : (JSNum.ofString "10").neg.toString = "-10" := by decide

theorem numberCheck_15 : (JSNum.ofString " 10.50 ").neg.toString = "-10.5" := by decide

theorem numberCheck_16 : (JSNum.ofString "1e2").neg.toString = "-100" := by decide

theorem numberCheck_17 : (JSNum.ofString "").neg.toString = "0" := by decide

theorem numberCheck_18 : (JSNum.ofString "abc").neg.toString = "NaN" := by decide

theorem numberCheck_19 : (JSNum.ofString "0x1F").toString = "31" := by decide

theorem numberCheck_20 : (JSNum.ofString "-Infinity").toString = "-Infinity" := by decide

theorem numberCheck_21 : (JSNum.ofString ".5").toString = "0.5" := by decide

theorem numberCheck_22 : (JSNum.ofString "5.").toString = "5" := by decide

theorem numberCheck_23 : (JSNum.ofString ".").toString = "NaN" := by decide

theorem numberCheck_24 : (JSNum.ofString "1e").toString = "NaN" := by decide

theorem numberCheck_25 : (JSNum.ofString "-0x10").toString = "NaN" := by decide

theorem numberCheck_26 : ((JSNum.ofNat 3).add (JSNum.fin true 25 (-1))).toString = "0.5" := by decide

theorem numberCheck_27 : JSNum.strictEq (.fin false 10 0) (.fin false 1 1) = true := by decide

theorem numberCheck_28 : JSNum.strictEq (.fin false 0 0) (.fin true 0 3) = true := by decide

theorem valueCheck_1 : objectLiteral [("Z", .num (.ofNat 1)), ("F", .num (.ofNat 2))] =
    [("Z", .num (.ofNat 1)), ("F", .num (.ofNat 2))] := by rfl

theorem valueCheck_2 : objectLiteral [("F", .num (.ofNat 1)), ("F", .num (.ofNat 2))] =
    [("F", .num (.ofNat 2))] := by rfl

theorem valueCheck_3 : objectLiteral [("L", .null), ("P", .null), ("7", .null)] =
    [("7", .null), ("L", .null), ("P", .null)] := by rfl

theorem valueCheck_4 : objectLiteral [("L", .null), ("P", .null), ("07", .null)] =
    [("L", .null), ("P", .null), ("07", .null)] := by rfl

theorem valueCheck_5 : objectLiteral [("2", .null), ("10", .null), ("1", .null), ("a", .null)] =
    [("1", .null), ("2", .null), ("10", .null), ("a", .null)] := by rfl

theorem valueCheck_6 : get (.obj [("sr", .obj [("modal", .obj [("wcs", .str "G55")])])]) "sr.modal.wcs" =
    .str "G55" := by rfl

theorem valueCheck_7 : get (.obj [("sr", .obj [("modal", .null)])]) "sr.modal.wcs" = .undefined := by rfl

theorem valueCheck_8 : get (.obj [("sr.modal.wcs", .str "G57")]) "sr.modal.wcs" = .str "G57" := by rfl

theorem valueCheck_9 : get (.str "abc") "sr.modal.wcs" = .undefined := by rfl

theorem valueCheck_10 : (JSVal.arr [.str "a", .null, .arr [.num (.ofNat 1), .str "c"]]).toStr =
    .ok "a,,1,c" := by rfl

theorem valueCheck_11 : (JSVal.obj [("toString", .null)]).toStr = .error .typeError := by rfl

theorem valueCheck_12 : JSVal.add (.str "Z") (.num (.fin true 10 0)) = .ok (.str "Z-10") := by rfl

theorem valueCheck_13 : JSVal.add (.num (.ofNat 1)) .undefined = .ok (.num .nan) := by rfl

theorem widgetCheck_1 : populateProbeCommands sampleEnv (sampleState (.bool true) (.str "G56")) =
    .ok [.str "; Cancel tool length offset", .str "G49", .str "; Z-Probe", .str "G91",
      .str "G38.2 Z-10 F100", .str "G90", .str "; A dwell time of one second", .str "G4 P1",
      .str "; Set tool length offset", .str "G43.1 Z[posz-19.5]",
      .str "; Retract from the touch plate", .str "G91", .str "G0 Z5", .str "G90"] := by rfl

theorem widgetCheck_2 : populateProbeCommands sampleEnv (sampleState .undefined (.str "G56")) =
    .ok [.str "; Z-Probe", .str "G91", .str "G38.2 Z-10 F100", .str "G90",
      .str "; Set the active WCS Z0", .str "G10 L20 P3 Z19.5",
      .str "; Retract from the touch plate", .str "G91", .str "G0 Z5", .str "G90"] := by rfl

theorem widgetCheck_3 : canClick sampleEnv (sampleState .undefined (.str "G56")) = true := by rfl

theorem numberCheck_29 : (JSNum.fin false 999998 (-5)).toFixed 3 = "10.000" := by decide

theorem numberCheck_30 : (JSNum.fin true 1 (-4)).toFixed 3 = "-0.000" := by decide

theorem numberCheck_31 : (JSNum.fin false 5 (-4)).toFixed 3 = "0.001" := by decide

theorem numberCheck_32 : (JSNum.fin false 12345 (-1)).toFixed 3 = "1234.500" := by decide

theorem numberCheck_33 : (JSNum.fin false 1 21).toFixed 3 = "1e+21" := by decide

theorem numberCheck_34 : (JSNum.fin true 0 0).toFixed 3 = "0.000" := by decide

theorem numberCheck_35 : (JSNum.fin true 7 0).rem (.ofNat 4) = .fin true 3 0 := by decide

theorem numberCheck_36 : ((JSNum.fin false 75 (-1)).rem (.ofNat 4)).toString = "3.5" := by decide

theorem numberCheck_37 : ((JSNum.ofNat 3).sub (.fin false 25 (-1))).toString = "0.5" := by decide

theorem numberCheck_38 : (JSNum.ofNat 0).sub (.ofNat 0) = .ofNat 0 := by decide

set_option maxRecDepth 100000

theorem numberCheck_39 : Double.ofDecimal 1 (-1) = (7205759403792794, -56) := by decide

theorem numberCheck_40 : Double.shortest 7205759403792794 (-56) = (1, -1) := by decide

theorem numberCheck_41 :
    (JSNum.fin false 195 (-1)).times (.fin false 254 (-1)) =
      .fin false 49529999999999995 (-14) := by decide

theorem numberCheck_42 :
    ((JSNum.fin false 195 (-1)).times (.fin false 254 (-1))).toString =
      "495.29999999999995" := by decide

theorem numberCheck_43 :
    (JSNum.fin false 1 (-1)).times (.ofNat 3) = .fin false 30000000000000004 (-17) := by
  decide

theorem numberCheck_44 :
    (JSNum.ofNat 1).over (.ofNat 3) = .fin false 3333333333333333 (-16) := by decide

theorem numberCheck_45 :
    (JSNum.fin false 100000000000001 0).times (.fin false 254 (-1)) =
      .fin false 25400000000000255 (-1) := by decide

theorem numberCheck_46 : (JSNum.ofNat 0).over (.ofNat 0) = .nan := by decide

theorem valueCheck_14 : fixedThree (.str "abc") = .ok (.num .nan) := by rfl

theorem valueCheck_15 : fixedThree .undefined = .ok (.num (.fin false 0 (-3))) := by rfl

theorem valueCheck_16 : fixedThree (.str "2.0005") = .ok (.num (.fin false 2001 (-3))) := by rfl

theorem valueCheck_17 : fixedThree (.obj [("toString", .null)]) = .error .typeError := by rfl

theorem valueCheck_18 : (JSVal.str "").and (.num (.ofNat 1)) = .str "" := by rfl

theorem widgetCheck_4 :
    WebcamWidget.nextRotation (.num (.ofNat 0)) (.fin true 1 0) = .ok (.ofNat 3) := by rfl

theorem widgetCheck_5 :
    WebcamWidget.nextRotation (.str "3") (.ofNat 1) = .ok (.ofNat 0) := by rfl

theorem widgetCheck_6 :
    (GCodeWidget.bboxOfMessage (.obj
      [("min", .obj [("x", .num (.ofNat 1)), ("y", .num (.ofNat 2)), ("z", .num (.ofNat 3))]),
       ("max", .obj [("x", .num (.fin false 45 (-1))), ("y", .num (.ofNat 2)),
         ("z", .num (.ofNat 10))])])).map (fun b => (b.delta.x, b.delta.y, b.delta.z)) =
      .ok (.num (.fin false 35 (-1)), .num (.ofNat 0), .num (.ofNat 7)) := by rfl

theorem widgetCheck_7 : GCodeWidget.bboxOfMessage (.obj [("min", .null)]) =
    .error .typeError := by rfl

/-! ## Lemmas on the formatter -/

theorem gcode_none (c : String) : gcode (.str c) none = .ok (.str c) := by
  rfl

theorem add_str_left (k : String) (v : JSVal) :
    JSVal.add (.str k) v = (v.toPrimitive).map (fun p => JSVal.str (k ++ p.toString)) := by
  cases h : v.toPrimitive with
  | error e => simp [JSVal.add, JSVal.toPrimitive, h, bind, Except.bind, Except.map]
  | ok p => simp [JSVal.add, JSVal.toPrimitive, h, bind, Except.bind, Except.map, pure, Except.pure]

theorem gcodeWord_str (k : String) (v : JSVal) :
    gcodeWord v (.str k) = (v.toPrimitive).map (fun p => k ++ p.toString) := by
  unfold gcodeWord
  rw [add_str_left]
  cases h : v.toPrimitive with
  | error e => simp [bind, Except.bind, Except.map]
  | ok p => simp [bind, Except.bind, Except.map, JSVal.toStr, JSVal.toPrimitive, Prim.toString]

@[simp]
theorem Prim.toPrimitive_val (p : Prim) : p.val.toPrimitive = .ok p := by
  cases p <;> rfl

theorem traverse_map_ok {α β : Type} (f : α → Except JSError β) (g : α → β)
    (xs : List α) (h : ∀ x ∈ xs, f x = .ok (g x)) : traverse f xs = .ok (xs.map g) := by
  induction xs with
  | nil => rfl
  | cons x rest ih =>
    have hx := h x (List.mem_cons_self x rest)
    have hr := ih (fun y hy => h y (List.mem_cons_of_mem x hy))
    simp [traverse, hx, hr]

theorem intercalate_go_length (sep : String) (acc : String) (ws : List String) :
    acc.length ≤ (String.intercalate.go acc sep ws).length := by
  induction ws generalizing acc with
  | nil => simp [String.intercalate.go]
  | cons w rest ih =>
    simp only [String.intercalate.go]
    have := ih (acc ++ sep ++ w)
    simp only [String.length_append] at this
    omega

theorem intercalate_pos (sep w : String) (ws : List String) (hw : 0 < w.length) :
    0 < (sep.intercalate (w :: ws)).length := by
  have := intercalate_go_length sep w ws
  simp only [String.intercalate]
  omega

theorem primOf_eq (v : JSVal) (p : Prim) (h : v.toPrimitive = .ok p) : primOf v = p := by
  simp [primOf, h]

/-- The formatter on a plain object that is not array-like and whose values convert to
primitives: the words `letter ++ value` joined by single spaces follow the mnemonic. -/
theorem gcode_obj (c : String) (o : Obj)
    (hlen : arrayLikeLength o = none) (hv : ∀ kv ∈ o, ∃ p, kv.2.toPrimitive = .ok p) :
    gcode (.str c) (some o) =
      .ok (.str (if 0 < (" ".intercalate (o.map (fun kv => kv.1 ++ (primOf kv.2).toString))).length
        then c ++ " " ++ " ".intercalate (o.map (fun kv => kv.1 ++ (primOf kv.2).toString))
        else c)) := by
  have hw : map (some o) gcodeWord =
      .ok (o.map (fun kv => kv.1 ++ (primOf kv.2).toString)) := by
    simp only [map, hlen]
    apply traverse_map_ok
    intro kv hkv
    obtain ⟨p, hp⟩ := hv kv hkv
    rw [gcodeWord_str, hp, primOf_eq _ _ hp]
    rfl
  unfold gcode
  simp only [hw, bind, Except.bind]
  split
  · simp [add_str_left, JSVal.toPrimitive, Except.map, Prim.toString, bind, Except.bind, *]
  · simp [pure, Except.pure, *]

theorem plainAxis_of_xyz (a : String) (h : a = "X" ∨ a = "Y" ∨ a = "Z") : PlainAxis a := by
  rcases h with rfl | rfl | rfl <;> (unfold PlainAxis; decide)

theorem string_length_pos (a : String) (h : a ≠ "") : 0 < a.length := by
  rcases a with ⟨l⟩
  cases l with
  | nil => exact absurd rfl h
  | cons c r => simp [String.length]

theorem objectLiteral_one (a : String) (x : JSVal) : objectLiteral [(a, x)] = [(a, x)] := by
  rfl

theorem objectLiteral_axis_F (a : String) (ha : PlainAxis a) (x y : JSVal) :
    objectLiteral [(a, x), ("F", y)] = [(a, x), ("F", y)] := by
  obtain ⟨_, hF, _, _, _, _⟩ := ha
  simp [objectLiteral, Obj.set, hF]
  rfl

theorem objectLiteral_L_P_axis (a : String) (ha : PlainAxis a) (x y z : JSVal) :
    objectLiteral [("L", x), ("P", y), (a, z)] = [("L", x), ("P", y), (a, z)] := by
  obtain ⟨_, _, hL, hP, _, hi⟩ := ha
  simp [objectLiteral, Obj.set, hi, Ne.symm hL, Ne.symm hP]

theorem gcode_one (c a : String) (ha : PlainAxis a) (x : JSVal) (px : Prim)
    (hx : x.toPrimitive = .ok px) :
    gcode (.str c) (some [(a, x)]) = .ok (.str (c ++ " " ++ (a ++ px.toString))) := by
  obtain ⟨hne, _, _, _, hlen, _⟩ := ha
  have hl : ("length" == a) = false := beq_eq_false_iff_ne.mpr (Ne.symm hlen)
  have h := gcode_obj c [(a, x)]
    (by simp [arrayLikeLength, List.lookup, hl]) (by simpa using ⟨px, hx⟩)
  rw [h]
  have hpos : 0 < (a ++ px.toString).length := by
    have := string_length_pos a hne
    simp only [String.length_append]; omega
  simp only [List.map, primOf_eq x px hx, String.intercalate, String.intercalate.go, hpos,
    if_true]

theorem gcode_two (c a b : String) (hlen : a ≠ "length") (hlenb : b ≠ "length")
    (x y : JSVal) (px py : Prim)
    (hx : x.toPrimitive = .ok px) (hy : y.toPrimitive = .ok py) :
    gcode (.str c) (some [(a, x), (b, y)]) =
      .ok (.str (c ++ " " ++ (a ++ px.toString ++ " " ++ (b ++ py.toString)))) := by
  have hl : ("length" == a) = false := beq_eq_false_iff_ne.mpr (Ne.symm hlen)
  have hlb : ("length" == b) = false := beq_eq_false_iff_ne.mpr (Ne.symm hlenb)
  have h := gcode_obj c [(a, x), (b, y)]
    (by simp [arrayLikeLength, List.lookup, hl, hlb])
    (by
      intro kv hkv
      simp only [List.mem_cons, List.mem_singleton, List.not_mem_nil, or_false] at hkv
      rcases hkv with rfl | rfl
      · exact ⟨px, hx⟩
      · exact ⟨py, hy⟩)
  rw [h]
  have hpos : 0 < (a ++ px.toString ++ " " ++ (b ++ py.toString)).length := by
    simp only [String.length_append]
    have : (" " : String).length = 1 := rfl
    omega
  simp only [List.map, primOf_eq x px hx, primOf_eq y py hy, String.intercalate,
    String.intercalate.go, hpos, if_true]

theorem gcode_three (c a b d : String) (hlen : a ≠ "length") (hlenb : b ≠ "length")
    (hlend : d ≠ "length") (x y z : JSVal) (px py pz : Prim)
    (hx : x.toPrimitive = .ok px) (hy : y.toPrimitive = .ok py) (hz : z.toPrimitive = .ok pz) :
    gcode (.str c) (some [(a, x), (b, y), (d, z)]) =
      .ok (.str (c ++ " " ++
        (a ++ px.toString ++ " " ++ (b ++ py.toString) ++ " " ++ (d ++ pz.toString)))) := by
  have hl : ("length" == a) = false := beq_eq_false_iff_ne.mpr (Ne.symm hlen)
  have hlb : ("length" == b) = false := beq_eq_false_iff_ne.mpr (Ne.symm hlenb)
  have hld : ("length" == d) = false := beq_eq_false_iff_ne.mpr (Ne.symm hlend)
  have h := gcode_obj c [(a, x), (b, y), (d, z)]
    (by simp [arrayLikeLength, List.lookup, hl, hlb, hld])
    (by
      intro kv hkv
      simp only [List.mem_cons, List.mem_singleton, List.not_mem_nil, or_false] at hkv
      rcases hkv with rfl | rfl | rfl
      · exact ⟨px, hx⟩
      · exact ⟨py, hy⟩
      · exact ⟨pz, hz⟩)
  rw [h]
  have hpos : 0 < (a ++ px.toString ++ " " ++ (b ++ py.toString) ++ " " ++
      (d ++ pz.toString)).length := by
    simp only [String.length_append]
    have : (" " : String).length = 1 := rfl
    omega
  simp only [List.map, primOf_eq x px hx, primOf_eq y py hy, primOf_eq z pz hz,
    String.intercalate, String.intercalate.go, hpos, if_true]

/-! ## Lemmas on the command lists -/

@[simp]
theorem toStr_str (s : String) : (JSVal.str s).toStr = .ok s := by
  rfl

@[simp]
theorem toStr_val (p : Prim) : p.val.toStr = .ok p.toString := by
  simp [JSVal.toStr, Except.map]

theorem neg_val (p : Prim) : p.val.neg = .ok (.num p.toNumber.neg) := by
  simp [JSVal.neg, JSVal.toNumber, Except.map]

@[simp]
theorem toPrimitive_num (n : JSNum) : (JSVal.num n).toPrimitive = .ok (.num n) := by
  rfl

@[simp]
theorem toPrimitive_str (s : String) : (JSVal.str s).toPrimitive = .ok (.str s) := by
  rfl

theorem wcsProbeCommands_eq (env : Env) (a pc : String) (ha : PlainAxis a) (d f h r : Prim)
    (wcs pv : JSVal) (pp : Prim) (tw : Bool)
    (hP : mapWCSToP env wcs = .ok pv) (hpp : pv.toPrimitive = .ok pp) :
    wcsProbeCommands env (.str a) (.str pc) d.val f.val h.val r.val wcs tw =
      .ok [.str ("; " ++ a ++ "-Probe"), .str "G91",
        .str (pc ++ " " ++ (a ++ (signedDepth tw d).toString ++ " " ++ ("F" ++ f.toString))),
        .str "G90", .str ("; Set the active WCS " ++ a ++ "0"),
        .str ("G10" ++ " " ++ ("L" ++ "20" ++ " " ++ ("P" ++ pp.toString) ++ " " ++
          (a ++ h.toString))),
        .str "; Retract from the touch plate", .str "G91",
        .str ("G0" ++ " " ++ (a ++ r.toString)), .str "G90"] := by
  have hlen : a ≠ "length" := ha.2.2.2.2.1
  have h20 : (JSVal.num (JSNum.ofNat 20)).toPrimitive = .ok (.num (JSNum.ofNat 20)) := rfl
  have h20s : (Prim.num (JSNum.ofNat 20)).toString = "20" := by decide
  cases tw
  · simp only [wcsProbeCommands, toStr_str, gcode_none, bind, Except.bind, pure, Except.pure,
      objectLiteral_one, objectLiteral_axis_F a ha, objectLiteral_L_P_axis a ha, hP,
      gcode_one _ a ha _ _ (Prim.toPrimitive_val _),
      gcode_two _ a "F" hlen (by decide) _ _ _ _ (Prim.toPrimitive_val _) (Prim.toPrimitive_val _),
      gcode_three _ "L" "P" a (by decide) (by decide) hlen _ _ _ _ _ _ h20 hpp
        (Prim.toPrimitive_val _), h20s, signedDepth, Bool.false_eq_true, if_false, if_true]
  · simp only [wcsProbeCommands, toStr_str, gcode_none, bind, Except.bind, pure, Except.pure,
      objectLiteral_one, objectLiteral_axis_F a ha, objectLiteral_L_P_axis a ha, hP, neg_val,
      gcode_one _ a ha _ _ (Prim.toPrimitive_val _),
      gcode_two _ a "F" hlen (by decide) _ _ _ _ (Prim.toPrimitive_val _) (Prim.toPrimitive_val _),
      gcode_two _ a "F" hlen (by decide) _ _ _ _ (toPrimitive_num _) (Prim.toPrimitive_val _),
      gcode_three _ "L" "P" a (by decide) (by decide) hlen _ _ _ _ _ _ h20 hpp
        (Prim.toPrimitive_val _), h20s, signedDepth, Bool.false_eq_true, if_false, if_true]

theorem tloProbeCommands_eq (a pc : String) (ha : PlainAxis a) (d f h r : Prim) (tw : Bool)
    (posname : String) :
    tloProbeCommands (.str a) (.str pc) d.val f.val h.val r.val tw posname =
      .ok [.str "; Cancel tool length offset", .str "G49", .str ("; " ++ a ++ "-Probe"),
        .str "G91",
        .str (pc ++ " " ++ (a ++ (signedDepth tw d).toString ++ " " ++ ("F" ++ f.toString))),
        .str "G90", .str "; A dwell time of one second", .str "G4 P1",
        .str "; Set tool length offset",
        .str ("G43.1" ++ " " ++
          (a ++ ("[" ++ posname ++ (if tw then "-" else "+") ++ h.toString ++ "]"))),
        .str "; Retract from the touch plate", .str "G91",
        .str ("G0" ++ " " ++ (a ++ r.toString)), .str "G90"] := by
  have hlen : a ≠ "length" := ha.2.2.2.2.1
  cases tw
  · simp only [tloProbeCommands, toStr_str, toStr_val, gcode_none, bind, Except.bind, pure,
      Except.pure, objectLiteral_one, objectLiteral_axis_F a ha,
      gcode_one _ a ha _ _ (Prim.toPrimitive_val _),
      gcode_one _ a ha _ _ (toPrimitive_str _),
      gcode_two _ a "F" hlen (by decide) _ _ _ _ (Prim.toPrimitive_val _) (Prim.toPrimitive_val _),
      signedDepth, Bool.false_eq_true, if_false, if_true, Prim.toString]
  · simp only [tloProbeCommands, toStr_str, toStr_val, gcode_none, bind, Except.bind, pure,
      Except.pure, objectLiteral_one, objectLiteral_axis_F a ha, neg_val,
      gcode_one _ a ha _ _ (Prim.toPrimitive_val _),
      gcode_one _ a ha _ _ (toPrimitive_str _),
      gcode_two _ a "F" hlen (by decide) _ _ _ _ (toPrimitive_num _) (Prim.toPrimitive_val _),
      signedDepth, Bool.false_eq_true, if_false, if_true, Prim.toString]

theorem registerOf_le (key : String) : registerOf key ≤ 6 := by
  unfold registerOf
  repeat' split
  all_goals omega

theorem mapWCSToP_table (env : Env) (wcs : JSVal) (key : String) (hk : wcs.toStr = .ok key)
    (hproto : key ∉ objectPrototypeKeys) :
    mapWCSToP env wcs = .ok (.num (.ofNat (registerOf key))) := by
  have hnone : objectPrototypeMember env key = none := by
    unfold objectPrototypeMember
    have h1 : key ≠ "constructor" := fun h => hproto (by rw [h]; decide)
    have h2 : key ≠ "__proto__" := fun h => hproto (by rw [h]; decide)
    simp [h1, h2, hproto]
  unfold mapWCSToP
  simp only [hk, bind, Except.bind, pure, Except.pure, hnone]
  have htab : objectLiteral
      [("G54", JSVal.num (.ofNat 1)), ("G55", .num (.ofNat 2)), ("G56", .num (.ofNat 3)),
       ("G57", .num (.ofNat 4)), ("G58", .num (.ofNat 5)), ("G59", .num (.ofNat 6))] =
      [("G54", JSVal.num (.ofNat 1)), ("G55", .num (.ofNat 2)), ("G56", .num (.ofNat 3)),
       ("G57", .num (.ofNat 4)), ("G58", .num (.ofNat 5)), ("G59", .num (.ofNat 6))] := by
    rfl
  rw [htab]
  unfold registerOf
  by_cases h54 : key = "G54"
  · subst h54; rfl
  by_cases h55 : key = "G55"
  · subst h55; rfl
  by_cases h56 : key = "G56"
  · subst h56; rfl
  by_cases h57 : key = "G57"
  · subst h57; rfl
  by_cases h58 : key = "G58"
  · subst h58; rfl
  by_cases h59 : key = "G59"
  · subst h59; rfl
  have b54 : (key == "G54") = false := beq_eq_false_iff_ne.mpr h54
  have b55 : (key == "G55") = false := beq_eq_false_iff_ne.mpr h55
  have b56 : (key == "G56") = false := beq_eq_false_iff_ne.mpr h56
  have b57 : (key == "G57") = false := beq_eq_false_iff_ne.mpr h57
  have b58 : (key == "G58") = false := beq_eq_false_iff_ne.mpr h58
  have b59 : (key == "G59") = false := beq_eq_false_iff_ne.mpr h59
  simp only [List.lookup, b54, b55, b56, b57, b58, b59, h54, h55, h56, h57, h58, h59,
    if_false, Option.getD]
  rfl

/-- The local function `mapWCSToP` returns, for every token that converts to a string, a
value that converts to a primitive. -/
theorem mapWCSToP_ok (env : Env) (wcs : JSVal) (key : String) (hk : wcs.toStr = .ok key) :
    ∃ pv pp, mapWCSToP env wcs = .ok pv ∧ pv.toPrimitive = .ok pp := by
  by_cases hproto : key ∈ objectPrototypeKeys
  · unfold mapWCSToP
    simp only [hk, bind, Except.bind, pure, Except.pure]
    simp only [objectPrototypeKeys, List.mem_cons, List.mem_singleton, List.not_mem_nil,
      or_false] at hproto
    rcases hproto with h | h | h | h | h | h | h | h | h | h | h | h <;> subst h <;>
      exact ⟨_, _, rfl, rfl⟩
  · exact ⟨_, _, mapWCSToP_table env wcs key hk hproto, rfl⟩

theorem includes_toward (pc : String) :
    includes [.str "G38.2", .str "G38.3"] (.str pc) = isToward pc := by
  simp only [includes, List.any, JSVal.sameValueZero, JSVal.strictEq, isToward, Bool.or_false]
  rw [Bool.beq_comm (a := "G38.2"), Bool.beq_comm (a := "G38.3")]

theorem populateProbeCommands_eq (env : Env) (st : ProbeState) (a pc : String)
    (d f h r : Prim) (pv : JSVal) (pp : Prim)
    (hp : HasParams st a pc d f h r) (ha : PlainAxis a)
    (hP : mapWCSToP env (getWorkCoordinateSystem env st) = .ok pv)
    (hpp : pv.toPrimitive = .ok pp) :
    populateProbeCommands env st = .ok (if st.useTLO.truthy then
      [.str "; Cancel tool length offset", .str "G49", .str ("; " ++ a ++ "-Probe"),
        .str "G91",
        .str (pc ++ " " ++
          (a ++ (signedDepth (isToward pc) d).toString ++ " " ++ ("F" ++ f.toString))),
        .str "G90", .str "; A dwell time of one second", .str "G4 P1",
        .str "; Set tool length offset",
        .str ("G43.1" ++ " " ++ (a ++ ("[" ++ ("pos" ++ toLowerCase a) ++
          (if isToward pc then "-" else "+") ++ h.toString ++ "]"))),
        .str "; Retract from the touch plate", .str "G91",
        .str ("G0" ++ " " ++ (a ++ r.toString)), .str "G90"]
      else
      [.str ("; " ++ a ++ "-Probe"), .str "G91",
        .str (pc ++ " " ++
          (a ++ (signedDepth (isToward pc) d).toString ++ " " ++ ("F" ++ f.toString))),
        .str "G90", .str ("; Set the active WCS " ++ a ++ "0"),
        .str ("G10" ++ " " ++ ("L" ++ "20" ++ " " ++ ("P" ++ pp.toString) ++ " " ++
          (a ++ h.toString))),
        .str "; Retract from the touch plate", .str "G91",
        .str ("G0" ++ " " ++ (a ++ r.toString)), .str "G90"]) := by
  obtain ⟨h1, h2, h3, h4, h5, h6⟩ := hp
  unfold populateProbeCommands
  simp only [h1, h2, h3, h4, h5, h6, callToLowerCase, includes_toward, bind, Except.bind,
    pure, Except.pure, tloProbeCommands_eq a pc ha,
    wcsProbeCommands_eq env a pc ha d f h r _ pv pp _ hP hpp]

theorem isComment_semicolon (t : String) : isComment (.str ("; " ++ t)) = true := by
  simp [isComment, String.data_append]

theorem isComment_command (pc t : String) (hpc : pc.data.head? ≠ some ';') :
    isComment (.str (pc ++ " " ++ t)) = false := by
  rcases pc with ⟨l⟩
  cases l with
  | nil => simp [isComment, String.data_append]
  | cons c rest =>
    have hc : c ≠ ';' := by simpa using hpc
    simp [isComment, String.data_append, hc]

/-! ## The claims -/

/-- C1: with `useTLO` truthy, the list returned by `populateProbeCommands`, once the comment
lines are left out, is the nine commands `G49`, `G91`, the probe move, `G90`, `G4 P1`, the
`G43.1` command, `G91`, `G0 <axis><retractionDistance>`, `G90`, in this order. -/
theorem C1_tlo_commands (env : Env) (st : ProbeState) (a pc key : String) (d f h r : Prim)
    (hp : HasParams st a pc d f h r) (ha : a = "X" ∨ a = "Y" ∨ a = "Z")
    (hpc : pc.data.head? ≠ some ';')
    (hk : (getWorkCoordinateSystem env st).toStr = .ok key)
    (htlo : st.useTLO.truthy = true) :
    (populateProbeCommands env st).map (List.filter (fun c => !isComment c)) =
      .ok [.str "G49", .str "G91",
        .str (pc ++ " " ++ a ++ (signedDepth (isToward pc) d).toString ++ " F" ++ f.toString),
        .str "G90", .str "G4 P1",
        .str ("G43.1 " ++ a ++ "[pos" ++ toLowerCase a ++
          (if isToward pc then "-" else "+") ++ h.toString ++ "]"),
        .str "G91", .str ("G0 " ++ a ++ r.toString), .str "G90"] := by
  obtain ⟨pv, pp, hP, hpp⟩ := mapWCSToP_ok env _ key hk
  rw [populateProbeCommands_eq env st a pc d f h r pv pp hp (plainAxis_of_xyz a ha) hP hpp]
  simp only [htlo, if_true, Except.map]
  have e1 : isComment (.str "; Cancel tool length offset") = true := rfl
  have e2 : isComment (.str "G49") = false := rfl
  have e3 : isComment (.str "G91") = false := rfl
  have e4 : isComment (.str "G90") = false := rfl
  have e5 : isComment (.str "; A dwell time of one second") = true := rfl
  have e6 : isComment (.str "G4 P1") = false := rfl
  have e7 : isComment (.str "; Set tool length offset") = true := rfl
  have e8 : isComment (.str "; Retract from the touch plate") = true := rfl
  have e9 : ∀ t, isComment (.str ("G43.1" ++ t)) = false := fun t => by
    simp [isComment, String.data_append]
  have e10 : ∀ t, isComment (.str ("G0" ++ t)) = false := fun t => by
    simp [isComment, String.data_append]
  simp only [List.filter, e1, e2, e3, e4, e5, e6, e7, e8, e9, e10, isComment_semicolon,
    isComment_command _ _ hpc, Bool.not_true, Bool.not_false]
  simp only [String.append_assoc]
  rfl

/-- C1 (witness): the example of the specification, axis `Z`, `G38.2`, depth 10, feedrate
100, plate height 19.5, retraction 5. -/
theorem C1_tlo_commands_witness :
    (populateProbeCommands sampleEnv (sampleState (.bool true) (.str "G56"))).map
      (List.filter (fun c => !isComment c)) =
      .ok [.str "G49", .str "G91", .str "G38.2 Z-10 F100", .str "G90", .str "G4 P1",
        .str "G43.1 Z[posz-19.5]", .str "G91", .str "G0 Z5", .str "G90"] :=
  C1_tlo_commands sampleEnv (sampleState (.bool true) (.str "G56")) "Z" "G38.2" "G56"
    (.num (.ofNat 10)) (.num (.ofNat 100)) (.num (.fin false 195 (-1))) (.num (.ofNat 5))
    ⟨rfl, rfl, rfl, rfl, rfl, rfl⟩ (Or.inr (Or.inr rfl)) (by decide) rfl rfl

theorem isToward_iff (pc : String) : isToward pc = true ↔ (pc = "G38.2" ∨ pc = "G38.3") := by
  simp [isToward]

theorem toStr_ok_of_str (v : JSVal) (tok : String) (h : v = .str tok) : v.toStr = .ok tok := by
  subst h; rfl

theorem register_of_token (tok : String) (n : Nat)
    (htok : (tok, n) ∈ [("G54", 1), ("G55", 2), ("G56", 3), ("G57", 4), ("G58", 5), ("G59", 6)]) :
    tok ∉ objectPrototypeKeys ∧ registerOf tok = n ∧
      (Prim.num (JSNum.ofNat n)).toString = toString n := by
  simp only [List.mem_cons, List.mem_singleton, List.not_mem_nil, or_false, Prod.mk.injEq]
    at htok
  rcases htok with ⟨rfl, rfl⟩ | ⟨rfl, rfl⟩ | ⟨rfl, rfl⟩ | ⟨rfl, rfl⟩ | ⟨rfl, rfl⟩ | ⟨rfl, rfl⟩ <;>
    decide

/-- C2: with `useTLO` falsy and an active work coordinate system among `G54` to `G59`, the
list returned by `populateProbeCommands`, once the comment lines are left out, is the seven
commands `G91`, the probe move, `G90`, `G10 L20 P<register> <axis><touchPlateHeight>`, `G91`,
`G0 <axis><retractionDistance>`, `G90`, in this order. -/
theorem C2_wcs_commands (env : Env) (st : ProbeState) (a pc tok : String) (n : Nat)
    (d f h r : Prim)
    (hp : HasParams st a pc d f h r) (ha : a = "X" ∨ a = "Y" ∨ a = "Z")
    (hpc : pc.data.head? ≠ some ';')
    (hw : getWorkCoordinateSystem env st = .str tok)
    (htok : (tok, n) ∈ [("G54", 1), ("G55", 2), ("G56", 3), ("G57", 4), ("G58", 5), ("G59", 6)])
    (htlo : st.useTLO.truthy = false) :
    (populateProbeCommands env st).map (List.filter (fun c => !isComment c)) =
      .ok [.str "G91",
        .str (pc ++ " " ++ a ++ (signedDepth (isToward pc) d).toString ++ " F" ++ f.toString),
        .str "G90",
        .str ("G10 L20 P" ++ toString n ++ " " ++ a ++ h.toString),
        .str "G91", .str ("G0 " ++ a ++ r.toString), .str "G90"] := by
  obtain ⟨hproto, hreg, hstr⟩ := register_of_token tok n htok
  have hP := mapWCSToP_table env _ tok (toStr_ok_of_str _ tok hw) hproto
  rw [populateProbeCommands_eq env st a pc d f h r _ _ hp (plainAxis_of_xyz a ha) hP
    (toPrimitive_num _)]
  simp only [htlo, Bool.false_eq_true, if_false, Except.map, hreg, hstr]
  have e3 : isComment (.str "G91") = false := rfl
  have e4 : isComment (.str "G90") = false := rfl
  have e8 : isComment (.str "; Retract from the touch plate") = true := rfl
  have e9 : ∀ t, isComment (.str ("G10" ++ t)) = false := fun t => by
    simp [isComment, String.data_append]
  have e10 : ∀ t, isComment (.str ("G0" ++ t)) = false := fun t => by
    simp [isComment, String.data_append]
  simp only [List.filter, e3, e4, e8, e9, e10, isComment_semicolon,
    isComment_command _ _ hpc, Bool.not_true, Bool.not_false]
  simp only [String.append_assoc]
  rfl

/-- C2 (witness): the example of the specification with the third work coordinate system
`G56` active. -/
theorem C2_wcs_commands_witness :
    (populateProbeCommands sampleEnv (sampleState .undefined (.str "G56"))).map
      (List.filter (fun c => !isComment c)) =
      .ok [.str "G91", .str "G38.2 Z-10 F100", .str "G90", .str "G10 L20 P3 Z19.5",
        .str "G91", .str "G0 Z5", .str "G90"] :=
  C2_wcs_commands sampleEnv (sampleState .undefined (.str "G56")) "Z" "G38.2" "G56" 3
    (.num (.ofNat 10)) (.num (.ofNat 100)) (.num (.fin false 195 (-1))) (.num (.ofNat 5))
    ⟨rfl, rfl, rfl, rfl, rfl, rfl⟩ (Or.inr (Or.inr rfl)) (by decide) rfl (by decide) rfl

/-- C3: for numeric probe depth `d` and feedrate `f`, the probe move of the list returned by
`populateProbeCommands` (element 4 of the tool-length-offset list, element 2 of the
work-coordinate-system list) is `<probeCommand> <axis><v> F<f>` with `v = -d` when the
probe command is `G38.2` or `G38.3` and `v = d` otherwise; it is the same text in both
lists. -/
theorem C3_probe_move (env : Env) (st : ProbeState) (a pc key : String) (d f : JSNum)
    (h r : Prim)
    (hp : HasParams st a pc (.num d) (.num f) h r) (ha : a = "X" ∨ a = "Y" ∨ a = "Z")
    (hk : (getWorkCoordinateSystem env st).toStr = .ok key) :
    (populateProbeCommands env st).map (fun l => l[if st.useTLO.truthy then 4 else 2]?) =
      .ok (some (.str (pc ++ " " ++ a ++
        (if pc = "G38.2" ∨ pc = "G38.3" then d.neg else d).toString ++ " F" ++ f.toString))) := by
  obtain ⟨pv, pp, hP, hpp⟩ := mapWCSToP_ok env _ key hk
  rw [populateProbeCommands_eq env st a pc _ _ h r pv pp hp (plainAxis_of_xyz a ha) hP hpp]
  have hv : (signedDepth (isToward pc) (.num d)).toString =
      (if pc = "G38.2" ∨ pc = "G38.3" then d.neg else d).toString := by
    by_cases hc : pc = "G38.2" ∨ pc = "G38.3"
    · simp [signedDepth, (isToward_iff pc).mpr hc, hc, Prim.toString, Prim.toNumber]
    · have : isToward pc = false := by
        cases hb : isToward pc
        · rfl
        · exact absurd ((isToward_iff pc).mp hb) hc
      simp [signedDepth, this, hc, Prim.toString]
  cases hu : st.useTLO.truthy <;>
    simp only [Except.map, Bool.false_eq_true, if_false, if_true, hv,
      List.getElem?_cons_succ, List.getElem?_cons_zero, String.append_assoc] <;> rfl

/-- C3 (witness): the probe move `G38.2 Z-10 F100` in the tool-length-offset list and in
the work-coordinate-system list. -/
theorem C3_probe_move_witness :
    (populateProbeCommands sampleEnv (sampleState (.bool true) (.str "G56"))).map
        (fun l => l[4]?) = .ok (some (.str "G38.2 Z-10 F100")) ∧
    (populateProbeCommands sampleEnv (sampleState .undefined (.str "G56"))).map
        (fun l => l[2]?) = .ok (some (.str "G38.2 Z-10 F100")) :=
  ⟨C3_probe_move sampleEnv (sampleState (.bool true) (.str "G56")) "Z" "G38.2" "G56"
      (.ofNat 10) (.ofNat 100) (.num (.fin false 195 (-1))) (.num (.ofNat 5))
      ⟨rfl, rfl, rfl, rfl, rfl, rfl⟩ (Or.inr (Or.inr rfl)) rfl,
   C3_probe_move sampleEnv (sampleState .undefined (.str "G56")) "Z" "G38.2" "G56"
      (.ofNat 10) (.ofNat 100) (.num (.fin false 195 (-1))) (.num (.ofNat 5))
      ⟨rfl, rfl, rfl, rfl, rfl, rfl⟩ (Or.inr (Or.inr rfl)) rfl⟩

/-- C4: for an axis among `X`, `Y`, `Z` and every touch plate height `h`, the
tool-length-offset command (element 9 of the tool-length-offset list) is
`G43.1 <axis>[pos<axis in lower case>-h]` when the probe command is `G38.2` or `G38.3`, and
`G43.1 <axis>[pos<axis in lower case>+h]` otherwise: the bracketed expression is text that
names the position variable. -/
theorem C4_tool_length_offset (env : Env) (st : ProbeState) (a low pc key : String)
    (d f h r : Prim)
    (hp : HasParams st a pc d f h r)
    (ha : (a, low) ∈ [("X", "x"), ("Y", "y"), ("Z", "z")])
    (hk : (getWorkCoordinateSystem env st).toStr = .ok key)
    (htlo : st.useTLO.truthy = true) :
    (populateProbeCommands env st).map (fun l => l[9]?) =
      .ok (some (.str ("G43.1 " ++ a ++ "[pos" ++ low ++
        (if pc = "G38.2" ∨ pc = "G38.3" then "-" else "+") ++ h.toString ++ "]"))) := by
  obtain ⟨pv, pp, hP, hpp⟩ := mapWCSToP_ok env _ key hk
  have hxyz : (a = "X" ∨ a = "Y" ∨ a = "Z") ∧ toLowerCase a = low := by
    simp only [List.mem_cons, List.mem_singleton, List.not_mem_nil, or_false, Prod.mk.injEq]
      at ha
    rcases ha with ⟨rfl, rfl⟩ | ⟨rfl, rfl⟩ | ⟨rfl, rfl⟩ <;> decide
  rw [populateProbeCommands_eq env st a pc d f h r pv pp hp (plainAxis_of_xyz a hxyz.1) hP hpp]
  have hs : (if isToward pc = true then "-" else "+") =
      (if pc = "G38.2" ∨ pc = "G38.3" then "-" else "+") := by
    simp only [isToward_iff]
  simp only [htlo, if_true, Except.map, hxyz.2, hs, List.getElem?_cons_succ,
    List.getElem?_cons_zero, String.append_assoc]
  rfl

/-- C4 (witness): axis `Z`, `G38.2` and plate height 19.5 give `G43.1 Z[posz-19.5]`. -/
theorem C4_tool_length_offset_witness :
    (populateProbeCommands sampleEnv (sampleState (.bool true) (.str "G56"))).map
      (fun l => l[9]?) = .ok (some (.str "G43.1 Z[posz-19.5]")) :=
  C4_tool_length_offset sampleEnv (sampleState (.bool true) (.str "G56")) "Z" "z" "G38.2" "G56"
    (.num (.ofNat 10)) (.num (.ofNat 100)) (.num (.fin false 195 (-1))) (.num (.ofNat 5))
    ⟨rfl, rfl, rfl, rfl, rfl, rfl⟩ (by decide) rfl rfl

/-- C5: when the controller reports one of `G54`, `G55`, `G56`, `G57`, `G58`, `G59` as
active, the offset-setting command of the work-coordinate-system path (element 5 of the
list) is `G10 L20 P<n> <axis><touchPlateHeight>` with `n = 1, 2, 3, 4, 5, 6` respectively. -/
theorem C5_wcs_register (env : Env) (st : ProbeState) (a pc tok : String) (n : Nat)
    (d f h r : Prim)
    (hp : HasParams st a pc d f h r) (ha : a = "X" ∨ a = "Y" ∨ a = "Z")
    (hw : getWorkCoordinateSystem env st = .str tok)
    (htok : (tok, n) ∈ [("G54", 1), ("G55", 2), ("G56", 3), ("G57", 4), ("G58", 5), ("G59", 6)])
    (htlo : st.useTLO.truthy = false) :
    (populateProbeCommands env st).map (fun l => l[5]?) =
      .ok (some (.str ("G10 L20 P" ++ toString n ++ " " ++ a ++ h.toString))) := by
  obtain ⟨hproto, hreg, hstr⟩ := register_of_token tok n htok
  have hP := mapWCSToP_table env _ tok (toStr_ok_of_str _ tok hw) hproto
  rw [populateProbeCommands_eq env st a pc d f h r _ _ hp (plainAxis_of_xyz a ha) hP
    (toPrimitive_num _)]
  simp only [htlo, Bool.false_eq_true, if_false, Except.map, hreg, hstr,
    List.getElem?_cons_succ, List.getElem?_cons_zero, String.append_assoc]
  rfl

/-- C5 (witness): the active system `G59` gives the register 6. -/
theorem C5_wcs_register_witness :
    (populateProbeCommands sampleEnv (sampleState (.bool false) (.str "G59"))).map
      (fun l => l[5]?) = .ok (some (.str "G10 L20 P6 Z19.5")) :=
  C5_wcs_register sampleEnv (sampleState (.bool false) (.str "G59")) "Z" "G38.2" "G59" 6
    (.num (.ofNat 10)) (.num (.ofNat 100)) (.num (.fin false 195 (-1))) (.num (.ofNat 5))
    ⟨rfl, rfl, rfl, rfl, rfl, rfl⟩ (Or.inr (Or.inr rfl)) rfl (by decide) rfl

theorem register_toString (key : String) :
    (Prim.num (JSNum.ofNat (registerOf key))).toString = toString (registerOf key) := by
  unfold registerOf
  repeat' split
  all_goals decide

theorem registerOf_eq_zero (key : String)
    (h : key ∉ ["G54", "G55", "G56", "G57", "G58", "G59"]) : registerOf key = 0 := by
  simp only [List.mem_cons, List.mem_singleton, List.not_mem_nil, or_false, not_or] at h
  obtain ⟨h1, h2, h3, h4, h5, h6⟩ := h
  simp [registerOf, h1, h2, h3, h4, h5, h6]

theorem getWorkCoordinateSystem_default (env : Env) (st : ProbeState)
    (h1 : (get st.controllerState "parserstate.modal.wcs").truthy = false)
    (h2 : (get st.controllerState "modal.wcs").truthy = false)
    (h3 : (get st.controllerState "sr.modal.wcs").truthy = false) :
    getWorkCoordinateSystem env st = .str "G54" := by
  unfold getWorkCoordinateSystem
  simp only [JSVal.or, h1, h2, h3, Bool.false_eq_true, if_false, ite_self]

/-- C6 (counterexample): with an active-system token other than `G54` to `G59` (here `G59.1`
reported by an idle Grbl controller) the register is `0` and the emitted command is
`G10 L20 P0 Z19.5`: the register is neither between 1 and 6 nor the first slot. -/
theorem C6_counterexample :
    mapWCSToP sampleEnv (getWorkCoordinateSystem sampleEnv
        (sampleState .undefined (.str "G59.1"))) = .ok (.num (.ofNat 0)) ∧
    (populateProbeCommands sampleEnv (sampleState .undefined (.str "G59.1"))).map
        (fun l => l[5]?) = .ok (some (.str "G10 L20 P0 Z19.5")) :=
  ⟨rfl, rfl⟩

/-- C6 (amended): for every controller type and state whose work-coordinate token, as a
property key, is no member name of `Object.prototype`, the register `P` of the `G10` command
(element 5 of the work-coordinate-system list) is `registerOf key`: at most 6, the value
1 to 6 for `G54` to `G59`, 0 for every other token, and 1 when no token is present at the
firmware paths (the token then defaults to `G54`). -/
theorem C6_register_range (env : Env) (st : ProbeState) (a pc key : String) (d f h r : Prim)
    (hp : HasParams st a pc d f h r) (ha : a = "X" ∨ a = "Y" ∨ a = "Z")
    (hk : (getWorkCoordinateSystem env st).toStr = .ok key)
    (hproto : key ∉ objectPrototypeKeys)
    (htlo : st.useTLO.truthy = false) :
    (populateProbeCommands env st).map (fun l => l[5]?) =
        .ok (some (.str ("G10 L20 P" ++ toString (registerOf key) ++ " " ++ a ++ h.toString))) ∧
      registerOf key ≤ 6 ∧
      (key ∉ ["G54", "G55", "G56", "G57", "G58", "G59"] → registerOf key = 0) ∧
      ((get st.controllerState "parserstate.modal.wcs").truthy = false →
        (get st.controllerState "modal.wcs").truthy = false →
        (get st.controllerState "sr.modal.wcs").truthy = false → registerOf key = 1) := by
  refine ⟨?_, registerOf_le key, registerOf_eq_zero key, ?_⟩
  · have hP := mapWCSToP_table env _ key hk hproto
    rw [populateProbeCommands_eq env st a pc d f h r _ _ hp (plainAxis_of_xyz a ha) hP
      (toPrimitive_num _)]
    simp only [htlo, Bool.false_eq_true, if_false, Except.map, register_toString,
      List.getElem?_cons_succ, List.getElem?_cons_zero, String.append_assoc]
    rfl
  · intro h1 h2 h3
    rw [getWorkCoordinateSystem_default env st h1 h2 h3] at hk
    have : key = "G54" := by
      have := hk
      simp only [toStr_str, Except.ok.injEq] at this
      exact this.symm
    subst this
    rfl

/-- C6 (witness): an empty token gives the register 1, the token `G59.1` gives 0. -/
theorem C6_register_range_witness :
    (populateProbeCommands sampleEnv (sampleState .undefined (.str ""))).map (fun l => l[5]?) =
        .ok (some (.str "G10 L20 P1 Z19.5")) ∧
    (populateProbeCommands sampleEnv (sampleState .undefined (.str "G59.1"))).map
        (fun l => l[5]?) = .ok (some (.str "G10 L20 P0 Z19.5")) :=
  ⟨(C6_register_range sampleEnv (sampleState .undefined (.str "")) "Z" "G38.2" "G54"
      (.num (.ofNat 10)) (.num (.ofNat 100)) (.num (.fin false 195 (-1))) (.num (.ofNat 5))
      ⟨rfl, rfl, rfl, rfl, rfl, rfl⟩ (Or.inr (Or.inr rfl)) rfl (by decide) rfl).1,
   (C6_register_range sampleEnv (sampleState .undefined (.str "G59.1")) "Z" "G38.2" "G59.1"
      (.num (.ofNat 10)) (.num (.ofNat 100)) (.num (.fin false 195 (-1))) (.num (.ofNat 5))
      ⟨rfl, rfl, rfl, rfl, rfl, rfl⟩ (Or.inr (Or.inr rfl)) rfl (by decide) rfl).1⟩

theorem takeWhile_before_space (m t : List Char) (hm : ' ' ∉ m) :
    (m ++ ' ' :: t).takeWhile (fun c => c != ' ') = m := by
  induction m with
  | nil => simp [List.takeWhile]
  | cons c rest ih =>
    have hc : c ≠ ' ' := fun h => hm (by simp [h])
    have hr : ' ' ∉ rest := fun h => hm (List.mem_cons_of_mem c h)
    have hb : (c != ' ') = true := by simp [hc]
    have ih2 := ih hr
    simp only [List.cons_append, List.takeWhile, hb]
    exact congrArg (List.cons c) ih2

theorem firstToken_command (m t : String) (hm : ' ' ∉ m.data) :
    firstToken (m ++ " " ++ t) = m := by
  unfold firstToken
  have : (m ++ " " ++ t).data = m.data ++ ' ' :: t.data := by
    simp [String.data_append]
  rw [this, takeWhile_before_space m.data t.data hm]

/-- C7 (counterexample): the list returned on the tool-length-offset path starts with the
element `; Cancel tool length offset`, whose first token is none of the mnemonics, so not
every element is a command line. -/
theorem C7_counterexample :
    (populateProbeCommands sampleEnv (sampleState (.bool true) (.str "G56"))).map
        (fun l => l[0]?) = .ok (some (.str "; Cancel tool length offset")) ∧
    (populateProbeCommands sampleEnv (sampleState (.bool true) (.str "G56"))).map
        (fun l => l.all
          (isCommandLine ["G49", "G91", "G90", "G4", "G43.1", "G10", "G0", "G38.2"])) =
      .ok false :=
  ⟨rfl, rfl⟩

/-- C7 (amended): every element of the list returned by `populateProbeCommands`, on both
paths, is either a comment line that starts with `;` or a command line whose first token is
one of `G49`, `G91`, `G90`, `G4`, `G43.1`, `G10`, `G0` or the configured probe command. -/
theorem C7_comment_or_command (env : Env) (st : ProbeState) (a pc key : String)
    (d f h r : Prim)
    (hp : HasParams st a pc d f h r) (ha : a = "X" ∨ a = "Y" ∨ a = "Z")
    (hpc : ' ' ∉ pc.data)
    (hk : (getWorkCoordinateSystem env st).toStr = .ok key) :
    (populateProbeCommands env st).map (fun l => l.all (fun c => isComment c ||
        isCommandLine ["G49", "G91", "G90", "G4", "G43.1", "G10", "G0", pc] c)) =
      .ok true := by
  obtain ⟨pv, pp, hP, hpp⟩ := mapWCSToP_ok env _ key hk
  rw [populateProbeCommands_eq env st a pc d f h r pv pp hp (plainAxis_of_xyz a ha) hP hpp]
  have c1 : isComment (.str "; Cancel tool length offset") = true := rfl
  have c2 : isComment (.str "; A dwell time of one second") = true := rfl
  have c3 : isComment (.str "; Set tool length offset") = true := rfl
  have c4 : isComment (.str "; Retract from the touch plate") = true := rfl
  have k1 : firstToken "G49" = "G49" := by decide
  have k2 : firstToken "G91" = "G91" := by decide
  have k3 : firstToken "G90" = "G90" := by decide
  have k4 : firstToken "G4 P1" = "G4" := by decide
  have k5 : ∀ t, firstToken ("G43.1" ++ " " ++ t) = "G43.1" := fun t =>
    firstToken_command "G43.1" t (by decide)
  have k6 : ∀ t, firstToken ("G10" ++ " " ++ t) = "G10" := fun t =>
    firstToken_command "G10" t (by decide)
  have k7 : ∀ t, firstToken ("G0" ++ " " ++ t) = "G0" := fun t =>
    firstToken_command "G0" t (by decide)
  have k8 : ∀ t, firstToken (pc ++ " " ++ t) = pc := fun t => firstToken_command pc t hpc
  have c5 : ∀ t u, isComment (.str ("; " ++ t ++ u)) = true := fun t u => by
    rw [String.append_assoc]; exact isComment_semicolon _
  have c6 : ∀ t u, isComment (.str ("; Set the active WCS " ++ t ++ u)) = true := fun t u => by
    simp [isComment, String.data_append]
  cases hu : st.useTLO.truthy <;>
    simp only [Except.map, Bool.false_eq_true, if_false, if_true, List.all_cons, List.all_nil,
      isCommandLine, c1, c2, c3, c4, c5, c6, k1, k2, k3, k4, k5, k6, k7, k8,
      List.contains_cons, List.contains_nil, beq_self_eq_true, Bool.or_true, Bool.true_or,
      Bool.and_true, Bool.and_self]

/-- C7 (witness): the tool-length-offset list of the specification's example. -/
theorem C7_comment_or_command_witness :
    (populateProbeCommands sampleEnv (sampleState (.bool true) (.str "G56"))).map
      (fun l => l.all (fun c => isComment c ||
        isCommandLine ["G49", "G91", "G90", "G4", "G43.1", "G10", "G0", "G38.2"] c)) =
      .ok true :=
  C7_comment_or_command sampleEnv (sampleState (.bool true) (.str "G56")) "Z" "G38.2" "G56"
    (.num (.ofNat 10)) (.num (.ofNat 100)) (.num (.fin false 195 (-1))) (.num (.ofNat 5))
    ⟨rfl, rfl, rfl, rfl, rfl, rfl⟩ (Or.inr (Or.inr rfl)) (by decide) rfl

theorem lookup_length_none (ps : List (String × Prim)) (h : ∀ kp ∈ ps, kp.1 ≠ "length") :
    List.lookup "length" (ps.map (fun kp => (kp.1, kp.2.val))) = none := by
  induction ps with
  | nil => rfl
  | cons kp rest ih =>
    have h1 : ("length" == kp.1) = false :=
      beq_eq_false_iff_ne.mpr (Ne.symm (h kp (List.mem_cons_self kp rest)))
    have h2 := ih (fun x hx => h x (List.mem_cons_of_mem kp hx))
    simp only [List.map, List.lookup, h1, h2]

/-- C8: `gcode(cmd, params)` is `cmd` alone when `params` is absent or empty; otherwise it is
`cmd`, one space, and the words `<letter><value>` of all parameters in their order, joined by
single spaces. No parameter is dropped: a parameter of value `0` gives the word
`<letter>0`. The letters are non-empty names other than `length`. -/
theorem C8_gcode_format (cmd : String) (ps : List (String × Prim))
    (hletters : ∀ kp ∈ ps, kp.1 ≠ "" ∧ kp.1 ≠ "length") :
    gcode (.str cmd) none = .ok (.str cmd) ∧
    gcode (.str cmd) (some []) = .ok (.str cmd) ∧
    (ps ≠ [] → gcode (.str cmd) (some (ps.map (fun kp => (kp.1, kp.2.val)))) =
      .ok (.str (cmd ++ " " ++
        " ".intercalate (ps.map (fun kp => kp.1 ++ kp.2.toString))))) ∧
    (∀ kp ∈ ps, kp.2 = Prim.num (.fin false 0 0) → kp.1 ++ kp.2.toString = kp.1 ++ "0") := by
  refine ⟨rfl, rfl, ?_, ?_⟩
  · intro hne
    have hlen : arrayLikeLength (ps.map (fun kp => (kp.1, kp.2.val))) = none := by
      simp only [arrayLikeLength, lookup_length_none ps (fun kp hkp => (hletters kp hkp).2)]
    have hv : ∀ kv ∈ ps.map (fun kp : String × Prim => (kp.1, kp.2.val)),
        ∃ p, kv.2.toPrimitive = .ok p := by
      intro kv hkv
      obtain ⟨kp, _, rfl⟩ := List.mem_map.mp hkv
      exact ⟨kp.2, Prim.toPrimitive_val _⟩
    rw [gcode_obj cmd _ hlen hv]
    have hwords : (ps.map (fun kp : String × Prim => (kp.1, kp.2.val))).map
        (fun kv => kv.1 ++ (primOf kv.2).toString) =
        ps.map (fun kp => kp.1 ++ kp.2.toString) := by
      rw [List.map_map]
      apply List.map_congr_left
      intro kp _
      simp [primOf]
    rw [hwords]
    cases ps with
    | nil => exact absurd rfl hne
    | cons kp rest =>
      have hk := (hletters kp (List.mem_cons_self kp rest)).1
      have hpos : 0 < (kp.1 ++ kp.2.toString).length := by
        have := string_length_pos kp.1 hk
        simp only [String.length_append]; omega
      have := intercalate_pos " " (kp.1 ++ kp.2.toString)
        (rest.map (fun kp => kp.1 ++ kp.2.toString)) hpos
      simp only [List.map] at this ⊢
      rw [if_pos this]
  · intro kp _ h0
    rw [h0]
    rfl

/-- C8 (witness): `gcode('G0')` is `G0`, and `gcode('G0', {X: 0, F: 100})` is
`G0 X0 F100`. -/
theorem C8_gcode_format_witness :
    gcode (.str "G0") none = .ok (.str "G0") ∧
    gcode (.str "G0") (some [("X", .num (.fin false 0 0)), ("F", .num (.ofNat 100))]) =
      .ok (.str "G0 X0 F100") :=
  ⟨(C8_gcode_format "G0" [("X", .num (.fin false 0 0)), ("F", .num (.ofNat 100))]
      (by decide)).1,
   (C8_gcode_format "G0" [("X", .num (.fin false 0 0)), ("F", .num (.ofNat 100))]
      (by decide)).2.2.1 (by decide)⟩

/-- C9 (counterexample): with a negative probe depth (`-10`, all else as in the
specification's example) `populateProbeCommands` does not fail: it returns the complete
list, whose probe move `G38.2 Z10 F100` carries the negated negative depth. The same holds
for an axis outside `X`, `Y`, `Z`, an unrecognized probe command, a `NaN` depth and a
negative retraction. -/
theorem C9_counterexample :
    populateProbeCommands sampleEnv
      { sampleState .undefined (.str "G54") with probeDepth := .num (.fin true 10 0) } =
      .ok [.str "; Z-Probe", .str "G91", .str "G38.2 Z10 F100", .str "G90",
        .str "; Set the active WCS Z0", .str "G10 L20 P1 Z19.5",
        .str "; Retract from the touch plate", .str "G91", .str "G0 Z5", .str "G90"] ∧
    populateProbeCommands sampleEnv
      { sampleState .undefined (.str "G54") with
        probeAxis := .str "A", probeCommand := .str "M3", probeDepth := .num .nan,
        retractionDistance := .num (.fin true 5 0) } =
      .ok [.str "; A-Probe", .str "G91", .str "M3 ANaN F100", .str "G90",
        .str "; Set the active WCS A0", .str "G10 L20 P1 A19.5",
        .str "; Retract from the touch plate", .str "G91", .str "G0 A-5", .str "G90"] :=
  ⟨rfl, rfl⟩

/-- C9 (amended): `populateProbeCommands` validates none of its parameters. For every axis
name that is a plain string (any of `X`, `Y`, `Z`, but also a name outside them), every
string probe command and all primitive values of the probe depth, the feedrate, the plate
height and the retraction distance (negative, infinite and `NaN` numbers and texts
included) it returns a complete list, of 14 elements with `useTLO` and of 10 without.
It throws a `TypeError`, and returns no list, when the axis is not a string. -/
theorem C9_no_validation (env : Env) (st : ProbeState) (a pc key : String) (d f h r : Prim)
    (hp : HasParams st a pc d f h r) (ha : PlainAxis a)
    (hk : (getWorkCoordinateSystem env st).toStr = .ok key) :
    (populateProbeCommands env st).map List.length =
        .ok (if st.useTLO.truthy then 14 else 10) ∧
      ∀ st2 : ProbeState, (∀ s, st2.probeAxis ≠ .str s) →
        populateProbeCommands env st2 = .error .typeError := by
  constructor
  · obtain ⟨pv, pp, hP, hpp⟩ := mapWCSToP_ok env _ key hk
    rw [populateProbeCommands_eq env st a pc d f h r pv pp hp ha hP hpp]
    cases hu : st.useTLO.truthy <;> rfl
  · intro st2 hs
    have hlow : callToLowerCase st2.probeAxis = .error .typeError := by
      cases hx : st2.probeAxis with
      | str s => exact absurd hx (hs s)
      | _ => rfl
    unfold populateProbeCommands
    simp only [hlow, bind, Except.bind]

/-- C9 (witness): a list of 10 elements for the axis `A`, the command `M3`, a `NaN` depth
and a negative retraction; a `TypeError` for an axis that is `undefined`. -/
theorem C9_no_validation_witness :
    (populateProbeCommands sampleEnv
      { sampleState .undefined (.str "G54") with
        probeAxis := .str "A", probeCommand := .str "M3", probeDepth := .num .nan,
        retractionDistance := .num (.fin true 5 0) }).map List.length = .ok 10 ∧
    populateProbeCommands sampleEnv
      { sampleState .undefined (.str "G54") with probeAxis := .undefined } =
      .error .typeError :=
  ⟨(C9_no_validation sampleEnv
      { sampleState .undefined (.str "G54") with
        probeAxis := .str "A", probeCommand := .str "M3", probeDepth := .num .nan,
        retractionDistance := .num (.fin true 5 0) } "A" "M3" "G54"
      (.num .nan) (.num (.ofNat 100)) (.num (.fin false 195 (-1))) (.num (.fin true 5 0))
      ⟨rfl, rfl, rfl, rfl, rfl, rfl⟩ (by decide) rfl).1,
   (C9_no_validation sampleEnv (sampleState .undefined (.str "G54")) "Z" "G38.2" "G54"
      (.num (.ofNat 10)) (.num (.ofNat 100)) (.num (.fin false 195 (-1))) (.num (.ofNat 5))
      ⟨rfl, rfl, rfl, rfl, rfl, rfl⟩ (by decide) rfl).2
      { sampleState .undefined (.str "G54") with probeAxis := .undefined }
      (fun s hs => by cases hs)⟩

/-- C10: `canClick` returns `false` whenever the port is missing or empty (falsy), for every
controller type, controller state and workflow state. -/
theorem C10_canClick_no_port (env : Env) (st : ProbeState) (hport : st.port.truthy = false) :
    canClick env st = false := by
  simp [canClick, hport]

/-- C10 (witness): an empty port name and a missing port. -/
theorem C10_canClick_no_port_witness :
    canClick sampleEnv { sampleState .undefined (.str "G54") with port := .str "" } = false ∧
    canClick sampleEnv { sampleState .undefined (.str "G54") with port := .undefined } = false :=
  ⟨C10_canClick_no_port sampleEnv { sampleState .undefined (.str "G54") with port := .str "" }
      rfl,
   C10_canClick_no_port sampleEnv
      { sampleState .undefined (.str "G54") with port := .undefined } rfl⟩

/-! ## Lemmas on the readiness check and on the events -/

theorem sameValueZero_of_strictEq_self (a b : JSVal) (hb : b.strictEq b = true) :
    a.sameValueZero b = a.strictEq b := by
  cases b with
  | num n =>
    cases n with
    | nan => simp [JSVal.strictEq, JSNum.strictEq] at hb
    | inf s => cases a <;> first | rfl | (rename_i x; cases x <;> rfl)
    | fin s d e => cases a <;> first | rfl | (rename_i x; cases x <;> rfl)
  | _ => cases a <;> first | rfl | (rename_i x; cases x <;> rfl)

theorem kindsDistinct_facts (env : Env) (hd : env.kindsDistinct = true) :
    (env.GRBL.val.strictEq env.GRBL.val = true ∧ env.MARLIN.val.strictEq env.MARLIN.val = true ∧
     env.SMOOTHIE.val.strictEq env.SMOOTHIE.val = true ∧
     env.TINYG.val.strictEq env.TINYG.val = true) ∧
    (env.GRBL.val.strictEq env.MARLIN.val = false ∧
     env.GRBL.val.strictEq env.SMOOTHIE.val = false ∧
     env.GRBL.val.strictEq env.TINYG.val = false) ∧
    (env.MARLIN.val.strictEq env.GRBL.val = false ∧
     env.MARLIN.val.strictEq env.SMOOTHIE.val = false ∧
     env.MARLIN.val.strictEq env.TINYG.val = false) ∧
    (env.SMOOTHIE.val.strictEq env.GRBL.val = false ∧
     env.SMOOTHIE.val.strictEq env.MARLIN.val = false ∧
     env.SMOOTHIE.val.strictEq env.TINYG.val = false) ∧
    (env.TINYG.val.strictEq env.GRBL.val = false ∧
     env.TINYG.val.strictEq env.MARLIN.val = false ∧
     env.TINYG.val.strictEq env.SMOOTHIE.val = false) := by
  simp only [Env.kindsDistinct, Bool.and_eq_true, Bool.not_eq_true'] at hd
  tauto

theorem prop_eq_str (v : JSVal) (key token : String) (h : v.prop key = .str token) :
    ∃ fs, v = .obj fs := by
  cases v <;> first | exact ⟨_, rfl⟩ | (simp [JSVal.prop] at h)

theorem unitsOfToken_table (env : Env) (token : String) (units : Prim) (prev : JSVal)
    (hunits : (token, units) ∈ [("G20", env.IMPERIAL_UNITS), ("G21", env.METRIC_UNITS)])
    (htruthy : units.val.truthy = true) :
    unitsOfToken env (.str token) prev = .ok units.val := by
  simp only [List.mem_cons, List.mem_singleton, List.not_mem_nil, or_false,
    Prod.mk.injEq] at hunits
  have htab : objectLiteral [("G20", env.IMPERIAL_UNITS.val), ("G21", env.METRIC_UNITS.val)] =
      [("G20", env.IMPERIAL_UNITS.val), ("G21", env.METRIC_UNITS.val)] := rfl
  rcases hunits with ⟨rfl, rfl⟩ | ⟨rfl, rfl⟩
  · simp only [unitsOfToken, toStr_str, bind, Except.bind, pure, Except.pure, htab]
    have : List.lookup "G20" [("G20", env.IMPERIAL_UNITS.val), ("G21", env.METRIC_UNITS.val)] =
        some env.IMPERIAL_UNITS.val := rfl
    rw [this]
    simp only [JSVal.or, htruthy, if_true]
  · simp only [unitsOfToken, toStr_str, bind, Except.bind, pure, Except.pure, htab]
    have : List.lookup "G21" [("G20", env.IMPERIAL_UNITS.val), ("G21", env.METRIC_UNITS.val)] =
        some env.METRIC_UNITS.val := rfl
    rw [this]
    simp only [JSVal.or, htruthy, if_true]

theorem modalUnits_token (env : Env) (record prev : JSVal) (token : String) (units : Prim)
    (htoken : (record.prop "modal").prop "units" = .str token)
    (hunits : (token, units) ∈ [("G20", env.IMPERIAL_UNITS), ("G21", env.METRIC_UNITS)])
    (htruthy : units.val.truthy = true) :
    modalUnits env record prev = .ok units.val := by
  obtain ⟨fs, hfs⟩ := prop_eq_str _ _ _ htoken
  have hm : (JSVal.obj fs).member "units" = .ok (.str token) := by
    rw [← hfs]
    cases hx : record.prop "modal" <;> simp_all [JSVal.member]
  simp only [modalUnits, spreadMemberOrEmpty, hfs, hm, bind, Except.bind,
    unitsOfToken_table env token units prev hunits htruthy]

theorem controllerStateUnits_unrecognized (env : Env) (units type state : JSVal)
    (h1 : type.strictEq env.GRBL.val = false) (h2 : type.strictEq env.MARLIN.val = false)
    (h3 : type.strictEq env.SMOOTHIE.val = false) (h4 : type.strictEq env.TINYG.val = false) :
    controllerStateUnits env units type state = .ok units := by
  simp only [controllerStateUnits, h1, h2, h3, h4, Bool.false_eq_true, if_false, bind,
    Except.bind, pure, Except.pure]

theorem toNumber_val (p : Prim) : p.val.toNumber = .ok p.toNumber := by
  simp [JSVal.toNumber, Except.map]

theorem setNumbers_four (w : Widget) (writes : List (String × JSVal)) (k1 k2 k3 k4 : String)
    (p1 p2 p3 p4 : Prim) :
    (setNumbers w writes [(k1, p1.val), (k2, p2.val), (k3, p3.val), (k4, p4.val)]).error = none ∧
    (setNumbers w writes [(k1, p1.val), (k2, p2.val), (k3, p3.val), (k4, p4.val)]).writes =
      writes ++ [(k1, .num p1.toNumber), (k2, .num p2.toNumber), (k3, .num p3.toNumber),
        (k4, .num p4.toNumber)] ∧
    (setNumbers w writes [(k1, p1.val), (k2, p2.val), (k3, p3.val), (k4, p4.val)]).widget.state =
      w.state ∧
    (setNumbers w writes
      [(k1, p1.val), (k2, p2.val), (k3, p3.val), (k4, p4.val)]).widget.unitsDidChange =
      w.unitsDidChange := by
  simp only [setNumbers, toNumber_val, List.append_assoc, List.cons_append, List.nil_append,
    and_self]

theorem controllerStateHandler_ok (env : Env) (w w1 : Widget) (type state : JSVal)
    (hpush : controllerStateHandler env w type state = (w1, none)) :
    ∃ units values, controllerStateUnits env w.state.units type state = .ok units ∧
      persistedInUnits env w.config units = .ok values ∧
      w1.state = { w.state with
        units := units, controllerType := type, controllerState := state,
        probeDepth := .num values.1, probeFeedrate := .num values.2.1,
        touchPlateHeight := .num values.2.2.1, retractionDistance := .num values.2.2.2 } ∧
      w1.unitsDidChange =
        (if !(w.state.units.strictEq units) then true else w.unitsDidChange) ∧
      w1.config = w.config := by
  unfold controllerStateHandler at hpush
  cases hu : controllerStateUnits env w.state.units type state with
  | error e => simp [hu] at hpush
  | ok units =>
    cases hv : persistedInUnits env w.config units with
    | error e => simp [hu, hv] at hpush
    | ok values =>
      simp only [hu, hv, Prod.mk.injEq, and_true] at hpush
      subst hpush
      exact ⟨units, values, rfl, hv, rfl, rfl, rfl⟩

/-! ## The claims on readiness, units and persistence -/

/-- C11: `canClick` returns `true` exactly when a port is open, the workflow state is the
idle state, the controller type is one of the four firmware tags, and the check of the
firmware passes: for Grbl and for Smoothie `status.machineState` is the idle token of the
firmware, for TinyG `sr.machineState` is the ready, the stop or the end token, and for Marlin
there is no check. In every other case it returns `false`; being a total function of the
state, it does not throw. -/
theorem C11_canClick_iff (env : Env) (st : ProbeState) :
    canClick env st = true ↔
      (st.port.truthy = true ∧
       st.workflowState.strictEq env.WORKFLOW_STATE_IDLE.val = true ∧
       (env.GRBL.val.sameValueZero st.controllerType = true ∨
        env.MARLIN.val.sameValueZero st.controllerType = true ∨
        env.SMOOTHIE.val.sameValueZero st.controllerType = true ∨
        env.TINYG.val.sameValueZero st.controllerType = true) ∧
       (st.controllerType.strictEq env.GRBL.val = true →
          env.GRBL_MACHINE_STATE_IDLE.val.sameValueZero
            (get st.controllerState "status.machineState") = true) ∧
       (st.controllerType.strictEq env.SMOOTHIE.val = true →
          env.SMOOTHIE_MACHINE_STATE_IDLE.val.sameValueZero
            (get st.controllerState "status.machineState") = true) ∧
       (st.controllerType.strictEq env.TINYG.val = true →
          (env.TINYG_MACHINE_STATE_READY.val.sameValueZero
              (get st.controllerState "sr.machineState") = true ∨
           env.TINYG_MACHINE_STATE_STOP.val.sameValueZero
              (get st.controllerState "sr.machineState") = true ∨
           env.TINYG_MACHINE_STATE_END.val.sameValueZero
              (get st.controllerState "sr.machineState") = true))) := by
  simp only [canClick, includes, List.any_cons, List.any_nil, Bool.or_false]
  generalize st.port.truthy = a
  generalize st.workflowState.strictEq env.WORKFLOW_STATE_IDLE.val = b
  generalize env.GRBL.val.sameValueZero st.controllerType = g
  generalize env.MARLIN.val.sameValueZero st.controllerType = m
  generalize env.SMOOTHIE.val.sameValueZero st.controllerType = s
  generalize env.TINYG.val.sameValueZero st.controllerType = t
  generalize st.controllerType.strictEq env.GRBL.val = tg
  generalize st.controllerType.strictEq env.SMOOTHIE.val = ts
  generalize st.controllerType.strictEq env.TINYG.val = tt
  generalize env.GRBL_MACHINE_STATE_IDLE.val.sameValueZero
      (get st.controllerState "status.machineState") = x
  generalize env.SMOOTHIE_MACHINE_STATE_IDLE.val.sameValueZero
      (get st.controllerState "status.machineState") = y
  generalize env.TINYG_MACHINE_STATE_READY.val.sameValueZero
      (get st.controllerState "sr.machineState") = r
  generalize env.TINYG_MACHINE_STATE_STOP.val.sameValueZero
      (get st.controllerState "sr.machineState") = p
  generalize env.TINYG_MACHINE_STATE_END.val.sameValueZero
      (get st.controllerState "sr.machineState") = e
  split_ifs with h1 h2 h3 h4 h5 h6
  all_goals try (simp_all; done)
  simp_all
  revert h3 h6
  cases g <;> cases m <;> cases s <;> cases t <;> cases tt <;> cases r <;> cases p <;>
    cases e <;> simp

/-- C12: with a port open, the workflow idle and the controller type TinyG, `canClick` is
`true` exactly when `sr.machineState` is the ready, the stop or the end token; for every
other value, a missing one included, it is `false`. -/
theorem C12_canClick_tinyg (env : Env) (st : ProbeState) (hd : env.kindsDistinct = true)
    (hport : st.port.truthy = true)
    (hidle : st.workflowState.strictEq env.WORKFLOW_STATE_IDLE.val = true)
    (htype : st.controllerType = env.TINYG.val) :
    canClick env st =
      (env.TINYG_MACHINE_STATE_READY.val.sameValueZero
          (get st.controllerState "sr.machineState") ||
       env.TINYG_MACHINE_STATE_STOP.val.sameValueZero
          (get st.controllerState "sr.machineState") ||
       env.TINYG_MACHINE_STATE_END.val.sameValueZero
          (get st.controllerState "sr.machineState")) := by
  obtain ⟨⟨_, _, _, hT⟩, _, _, _, ⟨hTG, hTM, hTS⟩⟩ := kindsDistinct_facts env hd
  have i4 := sameValueZero_of_strictEq_self env.TINYG.val env.TINYG.val hT
  simp only [canClick, includes, List.any_cons, List.any_nil, Bool.or_false, hport, hidle,
    htype, hTG, hTS, hT, i4, Bool.not_true, Bool.not_false, Bool.or_true, Bool.false_and,
    Bool.true_and, Bool.false_eq_true, if_false, Bool.not_eq_true']
  generalize env.TINYG_MACHINE_STATE_READY.val.sameValueZero
      (get st.controllerState "sr.machineState") = r
  generalize env.TINYG_MACHINE_STATE_STOP.val.sameValueZero
      (get st.controllerState "sr.machineState") = p
  generalize env.TINYG_MACHINE_STATE_END.val.sameValueZero
      (get st.controllerState "sr.machineState") = e
  cases r <;> cases p <;> cases e <;> simp

/-- C12 (witness): the stop token 3 gives `true`; the token 5 and a missing token give
`false`. -/
theorem C12_canClick_tinyg_witness :
    canClick sampleEnv (sampleWidget (.str "mm") (.str "TinyG")
      (.obj [("sr", .obj [("machineState", .num (.ofNat 3))])])).state = true ∧
    canClick sampleEnv (sampleWidget (.str "mm") (.str "TinyG")
      (.obj [("sr", .obj [("machineState", .num (.ofNat 5))])])).state = false ∧
    canClick sampleEnv (sampleWidget (.str "mm") (.str "TinyG") (.obj [])).state = false :=
  ⟨C12_canClick_tinyg sampleEnv _ rfl rfl rfl rfl,
   C12_canClick_tinyg sampleEnv _ rfl rfl rfl rfl,
   C12_canClick_tinyg sampleEnv _ rfl rfl rfl rfl⟩

/-- C13: with a port open, the workflow idle and the controller type Marlin, `canClick` is
`true` for every controller state. -/
theorem C13_canClick_marlin (env : Env) (st : ProbeState) (hd : env.kindsDistinct = true)
    (hport : st.port.truthy = true)
    (hidle : st.workflowState.strictEq env.WORKFLOW_STATE_IDLE.val = true)
    (htype : st.controllerType = env.MARLIN.val) :
    canClick env st = true := by
  obtain ⟨⟨_, hM, _, _⟩, _, ⟨hMG, hMS, hMT⟩, _, _⟩ := kindsDistinct_facts env hd
  have i2 := sameValueZero_of_strictEq_self env.MARLIN.val env.MARLIN.val hM
  simp only [canClick, includes, List.any_cons, List.any_nil, Bool.or_false, hport, hidle,
    htype, hMG, hMS, hMT, hM, i2, Bool.not_true, Bool.not_false, Bool.or_true, Bool.true_or,
    Bool.false_and, Bool.true_and, Bool.false_eq_true, if_false]

/-- C13 (witness): a missing controller state and a state that carries a machine state. -/
theorem C13_canClick_marlin_witness :
    canClick sampleEnv (sampleWidget (.str "mm") (.str "Marlin") .undefined).state = true ∧
    canClick sampleEnv (sampleWidget (.str "mm") (.str "Marlin")
      (.obj [("status", .obj [("machineState", .str "Alarm")])])).state = true :=
  ⟨C13_canClick_marlin sampleEnv _ rfl rfl rfl rfl,
   C13_canClick_marlin sampleEnv _ rfl rfl rfl rfl⟩

/-- C14: for each of the four firmware kinds, a `'controller:state'` push whose units token
(read at `parserstate.modal.units` for Grbl and Smoothie, at `modal.units` for Marlin, at
`sr.modal.units` for TinyG) is `G20` sets the units to `IMPERIAL_UNITS`, and one whose token
is `G21` sets them to `METRIC_UNITS`, whatever the units were before; the handler does not
throw. -/
theorem C14_units_from_token (env : Env) (w : Widget) (type state : JSVal) (kind : Prim)
    (path : List String) (token : String) (units : Prim)
    (hd : env.kindsDistinct = true)
    (hkind : (kind, path) ∈
      [(env.GRBL, ["parserstate", "modal", "units"]), (env.MARLIN, ["modal", "units"]),
       (env.SMOOTHIE, ["parserstate", "modal", "units"]), (env.TINYG, ["sr", "modal", "units"])])
    (htype : type = kind.val)
    (htoken : path.foldl JSVal.prop state = .str token)
    (hunits : (token, units) ∈ [("G20", env.IMPERIAL_UNITS), ("G21", env.METRIC_UNITS)])
    (htruthy : units.val.truthy = true)
    (hconv : ∃ values, persistedInUnits env w.config units.val = .ok values) :
    (controllerStateHandler env w type state).2 = none ∧
      (controllerStateHandler env w type state).1.state.units = units.val := by
  obtain ⟨⟨hG, hM, hS, hT⟩, ⟨hGM, hGS, hGT⟩, ⟨hMG, hMS, hMT⟩, ⟨hSG, hSM, hST⟩,
    ⟨hTG, hTM, hTS⟩⟩ := kindsDistinct_facts env hd
  obtain ⟨values, hvalues⟩ := hconv
  have hu : controllerStateUnits env w.state.units type state = .ok units.val := by
    simp only [List.mem_cons, List.mem_singleton, List.not_mem_nil, or_false,
      Prod.mk.injEq] at hkind
    rcases hkind with ⟨rfl, rfl⟩ | ⟨rfl, rfl⟩ | ⟨rfl, rfl⟩ | ⟨rfl, rfl⟩ <;>
      simp only [List.foldl] at htoken <;>
      simp only [controllerStateUnits, htype, hG, hM, hS, hT, hGM, hGS, hGT, hMG, hMS, hMT,
        hSG, hSM, hST, hTG, hTM, hTS, if_true, Bool.false_eq_true, if_false, bind,
        Except.bind, pure, Except.pure, spreadMember,
        modalUnits_token env _ _ token units htoken hunits htruthy]
  simp only [controllerStateHandler, hu, hvalues, and_self]

/-- C14 (witness): a TinyG push with `sr.modal.units = 'G20'` on a widget in millimetres. -/
theorem C14_units_from_token_witness :
    (controllerStateHandler sampleEnv (sampleWidget (.str "mm") (.str "TinyG") (.obj []))
      (.str "TinyG") (.obj [("sr", .obj [("modal", .obj [("units", .str "G20")])])])).2 = none ∧
    (controllerStateHandler sampleEnv (sampleWidget (.str "mm") (.str "TinyG") (.obj []))
      (.str "TinyG")
      (.obj [("sr", .obj [("modal", .obj [("units", .str "G20")])])])).1.state.units =
      .str "in" :=
  C14_units_from_token sampleEnv (sampleWidget (.str "mm") (.str "TinyG") (.obj []))
    (.str "TinyG") (.obj [("sr", .obj [("modal", .obj [("units", .str "G20")])])])
    (.str "TinyG") ["sr", "modal", "units"] "G20" (.str "in") rfl (by decide) rfl rfl
    (by decide) rfl ⟨_, rfl⟩

/-- C15 (failing input): a Grbl push whose `parserstate.modal` is `null` makes the
`'controller:state'` handler throw a `TypeError` (the default `modal = {}` of the
destructuring replaces `undefined` only, so `modal.units` is read on `null`); and a push
whose units token is `constructor` replaces the units by the function `Object`, which the
table inherits, instead of keeping them. -/
theorem C15_failing_input :
    (controllerStateHandler sampleEnv (sampleWidget (.str "in") (.str "Grbl") (.obj []))
      (.str "Grbl") (.obj [("parserstate", .obj [("modal", .null)])])).2 = some .typeError ∧
    (controllerStateHandler sampleEnv (sampleWidget (.str "in") (.str "Grbl") (.obj []))
      (.str "Grbl")
      (.obj [("parserstate", .obj [("modal", .obj [("units", .str "constructor")])])])).1.state.units
      = .fn "function Object() \x7b [native code] \x7d" :=
  ⟨rfl, rfl⟩

/-- C16 (counterexample): a widget whose Grbl controller reports `G55` returns `G55` from
`getWorkCoordinateSystem`; after a push with the unrecognized tag `Foo` it returns `G54`. -/
theorem C16_counterexample :
    getWorkCoordinateSystem sampleEnv
      (sampleWidget (.str "mm") (.str "Grbl")
        (.obj [("parserstate", .obj [("modal", .obj [("wcs", .str "G55")])])])).state =
      .str "G55" ∧
    getWorkCoordinateSystem sampleEnv
      (controllerStateHandler sampleEnv
        (sampleWidget (.str "mm") (.str "Grbl")
          (.obj [("parserstate", .obj [("modal", .obj [("wcs", .str "G55")])])]))
        (.str "Foo") (.obj [("parserstate", .obj [("modal", .obj [("wcs", .str "G55")])])])
      ).1.state = .str "G54" :=
  ⟨rfl, rfl⟩

/-- C16 (amended): a `'controller:state'` push with a tag that is none of the four firmware
tags does not throw and leaves the units as they were; it stores the pushed tag and status
as the controller of the widget, so that `getWorkCoordinateSystem` returns the default `G54`
after the push. -/
theorem C16_unrecognized_firmware (env : Env) (w : Widget) (type state : JSVal)
    (h1 : type.strictEq env.GRBL.val = false) (h2 : type.strictEq env.MARLIN.val = false)
    (h3 : type.strictEq env.SMOOTHIE.val = false) (h4 : type.strictEq env.TINYG.val = false)
    (hconv : ∃ values, persistedInUnits env w.config w.state.units = .ok values) :
    (controllerStateHandler env w type state).2 = none ∧
    (controllerStateHandler env w type state).1.state.units = w.state.units ∧
    (controllerStateHandler env w type state).1.state.controllerType = type ∧
    (controllerStateHandler env w type state).1.state.controllerState = state ∧
    getWorkCoordinateSystem env (controllerStateHandler env w type state).1.state =
      .str "G54" := by
  obtain ⟨values, hvalues⟩ := hconv
  simp only [controllerStateHandler, controllerStateUnits_unrecognized env _ type state h1 h2
    h3 h4, hvalues, getWorkCoordinateSystem, h1, h2, h3, h4, Bool.false_eq_true, if_false,
    and_self]

/-- C16 (witness): a push with the tag `Foo` on a widget in inches whose Grbl controller
reported `G55`. -/
theorem C16_unrecognized_firmware_witness :
    (controllerStateHandler sampleEnv
        (sampleWidget (.str "in") (.str "Grbl")
          (.obj [("parserstate", .obj [("modal", .obj [("wcs", .str "G55")])])]))
        (.str "Foo") (.obj [])).1.state.units = .str "in" ∧
    getWorkCoordinateSystem sampleEnv
      (controllerStateHandler sampleEnv
        (sampleWidget (.str "in") (.str "Grbl")
          (.obj [("parserstate", .obj [("modal", .obj [("wcs", .str "G55")])])]))
        (.str "Foo") (.obj [])).1.state = .str "G54" :=
  ⟨(C16_unrecognized_firmware sampleEnv
      (sampleWidget (.str "in") (.str "Grbl")
        (.obj [("parserstate", .obj [("modal", .obj [("wcs", .str "G55")])])]))
      (.str "Foo") (.obj []) rfl rfl rfl rfl ⟨_, rfl⟩).2.1,
   (C16_unrecognized_firmware sampleEnv
      (sampleWidget (.str "in") (.str "Grbl")
        (.obj [("parserstate", .obj [("modal", .obj [("wcs", .str "G55")])])]))
      (.str "Foo") (.obj []) rfl rfl rfl rfl ⟨_, rfl⟩).2.2.2.2⟩

/-- C17: `getWorkCoordinateSystem` returns the token found at `parserstate.modal.wcs` for
Grbl and Smoothie, at `modal.wcs` for Marlin and at `sr.modal.wcs` for TinyG when the token
is present (truthy), and `G54` when it is absent or empty; it returns `G54` when the
controller state is missing and when the controller type is none of the four. -/
theorem C17_work_coordinate_system (env : Env) (st : ProbeState)
    (hd : env.kindsDistinct = true) :
    (∀ kind path, (kind, path) ∈
        [(env.GRBL, "parserstate.modal.wcs"), (env.MARLIN, "modal.wcs"),
         (env.SMOOTHIE, "parserstate.modal.wcs"), (env.TINYG, "sr.modal.wcs")] →
      st.controllerType = kind.val →
      getWorkCoordinateSystem env st =
        if (get st.controllerState path).truthy then get st.controllerState path
        else .str "G54") ∧
    ((st.controllerState = .undefined ∨ st.controllerState = .null) →
      getWorkCoordinateSystem env st = .str "G54") ∧
    (st.controllerType.strictEq env.GRBL.val = false →
      st.controllerType.strictEq env.MARLIN.val = false →
      st.controllerType.strictEq env.SMOOTHIE.val = false →
      st.controllerType.strictEq env.TINYG.val = false →
      getWorkCoordinateSystem env st = .str "G54") := by
  obtain ⟨⟨hG, hM, hS, hT⟩, ⟨hGM, hGS, hGT⟩, ⟨hMG, hMS, hMT⟩, ⟨hSG, hSM, hST⟩,
    ⟨hTG, hTM, hTS⟩⟩ := kindsDistinct_facts env hd
  refine ⟨?_, ?_, ?_⟩
  · intro kind path hmem htype
    simp only [List.mem_cons, List.mem_singleton, List.not_mem_nil, or_false,
      Prod.mk.injEq] at hmem
    rcases hmem with ⟨rfl, rfl⟩ | ⟨rfl, rfl⟩ | ⟨rfl, rfl⟩ | ⟨rfl, rfl⟩ <;>
      simp only [getWorkCoordinateSystem, htype, hG, hM, hS, hT, hMG, hSG, hSM, hTG, hTM, hTS,
        if_true, Bool.false_eq_true, if_false, JSVal.or]
  · intro hmiss
    rcases hmiss with h | h <;>
      simp only [getWorkCoordinateSystem, h, get, JSVal.or, JSVal.truthy, Bool.false_eq_true,
        if_false, ite_self]
  · intro h1 h2 h3 h4
    simp only [getWorkCoordinateSystem, h1, h2, h3, h4, Bool.false_eq_true, if_false]

/-- C17 (witness): TinyG reporting `G57`, and Marlin with an empty token. -/
theorem C17_work_coordinate_system_witness :
    getWorkCoordinateSystem sampleEnv (sampleWidget (.str "mm") (.str "TinyG")
      (.obj [("sr", .obj [("modal", .obj [("wcs", .str "G57")])])])).state = .str "G57" ∧
    getWorkCoordinateSystem sampleEnv (sampleWidget (.str "mm") (.str "Marlin")
      (.obj [("modal", .obj [("wcs", .str "")])])).state = .str "G54" :=
  ⟨(C17_work_coordinate_system sampleEnv (sampleWidget (.str "mm") (.str "TinyG")
      (.obj [("sr", .obj [("modal", .obj [("wcs", .str "G57")])])])).state rfl).1
      (.str "TinyG") "sr.modal.wcs" (by decide) rfl,
   (C17_work_coordinate_system sampleEnv (sampleWidget (.str "mm") (.str "Marlin")
      (.obj [("modal", .obj [("wcs", .str "")])])).state rfl).1
      (.str "Marlin") "modal.wcs" (by decide) rfl⟩

/-- C18 (counterexample): in a state without an open port `canClick` is `false`, and
`runProbeCommands` still hands the `gcode` command with the given lines to the controller. -/
theorem C18_counterexample :
    canClick sampleEnv { sampleState .undefined (.str "G54") with port := .str "" } = false ∧
    runProbeCommands { sampleState .undefined (.str "G54") with port := .str "" }
      (.arr [.str "G91", .str "G38.2 Z-10 F100", .str "G90"]) =
      [("gcode", .arr [.str "G91", .str "G38.2 Z-10 F100", .str "G90"])] :=
  ⟨rfl, rfl⟩

/-- C18 (amended): `runProbeCommands` hands exactly one `gcode` command, carrying the lines it
is given, to the controller transport in every widget state, whatever `canClick` returns. -/
theorem C18_run_unconditional (st : ProbeState) (commands : JSVal) :
    runProbeCommands st commands = [("gcode", commands)] := by
  rfl

/-- C19: after a `'controller:state'` push that changes the units (the previous units being
a primitive value), the flag `unitsDidChange` is set; the next `componentDidUpdate` saves
`minimized` only, so none of `probeCommand`, `useTLO`, `probeDepth`, `probeFeedrate`,
`touchPlateHeight`, `retractionDistance`, and clears the flag; the `componentDidUpdate` after
it saves all of them. -/
theorem C19_flush_skipped_once (env : Env) (w w1 : Widget) (type state : JSVal) (p : Prim)
    (hprev : w.state.units = p.val)
    (hpush : controllerStateHandler env w type state = (w1, none))
    (hchanged : p.val.strictEq w1.state.units = false)
    (hin : ∀ n : JSNum, ∃ m, env.in2mm (.num n) = .ok m) :
    w1.unitsDidChange = true ∧
    (componentDidUpdate env w1).writes = [("minimized", w1.state.minimized)] ∧
    (componentDidUpdate env w1).error = none ∧
    (componentDidUpdate env w1).widget.unitsDidChange = false ∧
    (componentDidUpdate env w1).widget.state = w1.state ∧
    (componentDidUpdate env (componentDidUpdate env w1).widget).error = none ∧
    (componentDidUpdate env (componentDidUpdate env w1).widget).writes.map Prod.fst =
      ["minimized", "probeCommand", "useTLO", "probeDepth", "probeFeedrate",
       "touchPlateHeight", "retractionDistance"] := by
  obtain ⟨units, values, _, _, hstate, hflag, _⟩ :=
    controllerStateHandler_ok env w w1 type state hpush
  have hunits : w1.state.units = units := by rw [hstate]
  rw [hunits, ← hprev] at hchanged
  have hflag1 : w1.unitsDidChange = true := by
    rw [hflag]; simp only [hchanged, Bool.not_false, if_true]
  have hfirst : componentDidUpdate env w1 =
      ⟨{ w1 with config := w1.config.set "minimized" w1.state.minimized,
                 unitsDidChange := false },
        [("minimized", w1.state.minimized)], none⟩ := by
    simp only [componentDidUpdate, hflag1, if_true]
  refine ⟨hflag1, ?_, ?_, ?_, ?_, ?_⟩
  · rw [hfirst]
  · rw [hfirst]
  · rw [hfirst]
  · rw [hfirst]
  · rw [hfirst]
    obtain ⟨m1, hm1⟩ := hin values.1
    obtain ⟨m2, hm2⟩ := hin values.2.1
    obtain ⟨m3, hm3⟩ := hin values.2.2.1
    obtain ⟨m4, hm4⟩ := hin values.2.2.2
    have hd : w1.state.probeDepth = .num values.1 := by rw [hstate]
    have hf : w1.state.probeFeedrate = .num values.2.1 := by rw [hstate]
    have hh : w1.state.touchPlateHeight = .num values.2.2.1 := by rw [hstate]
    have hr : w1.state.retractionDistance = .num values.2.2.2 := by rw [hstate]
    cases hu : w1.state.units.strictEq env.IMPERIAL_UNITS.val
    · have hv : valuesToSave env w1.state =
          .ok (.num values.1, .num values.2.1, .num values.2.2.1, .num values.2.2.2) := by
        simp only [valuesToSave, hu, Bool.false_eq_true, if_false, pure, Except.pure, hd, hf,
          hh, hr]
      simp only [componentDidUpdate, Bool.false_eq_true, if_false, hv, List.cons_append,
        List.nil_append]
      have h4 := fun wx ws => setNumbers_four wx ws "probeDepth" "probeFeedrate"
        "touchPlateHeight" "retractionDistance" (.num values.1) (.num values.2.1)
        (.num values.2.2.1) (.num values.2.2.2)
      simp only [Prim.val, Prim.toNumber] at h4
      refine ⟨(h4 _ _).1, ?_⟩
      rw [(h4 _ _).2.1]
      rfl
    · have hv : valuesToSave env w1.state = .ok (.num m1, .num m2, .num m3, .num m4) := by
        simp only [valuesToSave, hu, if_true, hd, hf, hh, hr, hm1, hm2, hm3, hm4, bind,
          Except.bind, pure, Except.pure]
      simp only [componentDidUpdate, Bool.false_eq_true, if_false, hv, List.cons_append,
        List.nil_append]
      have h4 := fun wx ws => setNumbers_four wx ws "probeDepth" "probeFeedrate"
        "touchPlateHeight" "retractionDistance" (.num m1) (.num m2) (.num m3) (.num m4)
      simp only [Prim.val, Prim.toNumber] at h4
      refine ⟨(h4 _ _).1, ?_⟩
      rw [(h4 _ _).2.1]
      rfl

/-- C19 (witness): a Grbl push with the token `G20` on a widget in millimetres. -/
theorem C19_flush_skipped_once_witness :
    (componentDidUpdate sampleEnv
      (controllerStateHandler sampleEnv (sampleWidget (.str "mm") (.str "Grbl") (.obj []))
        (.str "Grbl")
        (.obj [("parserstate", .obj [("modal", .obj [("units", .str "G20")])])])).1).writes =
      [("minimized", .bool false)] ∧
    (componentDidUpdate sampleEnv (componentDidUpdate sampleEnv
      (controllerStateHandler sampleEnv (sampleWidget (.str "mm") (.str "Grbl") (.obj []))
        (.str "Grbl")
        (.obj [("parserstate", .obj [("modal", .obj [("units", .str "G20")])])])).1
      ).widget).writes.map Prod.fst =
      ["minimized", "probeCommand", "useTLO", "probeDepth", "probeFeedrate",
       "touchPlateHeight", "retractionDistance"] :=
  ⟨(C19_flush_skipped_once sampleEnv (sampleWidget (.str "mm") (.str "Grbl") (.obj []))
      (controllerStateHandler sampleEnv (sampleWidget (.str "mm") (.str "Grbl") (.obj []))
        (.str "Grbl")
        (.obj [("parserstate", .obj [("modal", .obj [("units", .str "G20")])])])).1
      (.str "Grbl") (.obj [("parserstate", .obj [("modal", .obj [("units", .str "G20")])])])
      (.str "mm") rfl rfl rfl (fun _ => ⟨_, rfl⟩)).2.1,
   (C19_flush_skipped_once sampleEnv (sampleWidget (.str "mm") (.str "Grbl") (.obj []))
      (controllerStateHandler sampleEnv (sampleWidget (.str "mm") (.str "Grbl") (.obj []))
        (.str "Grbl")
        (.obj [("parserstate", .obj [("modal", .obj [("units", .str "G20")])])])).1
      (.str "Grbl") (.obj [("parserstate", .obj [("modal", .obj [("units", .str "G20")])])])
      (.str "mm") rfl rfl rfl (fun _ => ⟨_, rfl⟩)).2.2.2.2.2.2⟩

/-- C20: in a `componentDidUpdate` that is not suppressed, the values written for
`probeDepth`, `probeFeedrate`, `touchPlateHeight` and `retractionDistance` are the displayed
values in millimetres: the displayed value times 25.4, as the operator `*` computes the
product (rounded to the nearest double), when the units are `IMPERIAL_UNITS`, and the
displayed value as a number otherwise; `in2mm` is the multiplication by 25.4 that the
specification states. -/
theorem C20_saved_in_millimetres (env : Env) (w : Widget) (d f h r : Prim)
    (hflag : w.unitsDidChange = false)
    (hd : w.state.probeDepth = d.val) (hf : w.state.probeFeedrate = f.val)
    (hh : w.state.touchPlateHeight = h.val) (hr : w.state.retractionDistance = r.val)
    (hin : ∀ p : Prim, env.in2mm p.val = .ok (p.toNumber.times (.fin false 254 (-1)))) :
    (componentDidUpdate env w).error = none ∧
    (componentDidUpdate env w).writes =
      [("minimized", w.state.minimized), ("probeCommand", w.state.probeCommand),
       ("useTLO", w.state.useTLO),
       ("probeDepth", .num (if w.state.units.strictEq env.IMPERIAL_UNITS.val
          then d.toNumber.times (.fin false 254 (-1)) else d.toNumber)),
       ("probeFeedrate", .num (if w.state.units.strictEq env.IMPERIAL_UNITS.val
          then f.toNumber.times (.fin false 254 (-1)) else f.toNumber)),
       ("touchPlateHeight", .num (if w.state.units.strictEq env.IMPERIAL_UNITS.val
          then h.toNumber.times (.fin false 254 (-1)) else h.toNumber)),
       ("retractionDistance", .num (if w.state.units.strictEq env.IMPERIAL_UNITS.val
          then r.toNumber.times (.fin false 254 (-1)) else r.toNumber))] := by
  cases hu : w.state.units.strictEq env.IMPERIAL_UNITS.val
  · have hv : valuesToSave env w.state = .ok (d.val, f.val, h.val, r.val) := by
      simp only [valuesToSave, hu, Bool.false_eq_true, if_false, pure, Except.pure, hd, hf, hh,
        hr]
    simp only [componentDidUpdate, hflag, Bool.false_eq_true, if_false, hv, List.cons_append,
      List.nil_append]
    exact ⟨(setNumbers_four _ _ _ _ _ _ d f h r).1, (setNumbers_four _ _ _ _ _ _ d f h r).2.1⟩
  · have hv : valuesToSave env w.state =
        .ok (.num (d.toNumber.times (.fin false 254 (-1))),
          .num (f.toNumber.times (.fin false 254 (-1))),
          .num (h.toNumber.times (.fin false 254 (-1))),
          .num (r.toNumber.times (.fin false 254 (-1)))) := by
      simp only [valuesToSave, hu, if_true, hd, hf, hh, hr, hin, bind, Except.bind, pure,
        Except.pure]
    simp only [componentDidUpdate, hflag, Bool.false_eq_true, if_false, hv, List.cons_append,
      List.nil_append]
    exact ⟨(setNumbers_four _ _ _ _ _ _ (.num (d.toNumber.times (.fin false 254 (-1))))
        (.num (f.toNumber.times (.fin false 254 (-1))))
        (.num (h.toNumber.times (.fin false 254 (-1))))
        (.num (r.toNumber.times (.fin false 254 (-1))))).1,
      (setNumbers_four _ _ _ _ _ _ (.num (d.toNumber.times (.fin false 254 (-1))))
        (.num (f.toNumber.times (.fin false 254 (-1))))
        (.num (h.toNumber.times (.fin false 254 (-1))))
        (.num (r.toNumber.times (.fin false 254 (-1))))).2.1⟩

/-- C20 (witness): the displayed values 10, 100, 19.5 and 5 are saved as 254, 2540,
495.29999999999995 and 127 in inches mode and as they are in millimetres mode. -/
theorem C20_saved_in_millimetres_witness :
    (componentDidUpdate unitsEnv (sampleWidget (.str "in") (.str "Grbl") (.obj []))).writes =
      [("minimized", .bool false), ("probeCommand", .str "G38.2"), ("useTLO", .undefined),
       ("probeDepth", .num (.fin false 254 0)),
       ("probeFeedrate", .num (.fin false 254 1)),
       ("touchPlateHeight", .num (.fin false 49529999999999995 (-14))),
       ("retractionDistance", .num (.fin false 127 0))] ∧
    (componentDidUpdate unitsEnv (sampleWidget (.str "mm") (.str "Grbl") (.obj []))).writes =
      [("minimized", .bool false), ("probeCommand", .str "G38.2"), ("useTLO", .undefined),
       ("probeDepth", .num (.ofNat 10)), ("probeFeedrate", .num (.ofNat 100)),
       ("touchPlateHeight", .num (.fin false 195 (-1))),
       ("retractionDistance", .num (.ofNat 5))] :=
  ⟨(C20_saved_in_millimetres unitsEnv (sampleWidget (.str "in") (.str "Grbl") (.obj []))
      (.num (.ofNat 10)) (.num (.ofNat 100)) (.num (.fin false 195 (-1))) (.num (.ofNat 5))
      rfl rfl rfl rfl rfl (fun p => by cases p <;> rfl)).2,
   (C20_saved_in_millimetres unitsEnv (sampleWidget (.str "mm") (.str "Grbl") (.obj []))
      (.num (.ofNat 10)) (.num (.ofNat 100)) (.num (.fin false 195 (-1))) (.num (.ofNat 5))
      rfl rfl rfl rfl rfl (fun p => by cases p <;> rfl)).2⟩

/-! ## Lemmas on the initial state, the G-code widget and the rotations -/

/-! ### Lemmas on the rounding to doubles -/

theorem bitLength_lt (fuel n : Nat) (h : n ≤ fuel) : n < 2 ^ Double.bitLength fuel n := by
  induction fuel generalizing n with
  | zero =>
    have : n = 0 := by omega
    subst this
    simp [Double.bitLength]
  | succ f ih =>
    unfold Double.bitLength
    by_cases hn : n = 0
    · simp [hn]
    · simp only [hn, if_false]
      have h2 : n / 2 ≤ f := by omega
      have := ih (n / 2) h2
      rw [pow_succ]
      omega

theorem bitLength_le (fuel n : Nat) (h : n ≤ fuel) (hn : 0 < n) :
    2 ^ (Double.bitLength fuel n - 1) ≤ n := by
  induction fuel generalizing n with
  | zero => omega
  | succ f ih =>
    unfold Double.bitLength
    have hn0 : n ≠ 0 := by omega
    simp only [hn0, if_false, Nat.add_sub_cancel]
    by_cases h1 : n / 2 = 0
    · have : Double.bitLength f (n / 2) = 0 := by
        rw [h1]; cases f <;> simp [Double.bitLength]
      rw [this]; simpa using hn
    · have h2 : n / 2 ≤ f := by omega
      have h3 := ih (n / 2) h2 (by omega)
      have h4 : 1 ≤ Double.bitLength f (n / 2) := by
        cases f with
        | zero => omega
        | succ g => unfold Double.bitLength; simp [h1]
      have h5 : Double.bitLength f (n / 2) = (Double.bitLength f (n / 2) - 1) + 1 := by omega
      rw [h5, pow_succ]
      omega

theorem zpow_split (b : ℚ) (e : Int) :
    b ^ e.toNat / b ^ (-e).toNat = b ^ e := by
  rcases le_total 0 e with h | h
  · have h1 : (-e).toNat = 0 := by omega
    have h2 : ((e.toNat : Int)) = e := Int.toNat_of_nonneg h
    rw [h1, pow_zero, div_one, ← zpow_natCast, h2]
  · have h1 : e.toNat = 0 := by omega
    have h2 : (((-e).toNat : Int)) = -e := Int.toNat_of_nonneg (by omega)
    rw [h1, pow_zero, one_div, ← zpow_natCast, h2, zpow_neg, inv_inv]

theorem roundAt_err (N D : Nat) (e : Int) (hD : 0 < D) :
    |((Double.roundAt N D e : ℕ) : ℚ) * 2 ^ e - (N : ℚ) / D| ≤ 2 ^ e / 2 := by
  have hD' : (0 : ℚ) < D := by exact_mod_cast hD
  have h2e : (0 : ℚ) < 2 ^ e := zpow_pos (by norm_num) e
  set num := N * 2 ^ (-e).toNat with hnum
  set den := D * 2 ^ e.toNat with hden
  have hden0 : 0 < den := Nat.mul_pos hD (pow_pos (by norm_num) _)
  have hdenq : (0 : ℚ) < den := by exact_mod_cast hden0
  have hscale : (N : ℚ) / D = ((num : ℚ) / den) * 2 ^ e := by
    rw [hnum, hden]
    push_cast
    rw [← zpow_split 2 e]
    have a1 : (0 : ℚ) < 2 ^ e.toNat := pow_pos (by norm_num) _
    have a2 : (0 : ℚ) < 2 ^ (-e).toNat := pow_pos (by norm_num) _
    field_simp
    ring
  have hdiv : num = den * (num / den) + num % den := (Nat.div_add_mod num den).symm
  have hmod : num % den < den := Nat.mod_lt _ hden0
  have hq : (num : ℚ) / den = (num / den : ℕ) + ((num % den : ℕ) : ℚ) / den := by
    have : (num : ℚ) = den * (num / den : ℕ) + (num % den : ℕ) := by exact_mod_cast hdiv
    field_simp
    linarith
  have hr0 : (0 : ℚ) ≤ ((num % den : ℕ) : ℚ) / den := by positivity
  have hr1 : ((num % den : ℕ) : ℚ) / den < 1 := by
    rw [div_lt_one hdenq]; exact_mod_cast hmod
  have key : |((Double.roundAt N D e : ℕ) : ℚ) - (num : ℚ) / den| ≤ 1 / 2 := by
    unfold Double.roundAt
    simp only [← hnum, ← hden]
    split_ifs with hc
    · have h2r : den ≤ 2 * (num % den) := by
        rcases hc with h | ⟨h, _⟩ <;> omega
      have h2rq : (den : ℚ) ≤ 2 * ((num % den : ℕ) : ℚ) := by exact_mod_cast h2r
      have : (1 : ℚ) / 2 ≤ ((num % den : ℕ) : ℚ) / den := by
        rw [le_div_iff₀ hdenq]; linarith
      rw [hq]; push_cast
      rw [abs_le]; constructor <;> linarith
    · have h2r : 2 * (num % den) ≤ den := by
        by_contra hcon
        exact hc (Or.inl (by omega))
      have h2rq : 2 * ((num % den : ℕ) : ℚ) ≤ (den : ℚ) := by exact_mod_cast h2r
      have : ((num % den : ℕ) : ℚ) / den ≤ 1 / 2 := by
        rw [div_le_iff₀ hdenq]; linarith
      rw [hq]
      rw [abs_le]; constructor <;> linarith
  rw [hscale]
  have : ((Double.roundAt N D e : ℕ) : ℚ) * 2 ^ e - (num : ℚ) / den * 2 ^ e =
      (((Double.roundAt N D e : ℕ) : ℚ) - (num : ℚ) / den) * 2 ^ e := by ring
  rw [this, abs_mul, abs_of_pos h2e]
  calc |((Double.roundAt N D e : ℕ) : ℚ) - (num : ℚ) / den| * 2 ^ e
      ≤ (1 / 2) * 2 ^ e := by gcongr
    _ = 2 ^ e / 2 := by ring

theorem exponentOf_le (N D : Nat) (k : Int) (hD : 0 < D) (hk : 1 ≤ k)
    (hq : (N : ℚ) / D < 2 ^ k) : Double.exponentOf N D ≤ k - 53 := by
  have hD' : (0 : ℚ) < D := by exact_mod_cast hD
  unfold Double.exponentOf
  set L : Int := (Double.bitLength N N : Int) - (Double.bitLength D D : Int) with hL
  have hfl : (if D * 2 ^ L.toNat ≤ N * 2 ^ (-L).toNat then L else L - 1) ≤ k - 1 := by
    rcases Nat.eq_zero_or_pos N with hN | hN
    · have h0 : Double.bitLength N N = 0 := by subst hN; rfl
      have hL0 : L ≤ 0 := by rw [hL, h0]; omega
      split_ifs <;> omega
    · have key : ∀ f : Int, (2 : ℚ) ^ f ≤ (N : ℚ) / D → f ≤ k - 1 := by
        intro f hf
        have : (2 : ℚ) ^ f < 2 ^ k := lt_of_le_of_lt hf hq
        have := (zpow_lt_zpow_iff_right₀ (by norm_num : (1 : ℚ) < 2)).mp this
        omega
      split_ifs with hc
      · apply key
        have hc' : (D : ℚ) * 2 ^ L.toNat ≤ (N : ℚ) * 2 ^ (-L).toNat := by exact_mod_cast hc
        rw [← zpow_split 2 L, div_le_div_iff₀ (pow_pos (by norm_num) _) hD']
        linarith
      · apply key
        have h1 := bitLength_le N N le_rfl hN
        have h2 := bitLength_lt D D le_rfl
        have hb1 : 1 ≤ Double.bitLength N N := by
          by_contra hcon
          have : Double.bitLength N N = 0 := by omega
          have := bitLength_lt N N le_rfl
          simp_all
        have h1q : (2 : ℚ) ^ ((Double.bitLength N N : Int) - 1) ≤ N := by
          have : ((Double.bitLength N N : Int) - 1) = ((Double.bitLength N N - 1 : ℕ) : Int) := by
            omega
          rw [this, zpow_natCast]
          exact_mod_cast h1
        have h2q : (D : ℚ) ≤ 2 ^ (Double.bitLength D D : Int) := by
          rw [zpow_natCast]
          exact_mod_cast h2.le
        have hsplit : (2 : ℚ) ^ (L - 1) =
            2 ^ ((Double.bitLength N N : Int) - 1) / 2 ^ (Double.bitLength D D : Int) := by
          rw [← zpow_sub₀ (by norm_num)]
          congr 1
          omega
        rw [hsplit, div_le_div_iff₀ (zpow_pos (by norm_num) _) hD']
        calc (2 : ℚ) ^ ((Double.bitLength N N : Int) - 1) * D
            ≤ N * D := by gcongr
          _ ≤ N * 2 ^ (Double.bitLength D D : Int) := by gcongr
  have : max ((if D * 2 ^ L.toNat ≤ N * 2 ^ (-L).toNat then L else L - 1) - 52) (-1074)
      ≤ k - 53 := by
    apply max_le <;> omega
  exact this

theorem nearest_value (N D : Nat) :
    ((Double.nearest N D).1 : ℚ) * 2 ^ (Double.nearest N D).2 =
      ((Double.roundAt N D (Double.exponentOf N D) : ℕ) : ℚ) * 2 ^ Double.exponentOf N D ∧
    Double.exponentOf N D ≤ (Double.nearest N D).2 ∧
    (Double.nearest N D).2 ≤ Double.exponentOf N D + 1 := by
  unfold Double.nearest
  simp only
  split_ifs with h
  · refine ⟨?_, by omega, by omega⟩
    rw [h, zpow_add₀ (by norm_num)]
    push_cast
    ring
  · exact ⟨rfl, le_rfl, by omega⟩

theorem nearest_err (N D : Nat) (hD : 0 < D) :
    |((Double.nearest N D).1 : ℚ) * 2 ^ (Double.nearest N D).2 - (N : ℚ) / D| ≤
      2 ^ (Double.nearest N D).2 / 2 := by
  obtain ⟨hv, hlo, _⟩ := nearest_value N D
  rw [hv]
  refine le_trans (roundAt_err N D _ hD) ?_
  have : (2 : ℚ) ^ Double.exponentOf N D ≤ 2 ^ (Double.nearest N D).2 :=
    zpow_le_zpow_right₀ (by norm_num) hlo
  linarith

theorem nearest_bound (N D : Nat) (k : Int) (hD : 0 < D) (hk : 1 ≤ k)
    (hq : (N : ℚ) / D < 2 ^ k) :
    |((Double.nearest N D).1 : ℚ) * 2 ^ (Double.nearest N D).2 - (N : ℚ) / D| ≤
      2 ^ (k - 54) ∧
    (Double.nearest N D).2 ≤ k - 52 := by
  obtain ⟨hv, _, hhi⟩ := nearest_value N D
  have he := exponentOf_le N D k hD hk hq
  refine ⟨?_, by omega⟩
  rw [hv]
  refine le_trans (roundAt_err N D _ hD) ?_
  have h1 : (2 : ℚ) ^ Double.exponentOf N D ≤ 2 ^ (k - 53) :=
    zpow_le_zpow_right₀ (by norm_num) he
  have h2 : (2 : ℚ) ^ (k - 53) = 2 ^ (k - 54) * 2 := by
    rw [← zpow_add_one₀ (by norm_num)]
    congr 1
    omega
  linarith

theorem decimal_fraction (d : Nat) (e : Int) :
    ((d * 10 ^ e.toNat : ℕ) : ℚ) / ((10 ^ (-e).toNat : ℕ) : ℚ) = (d : ℚ) * 10 ^ e := by
  push_cast
  rw [← zpow_split 10 e]
  ring

theorem ofDecimal_err (d : Nat) (e : Int) :
    |((Double.ofDecimal d e).1 : ℚ) * 2 ^ (Double.ofDecimal d e).2 - (d : ℚ) * 10 ^ e| ≤
      2 ^ (Double.ofDecimal d e).2 / 2 := by
  have h := nearest_err (d * 10 ^ e.toNat) (10 ^ (-e).toNat) (pow_pos (by norm_num) _)
  rw [decimal_fraction] at h
  exact h

theorem withDigits_ok (m : Nat) (e : Int) (k : Nat) (de : Nat × Int)
    (h : Double.withDigits m e k = some de) : Double.ofDecimal de.1 de.2 = (m, e) := by
  unfold Double.withDigits at h
  simp only at h
  split_ifs at h with h1 h2 h3 h4
  · simp only [Bool.and_eq_true, decide_eq_true_eq] at h1
    cases h; exact h1.2
  · simp only [Bool.and_eq_true, decide_eq_true_eq] at h1
    cases h; exact h1.1
  · simp only [decide_eq_true_eq] at h3
    cases h; exact h3
  · simp only [decide_eq_true_eq] at h4
    cases h; exact h4

theorem exactDecimal_value (m : Nat) (e : Int) :
    ((Double.exactDecimal m e).1 : ℚ) * 10 ^ (Double.exactDecimal m e).2 = (m : ℚ) * 2 ^ e := by
  unfold Double.exactDecimal
  split_ifs with h
  · have : ((e.toNat : Int)) = e := Int.toNat_of_nonneg h
    simp only [zpow_zero, mul_one]
    push_cast
    rw [← zpow_natCast, this]
  · have h2 : (((-e).toNat : Int)) = -e := Int.toNat_of_nonneg (by omega)
    simp only
    push_cast
    have h10 : (10 : ℚ) ^ e = 2 ^ e * 5 ^ e := by
      rw [← mul_zpow]; norm_num
    have h5 : (5 : ℚ) ^ (-e).toNat * 5 ^ e = 1 := by
      rw [← zpow_natCast, h2, ← zpow_add₀ (by norm_num)]
      simp
    rw [h10]
    calc (m : ℚ) * 5 ^ (-e).toNat * (2 ^ e * 5 ^ e)
        = (m : ℚ) * 2 ^ e * (5 ^ (-e).toNat * 5 ^ e) := by ring
      _ = (m : ℚ) * 2 ^ e := by rw [h5, mul_one]

theorem shortest_err (m : Nat) (e : Int) :
    |((Double.shortest m e).1 : ℚ) * 10 ^ (Double.shortest m e).2 - (m : ℚ) * 2 ^ e| ≤
      2 ^ e / 2 := by
  have hpos : (0 : ℚ) ≤ 2 ^ e / 2 := by positivity
  unfold Double.shortest
  split_ifs with h0
  · subst h0; simpa using hpos
  · split
    · rename_i de hde
      obtain ⟨i, _, hi⟩ := List.exists_of_findSome?_eq_some hde
      have hok := withDigits_ok m e (i + 1) de hi
      have herr := ofDecimal_err de.1 de.2
      rw [hok] at herr
      simp only at herr
      rw [abs_sub_comm] at herr
      split_ifs with hz
      · have hdiv : de.1 = 10 * (de.1 / 10) := by omega
        have : ((de.1 / 10 : ℕ) : ℚ) * 10 ^ (de.2 + 1) = (de.1 : ℚ) * 10 ^ de.2 := by
          rw [zpow_add_one₀ (by norm_num)]
          conv_rhs => rw [hdiv]
          push_cast
          ring
        simp only
        rw [this]
        exact herr
      · exact herr
    · rw [exactDecimal_value]
      simpa using hpos

theorem ofDecimal_bound (d : Nat) (e k : Int) (hk : 1 ≤ k) (hq : (d : ℚ) * 10 ^ e < 2 ^ k) :
    |((Double.ofDecimal d e).1 : ℚ) * 2 ^ (Double.ofDecimal d e).2 - (d : ℚ) * 10 ^ e| ≤
      2 ^ (k - 54) ∧
    (Double.ofDecimal d e).2 ≤ k - 52 := by
  have h := nearest_bound (d * 10 ^ e.toNat) (10 ^ (-e).toNat) k (pow_pos (by norm_num) _) hk
    (by rw [decimal_fraction]; exact hq)
  rw [decimal_fraction] at h
  exact h

theorem ofFraction_spec (neg : Bool) (N D : Nat) (k : Int) (hD : 0 < D) (hk : 1 ≤ k)
    (hk2 : k ≤ 1023) (hq : (N : ℚ) / D < 2 ^ k) :
    ∃ dg e10, JSNum.ofFraction neg N D = .fin neg dg e10 ∧
      |(dg : ℚ) * 10 ^ e10 - (N : ℚ) / D| ≤ 3 * 2 ^ (k - 54) := by
  obtain ⟨herr, he⟩ := nearest_bound N D k hD hk hq
  have hs := shortest_err (Double.nearest N D).1 (Double.nearest N D).2
  refine ⟨(Double.shortest (Double.nearest N D).1 (Double.nearest N D).2).1,
    (Double.shortest (Double.nearest N D).1 (Double.nearest N D).2).2, ?_, ?_⟩
  · unfold JSNum.ofFraction
    have : ¬ (971 < (Double.nearest N D).2) := by omega
    simp only [this, if_false]
  · have h1 : (2 : ℚ) ^ (Double.nearest N D).2 ≤ 2 ^ (k - 52) :=
      zpow_le_zpow_right₀ (by norm_num) he
    have h2 : (2 : ℚ) ^ (k - 52) = 2 ^ (k - 54) * 4 := by
      have : k - 52 = (k - 54) + 2 := by omega
      rw [this, zpow_add₀ (by norm_num)]
      norm_num
    have h3 := abs_sub_le ((Double.shortest (Double.nearest N D).1 (Double.nearest N D).2).1 *
        (10 : ℚ) ^ (Double.shortest (Double.nearest N D).1 (Double.nearest N D).2).2)
      (((Double.nearest N D).1 : ℚ) * 2 ^ (Double.nearest N D).2) ((N : ℚ) / D)
    linarith

theorem prod_frac (m1 m2 : Nat) (e1 e2 : Int) :
    ((m1 * m2 * 2 ^ (e1 + e2).toNat : ℕ) : ℚ) / ((2 ^ (-(e1 + e2)).toNat : ℕ) : ℚ) =
      ((m1 : ℚ) * 2 ^ e1) * ((m2 : ℚ) * 2 ^ e2) := by
  push_cast
  rw [mul_div_assoc, zpow_split 2, zpow_add₀ (by norm_num)]
  ring

theorem quot_frac (m1 m2 : Nat) (e1 e2 : Int) (h : 0 < m2) :
    ((m1 * 2 ^ (e1 - e2).toNat : ℕ) : ℚ) / ((m2 * 2 ^ (e2 - e1).toNat : ℕ) : ℚ) =
      ((m1 : ℚ) * 2 ^ e1) / ((m2 : ℚ) * 2 ^ e2) := by
  have hswap : (e2 - e1).toNat = (-(e1 - e2)).toNat := by
    congr 1; omega
  have hm : (m2 : ℚ) ≠ 0 := by
    have : (0 : ℚ) < m2 := by exact_mod_cast h
    exact ne_of_gt this
  rw [hswap]
  push_cast
  rw [mul_div_mul_comm, zpow_split 2, zpow_sub₀ (by norm_num), mul_div_mul_comm]

theorem times_spec (a b : Bool) (d d2 : Nat) (e e2 k1 k2 k : Int)
    (hk1 : 1 ≤ k1) (hk1' : k1 ≤ 1023) (hk2 : 1 ≤ k2) (hk2' : k2 ≤ 1023)
    (hk : 1 ≤ k) (hk' : k ≤ 1023)
    (h1 : (d : ℚ) * 10 ^ e < 2 ^ k1) (h2 : (d2 : ℚ) * 10 ^ e2 < 2 ^ k2)
    (hprod : Double.value d e * Double.value d2 e2 < 2 ^ k) :
    ∃ dp ep, (JSNum.fin a d e).times (.fin b d2 e2) = .fin (a != b) dp ep ∧
      |(dp : ℚ) * 10 ^ ep - Double.value d e * Double.value d2 e2| ≤ 3 * 2 ^ (k - 54) := by
  have hx := (ofDecimal_bound d e k1 hk1 h1).2
  have hy := (ofDecimal_bound d2 e2 k2 hk2 h2).2
  have n1 : ¬ (971 < (Double.ofDecimal d e).2) := by omega
  have n2 : ¬ (971 < (Double.ofDecimal d2 e2).2) := by omega
  unfold Double.value at hprod ⊢
  simp only [JSNum.times, JSNum.ranged, n1, n2, if_false]
  generalize Double.ofDecimal d e = x at hx hprod ⊢
  generalize Double.ofDecimal d2 e2 = y at hy hprod ⊢
  have hspec := ofFraction_spec (a != b) (x.1 * y.1 * 2 ^ (x.2 + y.2).toNat)
    (2 ^ (-(x.2 + y.2)).toNat) k (pow_pos (by norm_num) _) hk hk'
    (by rw [prod_frac]; exact hprod)
  rw [prod_frac] at hspec
  exact hspec

theorem over_spec (a b : Bool) (d d2 : Nat) (e e2 k1 k2 k : Int)
    (hk1 : 1 ≤ k1) (hk1' : k1 ≤ 1023) (hk2 : 1 ≤ k2) (hk2' : k2 ≤ 1023)
    (hk : 1 ≤ k) (hk' : k ≤ 1023)
    (h1 : (d : ℚ) * 10 ^ e < 2 ^ k1) (h2 : (d2 : ℚ) * 10 ^ e2 < 2 ^ k2)
    (hy0 : 0 < (Double.ofDecimal d2 e2).1)
    (hquot : Double.value d e / Double.value d2 e2 < 2 ^ k) :
    ∃ dr er, (JSNum.fin a d e).over (.fin b d2 e2) = .fin (a != b) dr er ∧
      |(dr : ℚ) * 10 ^ er - Double.value d e / Double.value d2 e2| ≤ 3 * 2 ^ (k - 54) := by
  have hx := (ofDecimal_bound d e k1 hk1 h1).2
  have hy := (ofDecimal_bound d2 e2 k2 hk2 h2).2
  have n1 : ¬ (971 < (Double.ofDecimal d e).2) := by omega
  have n2 : ¬ (971 < (Double.ofDecimal d2 e2).2) := by omega
  have n3 : (Double.ofDecimal d2 e2).1 ≠ 0 := by omega
  unfold Double.value at hquot ⊢
  simp only [JSNum.over, JSNum.ranged, n1, n2, n3, if_false]
  generalize Double.ofDecimal d e = x at hx hquot ⊢
  generalize Double.ofDecimal d2 e2 = y at hy hy0 hquot ⊢
  have hspec := ofFraction_spec (a != b) (x.1 * 2 ^ (x.2 - y.2).toNat)
    (y.1 * 2 ^ (y.2 - x.2).toNat) k
    (Nat.mul_pos hy0 (pow_pos (by norm_num) _)) hk hk'
    (by rw [quot_frac _ _ _ _ hy0]; exact hquot)
  rw [quot_frac _ _ _ _ hy0] at hspec
  exact hspec

theorem ofDecimal_25_4 : Double.ofDecimal 254 (-1) = (7149464408450662, -48) := by decide

theorem value_25_4 : Double.value 254 (-1) = 3574732204225331 / 140737488355328 := by
  unfold Double.value
  rw [ofDecimal_25_4]
  norm_num

theorem value_nonneg (d : Nat) (e : Int) : 0 ≤ Double.value d e := by
  unfold Double.value
  positivity

theorem round_trip_near (s : Bool) (d : Nat) (e : Int)
    (hx : (d : ℚ) * 10 ^ e ≤ 10 ^ 12) :
    ∃ dp ep dr er,
      (JSNum.fin s d e).times (.fin false 254 (-1)) = .fin s dp ep ∧
      (JSNum.fin s dp ep).over (.fin false 254 (-1)) = .fin s dr er ∧
      JSNum.near (1 / 1000) (.fin s dr er) (.fin s d e) = true := by
  have hx0 : (0 : ℚ) ≤ (d : ℚ) * 10 ^ e := by positivity
  have hc254 : (254 : ℚ) * 10 ^ (-1 : Int) < 2 ^ (5 : Int) := by norm_num
  -- the double of v
  obtain ⟨hX, heX⟩ := ofDecimal_bound d e 40 (by norm_num) (by norm_num; linarith)
  have hX' : |Double.value d e - (d : ℚ) * 10 ^ e| ≤ 2 ^ (-14 : Int) := by
    unfold Double.value; simpa using hX
  rw [abs_le] at hX'
  have hXn := value_nonneg d e
  -- the product
  obtain ⟨dp, ep, htimes, hP⟩ := times_spec s false d 254 e (-1) 40 5 45 (by norm_num)
    (by norm_num) (by norm_num) (by norm_num) (by norm_num) (by norm_num)
    (by norm_num; linarith) hc254
    (by rw [value_25_4]; norm_num at hX' ⊢; linarith)
  rw [value_25_4] at hP
  norm_num at hP
  rw [abs_le] at hP
  -- the double of the product
  have hPn : (0 : ℚ) ≤ (dp : ℚ) * 10 ^ ep := by positivity
  obtain ⟨hB, heB⟩ := ofDecimal_bound dp ep 45 (by norm_num)
    (by norm_num at hX' ⊢; linarith)
  have hB' : |Double.value dp ep - (dp : ℚ) * 10 ^ ep| ≤ 2 ^ (-9 : Int) := by
    unfold Double.value; simpa using hB
  rw [abs_le] at hB'
  -- the quotient
  obtain ⟨dr, er, hover, hR⟩ := over_spec s false dp 254 ep (-1) 45 5 40 (by norm_num)
    (by norm_num) (by norm_num) (by norm_num) (by norm_num) (by norm_num)
    (by norm_num at hX' ⊢; linarith) hc254
    (by rw [ofDecimal_25_4]; norm_num)
    (by rw [value_25_4]; norm_num at hX' hB' ⊢; linarith)
  rw [value_25_4] at hR
  norm_num at hR
  rw [abs_le] at hR
  -- the double of the quotient
  obtain ⟨hR2, heR⟩ := ofDecimal_bound dr er 40 (by norm_num)
    (by norm_num at hX' hB' ⊢; linarith)
  have hR2' : |Double.value dr er - (dr : ℚ) * 10 ^ er| ≤ 2 ^ (-14 : Int) := by
    unfold Double.value; simpa using hR2
  rw [abs_le] at hR2'
  refine ⟨dp, ep, dr, er, by simpa using htimes, by simpa using hover, ?_⟩
  have n1 : ¬ (971 < (Double.ofDecimal dr er).2) := by omega
  have n2 : ¬ (971 < (Double.ofDecimal d e).2) := by omega
  simp only [JSNum.near, JSNum.exact, n1, n2, if_false, decide_eq_true_eq]
  have hval : (if s = true then (-1 : ℚ) else 1) * ((Double.ofDecimal dr er).1 : ℚ) *
        2 ^ (Double.ofDecimal dr er).2 -
      (if s = true then (-1 : ℚ) else 1) * ((Double.ofDecimal d e).1 : ℚ) *
        2 ^ (Double.ofDecimal d e).2 =
      (if s = true then (-1 : ℚ) else 1) * (Double.value dr er - Double.value d e) := by
    unfold Double.value; ring
  rw [hval, abs_mul]
  have hs : |(if s = true then (-1 : ℚ) else 1)| = 1 := by cases s <;> simp
  rw [hs, one_mul, abs_le]
  norm_num at hX' hB' hR2' ⊢
  constructor <;> linarith

theorem magnitude_le (bound d : Nat) (e : Int)
    (h : d * 10 ^ e.toNat ≤ bound * 10 ^ (-e).toNat) : (d : ℚ) * 10 ^ e ≤ bound := by
  have hpos : (0 : ℚ) < 10 ^ (-e).toNat := pow_pos (by norm_num) _
  have hq : (d : ℚ) * 10 ^ e.toNat ≤ (bound : ℚ) * 10 ^ (-e).toNat := by exact_mod_cast h
  rw [← zpow_split 10 e, ← mul_div_assoc, div_le_iff₀ hpos]
  exact hq

theorem near_self (tol : ℚ) (htol : 0 ≤ tol) (s : Bool) (d : Nat) (e : Int)
    (hx : (d : ℚ) * 10 ^ e ≤ 10 ^ 12) :
    JSNum.near tol (.fin s d e) (.fin s d e) = true := by
  have he := (ofDecimal_bound d e 40 (by norm_num) (by norm_num; linarith)).2
  have n : ¬ (971 < (Double.ofDecimal d e).2) := by omega
  simp only [JSNum.near, JSNum.exact, n, if_false, sub_self, abs_zero, decide_eq_true_eq]
  exact htol

/-! ### Lemmas on the initial state and on the events -/

theorem fixedThree_eq (v : JSVal) (n : JSNum)
    (h : (v.or (.num (.ofNat 0))).toNumber = .ok n) :
    fixedThree v = .ok (.num (roundedThree n)) := by
  unfold fixedThree
  rw [h]
  rfl

theorem getInitialState_eq (env : Env) (controller : Controller) (config : Config)
    (d f h r : JSVal)
    (hd : fixedThree (config.get "probeDepth" .undefined) = .ok d)
    (hf : fixedThree (config.get "probeFeedrate" .undefined) = .ok f)
    (hh : fixedThree (config.get "touchPlateHeight" .undefined) = .ok h)
    (hr : fixedThree (config.get "retractionDistance" .undefined) = .ok r) :
    getInitialState env controller config = .ok
      { minimized := config.get "minimized" (.bool false)
        isFullscreen := .bool false
        canClick := .bool true
        port := controller.port
        units := env.METRIC_UNITS.val
        controllerType := controller.type
        controllerState := controller.state
        workflowState := controller.workflowState
        modalName := env.MODAL_NONE.val
        modalParams := .obj []
        probeAxis := config.get "probeAxis" (.str "Z")
        probeCommand := config.get "probeCommand" (.str "G38.2")
        useTLO := config.get "useTLO" .undefined
        probeDepth := d
        probeFeedrate := f
        touchPlateHeight := h
        retractionDistance := r } := by
  simp only [getInitialState, hd, hf, hh, hr, bind, Except.bind, pure, Except.pure]

theorem getInitialState_port (env : Env) (controller : Controller) (config : Config)
    (st : ProbeState) (hi : getInitialState env controller config = .ok st) :
    st.port = controller.port := by
  cases hd : fixedThree (config.get "probeDepth" .undefined) with
  | error e => simp [getInitialState, hd, bind, Except.bind] at hi
  | ok d =>
    cases hf : fixedThree (config.get "probeFeedrate" .undefined) with
    | error e => simp [getInitialState, hd, hf, bind, Except.bind] at hi
    | ok f =>
      cases hh : fixedThree (config.get "touchPlateHeight" .undefined) with
      | error e => simp [getInitialState, hd, hf, hh, bind, Except.bind] at hi
      | ok h =>
        cases hr : fixedThree (config.get "retractionDistance" .undefined) with
        | error e => simp [getInitialState, hd, hf, hh, hr, bind, Except.bind] at hi
        | ok r =>
          rw [getInitialState_eq env controller config d f h r hd hf hh hr] at hi
          rw [← Except.ok.inj hi]

theorem closeHandler_eq (env : Env) (controller : Controller) (w : Widget) (d f h r : JSNum)
    (hd : ((w.config.get "probeDepth" .undefined).or (.num (.ofNat 0))).toNumber = .ok d)
    (hf : ((w.config.get "probeFeedrate" .undefined).or (.num (.ofNat 0))).toNumber = .ok f)
    (hh : ((w.config.get "touchPlateHeight" .undefined).or (.num (.ofNat 0))).toNumber = .ok h)
    (hr : ((w.config.get "retractionDistance" .undefined).or (.num (.ofNat 0))).toNumber
      = .ok r) :
    serialportCloseHandler env controller w =
      ({ w with state :=
          { minimized := w.config.get "minimized" (.bool false)
            isFullscreen := .bool false
            canClick := .bool true
            port := controller.port
            units := env.METRIC_UNITS.val
            controllerType := controller.type
            controllerState := controller.state
            workflowState := controller.workflowState
            modalName := env.MODAL_NONE.val
            modalParams := .obj []
            probeAxis := w.config.get "probeAxis" (.str "Z")
            probeCommand := w.config.get "probeCommand" (.str "G38.2")
            useTLO := w.config.get "useTLO" .undefined
            probeDepth := .num (roundedThree d)
            probeFeedrate := .num (roundedThree f)
            touchPlateHeight := .num (roundedThree h)
            retractionDistance := .num (roundedThree r) } }, none) := by
  unfold serialportCloseHandler
  rw [getInitialState_eq env controller w.config _ _ _ _ (fixedThree_eq _ d hd)
    (fixedThree_eq _ f hf) (fixedThree_eq _ h hh) (fixedThree_eq _ r hr)]

theorem componentDidUpdate_writes (env : Env) (w : Widget) (d f h r : Prim)
    (hflag : w.unitsDidChange = false)
    (hd : w.state.probeDepth = d.val) (hf : w.state.probeFeedrate = f.val)
    (hh : w.state.touchPlateHeight = h.val) (hr : w.state.retractionDistance = r.val)
    (hin : ∀ p : Prim, env.in2mm p.val = .ok (p.toNumber.mul (.fin false 254 (-1)))) :
    (componentDidUpdate env w).error = none ∧
    (componentDidUpdate env w).writes =
      [("minimized", w.state.minimized), ("probeCommand", w.state.probeCommand),
       ("useTLO", w.state.useTLO),
       ("probeDepth", .num (if w.state.units.strictEq env.IMPERIAL_UNITS.val
          then d.toNumber.mul (.fin false 254 (-1)) else d.toNumber)),
       ("probeFeedrate", .num (if w.state.units.strictEq env.IMPERIAL_UNITS.val
          then f.toNumber.mul (.fin false 254 (-1)) else f.toNumber)),
       ("touchPlateHeight", .num (if w.state.units.strictEq env.IMPERIAL_UNITS.val
          then h.toNumber.mul (.fin false 254 (-1)) else h.toNumber)),
       ("retractionDistance", .num (if w.state.units.strictEq env.IMPERIAL_UNITS.val
          then r.toNumber.mul (.fin false 254 (-1)) else r.toNumber))] := by
  cases hu : w.state.units.strictEq env.IMPERIAL_UNITS.val
  · have hv : valuesToSave env w.state = .ok (d.val, f.val, h.val, r.val) := by
      simp only [valuesToSave, hu, Bool.false_eq_true, if_false, pure, Except.pure, hd, hf, hh,
        hr]
    simp only [componentDidUpdate, hflag, Bool.false_eq_true, if_false, hv, List.cons_append,
      List.nil_append]
    exact ⟨(setNumbers_four _ _ _ _ _ _ d f h r).1, (setNumbers_four _ _ _ _ _ _ d f h r).2.1⟩
  · have hv : valuesToSave env w.state =
        .ok (.num (d.toNumber.mul (.fin false 254 (-1))),
          .num (f.toNumber.mul (.fin false 254 (-1))),
          .num (h.toNumber.mul (.fin false 254 (-1))),
          .num (r.toNumber.mul (.fin false 254 (-1)))) := by
      simp only [valuesToSave, hu, if_true, hd, hf, hh, hr, hin, bind, Except.bind, pure,
        Except.pure]
    simp only [componentDidUpdate, hflag, Bool.false_eq_true, if_false, hv, List.cons_append,
      List.nil_append]
    exact ⟨(setNumbers_four _ _ _ _ _ _ (.num (d.toNumber.mul (.fin false 254 (-1))))
        (.num (f.toNumber.mul (.fin false 254 (-1))))
        (.num (h.toNumber.mul (.fin false 254 (-1))))
        (.num (r.toNumber.mul (.fin false 254 (-1))))).1,
      (setNumbers_four _ _ _ _ _ _ (.num (d.toNumber.mul (.fin false 254 (-1))))
        (.num (f.toNumber.mul (.fin false 254 (-1))))
        (.num (h.toNumber.mul (.fin false 254 (-1))))
        (.num (r.toNumber.mul (.fin false 254 (-1))))).2.1⟩

theorem nonneg_times (n : JSNum) (c : Bool) (hn : n.nonneg = true) :
    (if c = true then n.mul (.fin false 254 (-1)) else n).nonneg = true := by
  cases c
  · simpa using hn
  · cases n with
    | nan => simp [JSNum.nonneg] at hn
    | inf b => simpa [JSNum.mul, JSNum.nonneg] using hn
    | fin b d e =>
      simp only [JSNum.nonneg, Bool.or_eq_true, Bool.not_eq_true', beq_iff_eq] at hn
      rcases hn with hb | hd
      · simp [JSNum.mul, JSNum.nonneg, hb]
      · simp [JSNum.mul, JSNum.nonneg, hd]

theorem unitsBlock_false (env : Env) (record : JSVal) (r : GCodeState × Option JSError) :
    GCodeWidget.unitsBlock env false record r = r := by
  unfold GCodeWidget.unitsBlock
  split <;> simp

theorem strictEq_str (v : JSVal) (k : String) :
    v.strictEq (.str k) = true ↔ v = .str k := by
  cases v <;> simp [JSVal.strictEq]

theorem one_block (env : Env) (w : Widget) (gs : GCodeState) (type state record : JSVal)
    (hprev : gs.units = w.state.units)
    (hconv : ∀ units, ∃ values, persistedInUnits env w.config units = .ok values)
    (hp : controllerStateUnits env w.state.units type state = modalUnits env record w.state.units)
    (hg : GCodeWidget.controllerStateHandler env gs type state =
      GCodeWidget.unitsBlock env true record (gs, none)) :
    (GCodeWidget.controllerStateHandler env gs type state).2 =
        (controllerStateHandler env w type state).2 ∧
    ((GCodeWidget.controllerStateHandler env gs type state).1.units =
        (controllerStateHandler env w type state).1.state.units ∨
      (GCodeWidget.controllerStateHandler env gs type state).1.units.strictEq
        (controllerStateHandler env w type state).1.state.units = true) := by
  rw [hg]
  unfold controllerStateHandler GCodeWidget.unitsBlock
  rw [hp]
  simp only [hprev]
  cases hm : modalUnits env record w.state.units with
  | error e => simp [hprev]
  | ok u =>
    obtain ⟨values, hv⟩ := hconv u
    simp only [hv]
    cases hs : w.state.units.strictEq u <;> simp [hs, hprev]

theorem no_block (env : Env) (w : Widget) (gs : GCodeState) (type state : JSVal)
    (hprev : gs.units = w.state.units)
    (hconv : ∀ units, ∃ values, persistedInUnits env w.config units = .ok values)
    (h1 : type.strictEq env.GRBL.val = false) (h2 : type.strictEq env.MARLIN.val = false)
    (h3 : type.strictEq env.SMOOTHIE.val = false) (h4 : type.strictEq env.TINYG.val = false) :
    (GCodeWidget.controllerStateHandler env gs type state).2 =
        (controllerStateHandler env w type state).2 ∧
    ((GCodeWidget.controllerStateHandler env gs type state).1.units =
        (controllerStateHandler env w type state).1.state.units ∨
      (GCodeWidget.controllerStateHandler env gs type state).1.units.strictEq
        (controllerStateHandler env w type state).1.state.units = true) := by
  obtain ⟨values, hv⟩ := hconv w.state.units
  have hp : controllerStateUnits env w.state.units type state = .ok w.state.units := by
    simp [controllerStateUnits, h1, h2, h3, h4, bind, Except.bind, pure, Except.pure]
  simp [GCodeWidget.controllerStateHandler, controllerStateHandler, h1, h2, h3, h4,
    unitsBlock_false, hp, hv, hprev]

theorem member_total (v : JSVal) :
    (∀ k, v.member k = .error .typeError) ∨ (∀ k, v.member k = .ok (v.prop k)) := by
  cases v <;> simp [JSVal.member]

theorem bboxOfMessage_consistent (bbox : JSVal) (b : Bbox)
    (h : GCodeWidget.bboxOfMessage bbox = .ok b) : b.consistent := by
  unfold GCodeWidget.bboxOfMessage at h
  simp only [bind, Except.bind, pure, Except.pure] at h
  rcases member_total bbox with hb | hb
  · simp [hb] at h
  · simp only [hb] at h
    rcases member_total (bbox.prop "max") with hmax | hmax
    · simp [hmax] at h
    · simp only [hmax] at h
      rcases member_total (bbox.prop "min") with hmin | hmin
      · simp [hmin] at h
      · simp only [hmin] at h
        cases hx : JSVal.sub ((bbox.prop "max").prop "x") ((bbox.prop "min").prop "x") with
        | error e => simp [hx] at h
        | ok dX =>
          cases hy : JSVal.sub ((bbox.prop "max").prop "y") ((bbox.prop "min").prop "y") with
          | error e => simp [hx, hy] at h
          | ok dY =>
            cases hz : JSVal.sub ((bbox.prop "max").prop "z") ((bbox.prop "min").prop "z") with
            | error e => simp [hx, hy, hz] at h
            | ok dZ =>
              simp only [hx, hy, hz, Except.ok.injEq] at h
              subst h
              exact ⟨hx, hy, hz⟩

theorem zeroBbox_consistent : GCodeWidget.zeroBbox.consistent := ⟨rfl, rfl, rfl⟩

theorem unitsBlock_bbox (env : Env) (guard : Bool) (record : JSVal)
    (r : GCodeState × Option JSError) :
    (GCodeWidget.unitsBlock env guard record r).1.bbox = r.1.bbox := by
  unfold GCodeWidget.unitsBlock
  split
  · rfl
  · split
    · split
      · rfl
      · split <;> rfl
    · rfl

theorem step_consistent (env : Env) (g : GCodeState) (ev : GCodeEvent)
    (h : g.bbox.consistent) : (GCodeWidget.step env g ev).bbox.consistent := by
  cases ev with
  | bbox message =>
    simp only [GCodeWidget.step, GCodeWidget.bboxSubscriber]
    cases hb : GCodeWidget.bboxOfMessage message with
    | error e => exact h
    | ok b => exact bboxOfMessage_consistent message b hb
  | unload => exact zeroBbox_consistent
  | portClose controller config => exact zeroBbox_consistent
  | portOpen options =>
    simp only [GCodeWidget.step, GCodeWidget.serialportOpenHandler]
    split <;> exact h
  | senderStatus data =>
    simp only [GCodeWidget.step, GCodeWidget.senderStatusHandler]
    split <;> exact h
  | controllerState type state =>
    simp only [GCodeWidget.step, GCodeWidget.controllerStateHandler, unitsBlock_bbox]
    exact h
  | toggleFullscreen => exact h
  | toggleMinimized => exact h

theorem add_nat (a b : Nat) (h : 0 < b) :
    (JSNum.fin false a 0).add (.fin false b 0) = .fin false (a + b) 0 := by
  have h1 : ((a : Int) + (b : Int)) ≠ 0 := by omega
  have h2 : ¬ ((a : Int) + (b : Int) < 0) := by omega
  simp [JSNum.add, h1, h2]
  omega

theorem add_neg_one (a : Nat) (h : 1 < a) :
    (JSNum.fin false a 0).add (.fin true 1 0) = .fin false (a - 1) 0 := by
  have h1 : ((a : Int) + -1) ≠ 0 := by omega
  have h2 : ¬ ((a : Int) + -1 < 0) := by omega
  simp [JSNum.add, h1, h2]
  omega

theorem rem_nat (a b : Nat) (ha : 0 < a) (hb : 0 < b) :
    (JSNum.fin false a 0).rem (.fin false b 0) = .fin false (a % b) 0 := by
  have h1 : a ≠ 0 := by omega
  have h2 : b ≠ 0 := by omega
  simp [JSNum.rem, h1, h2]

theorem number_or_zero (s : Bool) (d : Nat) :
    ((JSVal.num (.fin s d 0)).or (.num (.ofNat 0))).toNumber =
      .ok (if d = 0 then .fin false 0 0 else .fin s d 0) := by
  by_cases h : d = 0
  · subst h; rfl
  · simp [JSVal.or, JSVal.truthy, JSNum.isFalsy, h, JSVal.toNumber, JSVal.toPrimitive, Prim.toNumber]
    rfl

theorem nextRotation_int (s : Bool) (d : Nat) (neg : Bool) :
    WebcamWidget.nextRotation (.num (.fin s d 0)) (.fin neg 1 0) =
      .ok (.fin false ((if neg then d + 3 else d + 5) % 4) 0) := by
  unfold WebcamWidget.nextRotation
  rw [number_or_zero]
  have habs : (if d = 0 then JSNum.fin false 0 0 else JSNum.fin s d 0).abs = .fin false d 0 := by
    by_cases h : d = 0
    · subst h; rfl
    · simp [h, JSNum.abs]
  simp only [bind, Except.bind, pure, Except.pure, habs, JSNum.ofNat]
  rw [add_nat d 4 (by omega)]
  cases neg
  · rw [add_nat (d + 4) 1 (by omega), rem_nat _ _ (by omega) (by omega)]; rfl
  · rw [add_neg_one (d + 4) (by omega), rem_nat _ _ (by omega) (by omega)]; rfl

theorem nextRotation_undefined (neg : Bool) :
    WebcamWidget.nextRotation .undefined (.fin neg 1 0) =
      .ok (.fin false ((if neg then 3 else 5) % 4) 0) := by
  cases neg <;> rfl

theorem isQuarterTurn_mod (n : Nat) : isQuarterTurn (.num (.fin false (n % 4) 0)) = true := by
  have h : n % 4 < 4 := Nat.mod_lt _ (by omega)
  generalize n % 4 = k at h
  interval_cases k <;> rfl

theorem step_cases (b : Bool) :
    (if b = true then (JSNum.ofNat 1).neg else JSNum.ofNat 1) = .fin b 1 0 ∧
    (if b = true then JSNum.ofNat 1 else (JSNum.ofNat 1).neg) = .fin (!b) 1 0 := by
  cases b <;> exact ⟨rfl, rfl⟩

theorem rotateLeft_int (st : WebcamState) (s : Bool) (d : Nat)
    (hrot : st.rotation = .num (.fin s d 0)) :
    WebcamWidget.rotateLeft st =
      ({ st with rotation := .num (.fin false
          ((if (WebcamWidget.flipsAgree st).truthy then d + 3 else d + 5) % 4) 0) }, none) := by
  unfold WebcamWidget.rotateLeft
  simp only [(step_cases _).1, hrot, nextRotation_int]

theorem rotateRight_int (st : WebcamState) (s : Bool) (d : Nat)
    (hrot : st.rotation = .num (.fin s d 0)) :
    WebcamWidget.rotateRight st =
      ({ st with rotation := .num (.fin false
          ((if (WebcamWidget.flipsAgree st).truthy then d + 5 else d + 3) % 4) 0) }, none) := by
  unfold WebcamWidget.rotateRight
  simp only [(step_cases _).2, hrot, nextRotation_int]
  cases (WebcamWidget.flipsAgree st).truthy <;> rfl

/-! ## The claims on conversion, connection events and the other widgets -/

/-- C21 (counterexample): the value 100000000000001 in inches is 2540000000000025.5 in
millimetres and comes back as 100000000000001.02, a double that is 1/64 above the value,
which is more than 0.001. -/
theorem C21_counterexample :
    (Units.in2mm (.num (.fin false 100000000000001 0))).bind
      (fun mm => Units.mapValueToUnits (.str "in") (.num mm) (.str "in")) =
      .ok (.fin false 10000000000000102 (-2)) ∧
    JSNum.near (1 / 1000) (.fin false 10000000000000102 (-2))
      (.fin false 100000000000001 0) = false ∧
    JSNum.near (1 / 64) (.fin false 10000000000000102 (-2))
      (.fin false 100000000000001 0) = true := by
  have h1 : Double.ofDecimal 10000000000000102 (-2) = (6400000000000065, -6) := by decide
  have h2 : Double.ofDecimal 100000000000001 0 = (6400000000000064, -6) := by decide
  refine ⟨by rfl, ?_, ?_⟩
  · simp only [JSNum.near, JSNum.exact, h1, h2]
    norm_num [abs_of_pos]
  · simp only [JSNum.near, JSNum.exact, h1, h2]
    norm_num [abs_of_pos]

/-- C21 (amended): a finite value `v` of magnitude at most `10 ^ 12`, converted to
millimetres as `componentDidUpdate` does for the units `u` (`in2mm` for `IMPERIAL_UNITS`, the
value itself otherwise) and back with `mapValueToUnits` for the same units, is a double
within 0.001 of `v`; the two helpers are the multiplication and the division by 25.4 that
the specification states, each rounded to the nearest double. -/
theorem C21_round_trip_bounded (imperial : Prim) (units : JSVal) (v : JSNum)
    (hv : v.magnitudeAtMost (10 ^ 12) = true) :
    ((if units.strictEq imperial.val then Units.in2mm (.num v) else .ok v).bind
      (fun mm => Units.mapValueToUnits imperial (.num mm) units)).map
      (fun back => back.near (1 / 1000) v) = .ok true := by
  cases v with
  | nan => simp [JSNum.magnitudeAtMost] at hv
  | inf b => simp [JSNum.magnitudeAtMost] at hv
  | fin s d e =>
    simp only [JSNum.magnitudeAtMost, decide_eq_true_eq] at hv
    have hx : (d : ℚ) * 10 ^ e ≤ 10 ^ 12 := by
      have := magnitude_le (10 ^ 12) d e hv
      exact_mod_cast this
    cases hu : units.strictEq imperial.val
    · simp only [Bool.false_eq_true, if_false, Except.bind, Units.mapValueToUnits, hu,
        Except.map, JSVal.toNumber, JSVal.toPrimitive, Prim.toNumber]
      congr 1
      exact near_self _ (by norm_num) s d e hx
    · obtain ⟨dp, ep, dr, er, htimes, hover, hnear⟩ := round_trip_near s d e hx
      simp only [if_true, Units.in2mm, Except.bind, Units.mapValueToUnits, hu, Except.map,
        JSVal.toNumber, JSVal.toPrimitive, Prim.toNumber, htimes, hover]
      congr 1

/-- C21 (witness): the values 19.5 and -0.3937 in inches, and 19.5 in millimetres. -/
theorem C21_round_trip_bounded_witness :
    (((if (JSVal.str "in").strictEq (Prim.str "in").val
          then Units.in2mm (.num (.fin false 195 (-1)))
          else .ok (.fin false 195 (-1))).bind
        (fun mm => Units.mapValueToUnits (.str "in") (.num mm) (.str "in"))).map
        (fun back => back.near (1 / 1000) (.fin false 195 (-1))) = .ok true) ∧
    (((if (JSVal.str "in").strictEq (Prim.str "in").val
          then Units.in2mm (.num (.fin true 3937 (-4)))
          else .ok (.fin true 3937 (-4))).bind
        (fun mm => Units.mapValueToUnits (.str "in") (.num mm) (.str "in"))).map
        (fun back => back.near (1 / 1000) (.fin true 3937 (-4))) = .ok true) ∧
    (((if (JSVal.str "mm").strictEq (Prim.str "in").val
          then Units.in2mm (.num (.fin false 195 (-1)))
          else .ok (.fin false 195 (-1))).bind
        (fun mm => Units.mapValueToUnits (.str "in") (.num mm) (.str "mm"))).map
        (fun back => back.near (1 / 1000) (.fin false 195 (-1))) = .ok true) :=
  ⟨C21_round_trip_bounded (.str "in") (.str "in") (.fin false 195 (-1)) (by decide),
   C21_round_trip_bounded (.str "in") (.str "in") (.fin true 3937 (-4)) (by decide),
   C21_round_trip_bounded (.str "in") (.str "mm") (.fin false 195 (-1)) (by decide)⟩

/-- C22: when the `controller` singleton holds no port (a falsy `controller.port`) at the
time of the event and `getInitialState` does not throw, `canClick` returns `false` in the
state that the `'serialport:close'` handler produces, whatever the widget was before. -/
theorem C22_not_ready_after_close (env : Env) (controller : Controller) (w : Widget)
    (hport : controller.port.truthy = false)
    (hok : (serialportCloseHandler env controller w).2 = none) :
    canClick env (serialportCloseHandler env controller w).1.state = false := by
  unfold serialportCloseHandler at hok ⊢
  cases hi : getInitialState env controller w.config with
  | error e => simp [hi] at hok
  | ok st =>
    simp [canClick, getInitialState_port env controller w.config st hi, hport]

/-- C22 (witness): a ready widget with an idle Grbl controller, closed. -/
theorem C22_not_ready_after_close_witness :
    canClick sampleEnv (serialportCloseHandler sampleEnv sampleController
      (sampleWidget (.str "in") (.str "Grbl")
        (.obj [("status", .obj [("machineState", .str "Idle")])]))).1.state = false :=
  C22_not_ready_after_close sampleEnv sampleController _ rfl rfl

/-- C23 (counterexample): a widget whose stored probe depth is 9.99998 has, after a
`'serialport:close'` event and the flush that follows it, the stored depth 10, a different
number; 9.99998 is what `componentDidUpdate` stores for a displayed depth of 0.3937 in. -/
theorem C23_counterexample :
    sampleStored.config.get "probeDepth" .undefined = .num (.fin false 999998 (-5)) ∧
    (componentDidUpdate sampleEnv
      (serialportCloseHandler sampleEnv sampleController sampleStored).1).widget.config.get
        "probeDepth" .undefined = .num (.fin false 10000 (-3)) ∧
    JSNum.strictEq (.fin false 999998 (-5)) (.fin false 10000 (-3)) = false ∧
    (componentDidUpdate sampleEnv sampleInches).widget.config.get "probeDepth" .undefined =
      .num (.fin false 999998 (-5)) :=
  ⟨rfl, rfl, rfl, rfl⟩

/-- C23 (amended): a `'serialport:close'` event followed by the `componentDidUpdate` flush
writes `probeCommand` and `useTLO` back as they are stored (`G38.2` for a `probeCommand`
that is not stored) and writes each of `probeDepth`, `probeFeedrate`, `touchPlateHeight`,
`retractionDistance` as the stored value rounded to three decimal places (`0` for a falsy
one); when `unitsDidChange` is set the flush writes `minimized` only. -/
theorem C23_close_then_flush (env : Env) (controller : Controller) (w : Widget)
    (d f h r : JSNum)
    (hunits : env.METRIC_UNITS.val.strictEq env.IMPERIAL_UNITS.val = false)
    (hd : ((w.config.get "probeDepth" .undefined).or (.num (.ofNat 0))).toNumber = .ok d)
    (hf : ((w.config.get "probeFeedrate" .undefined).or (.num (.ofNat 0))).toNumber = .ok f)
    (hh : ((w.config.get "touchPlateHeight" .undefined).or (.num (.ofNat 0))).toNumber = .ok h)
    (hr : ((w.config.get "retractionDistance" .undefined).or (.num (.ofNat 0))).toNumber
      = .ok r) :
    (serialportCloseHandler env controller w).2 = none ∧
    (componentDidUpdate env (serialportCloseHandler env controller w).1).error = none ∧
    (componentDidUpdate env (serialportCloseHandler env controller w).1).writes =
      if w.unitsDidChange then [("minimized", w.config.get "minimized" (.bool false))]
      else
        [("minimized", w.config.get "minimized" (.bool false)),
         ("probeCommand", w.config.get "probeCommand" (.str "G38.2")),
         ("useTLO", w.config.get "useTLO" .undefined),
         ("probeDepth", .num (roundedThree d)),
         ("probeFeedrate", .num (roundedThree f)),
         ("touchPlateHeight", .num (roundedThree h)),
         ("retractionDistance", .num (roundedThree r))] := by
  rw [closeHandler_eq env controller w d f h r hd hf hh hr]
  refine ⟨rfl, ?_⟩
  cases hflag : w.unitsDidChange
  · simp only [componentDidUpdate, hflag, Bool.false_eq_true, if_false, valuesToSave, hunits,
      pure, Except.pure, List.cons_append, List.nil_append]
    exact ⟨(setNumbers_four _ _ _ _ _ _ (.num (roundedThree d)) (.num (roundedThree f))
        (.num (roundedThree h)) (.num (roundedThree r))).1,
      (setNumbers_four _ _ _ _ _ _ (.num (roundedThree d)) (.num (roundedThree f))
        (.num (roundedThree h)) (.num (roundedThree r))).2.1⟩
  · simp [componentDidUpdate, hflag]

/-- C23 (witness): the stored values 10, 100, 19.5 and 5 are written back with three
decimals, which leaves them equal. -/
theorem C23_close_then_flush_witness :
    (componentDidUpdate sampleEnv (serialportCloseHandler sampleEnv sampleController
      (sampleWidget (.str "in") (.str "Grbl") (.obj []))).1).writes =
      [("minimized", .bool false), ("probeCommand", .str "G38.2"), ("useTLO", .undefined),
       ("probeDepth", .num (.fin false 10000 (-3))),
       ("probeFeedrate", .num (.fin false 100000 (-3))),
       ("touchPlateHeight", .num (.fin false 19500 (-3))),
       ("retractionDistance", .num (.fin false 5000 (-3)))] :=
  (C23_close_then_flush sampleEnv sampleController
    (sampleWidget (.str "in") (.str "Grbl") (.obj []))
    (.ofNat 10) (.ofNat 100) (.fin false 195 (-1)) (.ofNat 5) rfl rfl rfl rfl rfl).2.2

/-- C24 (counterexample): after the edit of the probe depth to the text `-5`, the flush of
`componentDidUpdate` writes the number -5 under `probeDepth`, which is not `>= 0`. -/
theorem C24_counterexample :
    (componentDidUpdate sampleEnv
      (handleProbeDepthChange (sampleWidget (.str "mm") (.str "Grbl") (.obj []))
        (.str "-5"))).writes =
      [("minimized", .bool false), ("probeCommand", .str "G38.2"), ("useTLO", .undefined),
       ("probeDepth", .num (.fin true 5 0)), ("probeFeedrate", .num (.ofNat 100)),
       ("touchPlateHeight", .num (.fin false 195 (-1))),
       ("retractionDistance", .num (.ofNat 5))] ∧
    writtenNonneg (.num (.fin true 5 0)) = false :=
  ⟨rfl, rfl⟩

/-- C24 (amended): `componentDidUpdate` validates nothing and keeps the sign of what is
displayed: when the four displayed values are primitive values whose numbers are `>= 0`, each
value that it writes under `probeDepth`, `probeFeedrate`, `touchPlateHeight` and
`retractionDistance` is a number `>= 0` (with `in2mm` the multiplication by 25.4). -/
theorem C24_sign_kept (env : Env) (w : Widget) (d f h r : Prim)
    (hflag : w.unitsDidChange = false)
    (hd : w.state.probeDepth = d.val) (hf : w.state.probeFeedrate = f.val)
    (hh : w.state.touchPlateHeight = h.val) (hr : w.state.retractionDistance = r.val)
    (hin : ∀ p : Prim, env.in2mm p.val = .ok (p.toNumber.mul (.fin false 254 (-1))))
    (hnd : d.toNumber.nonneg = true) (hnf : f.toNumber.nonneg = true)
    (hnh : h.toNumber.nonneg = true) (hnr : r.toNumber.nonneg = true) :
    (componentDidUpdate env w).error = none ∧
    ∀ kv ∈ (componentDidUpdate env w).writes,
      kv.1 ∈ ["probeDepth", "probeFeedrate", "touchPlateHeight", "retractionDistance"] →
      writtenNonneg kv.2 = true := by
  obtain ⟨he, hw⟩ := componentDidUpdate_writes env w d f h r hflag hd hf hh hr hin
  refine ⟨he, ?_⟩
  rw [hw]
  intro kv hkv hkey
  simp only [List.mem_cons, List.mem_singleton, List.not_mem_nil, or_false] at hkv
  rcases hkv with rfl | rfl | rfl | rfl | rfl | rfl | rfl
  · simp at hkey
  · simp at hkey
  · simp at hkey
  · exact nonneg_times _ _ hnd
  · exact nonneg_times _ _ hnf
  · exact nonneg_times _ _ hnh
  · exact nonneg_times _ _ hnr

/-- C24 (witness): the sample widget in inches, whose displayed values are 10, 100, 19.5
and 5. -/
theorem C24_sign_kept_witness :
    (componentDidUpdate sampleEnv (sampleWidget (.str "in") (.str "Grbl") (.obj []))).error =
      none ∧
    ∀ kv ∈ (componentDidUpdate sampleEnv
        (sampleWidget (.str "in") (.str "Grbl") (.obj []))).writes,
      kv.1 ∈ ["probeDepth", "probeFeedrate", "touchPlateHeight", "retractionDistance"] →
      writtenNonneg kv.2 = true :=
  C24_sign_kept sampleEnv (sampleWidget (.str "in") (.str "Grbl") (.obj []))
    (.num (.ofNat 10)) (.num (.ofNat 100)) (.num (.fin false 195 (-1))) (.num (.ofNat 5))
    rfl rfl rfl rfl rfl (fun p => by cases p <;> rfl) rfl rfl rfl rfl

/-- C25: the `'workflow:state'` handler sets the workflow state to the pushed value and keeps
every other field of the state (port, units, controller type and state, modal, probe
parameters), the flag `unitsDidChange` and the persisted configuration. -/
theorem C25_workflow_only (w : Widget) (workflowState : JSVal) :
    (workflowStateHandler w workflowState).state.workflowState = workflowState ∧
    (workflowStateHandler w workflowState).state.port = w.state.port ∧
    (workflowStateHandler w workflowState).state.units = w.state.units ∧
    (workflowStateHandler w workflowState).state.controllerType = w.state.controllerType ∧
    (workflowStateHandler w workflowState).state.controllerState = w.state.controllerState ∧
    (workflowStateHandler w workflowState).state.modalName = w.state.modalName ∧
    (workflowStateHandler w workflowState).state.modalParams = w.state.modalParams ∧
    (workflowStateHandler w workflowState).state.probeAxis = w.state.probeAxis ∧
    (workflowStateHandler w workflowState).state.probeCommand = w.state.probeCommand ∧
    (workflowStateHandler w workflowState).state.useTLO = w.state.useTLO ∧
    (workflowStateHandler w workflowState).state.probeDepth = w.state.probeDepth ∧
    (workflowStateHandler w workflowState).state.probeFeedrate = w.state.probeFeedrate ∧
    (workflowStateHandler w workflowState).state.touchPlateHeight = w.state.touchPlateHeight ∧
    (workflowStateHandler w workflowState).state.retractionDistance =
      w.state.retractionDistance ∧
    (workflowStateHandler w workflowState).state.minimized = w.state.minimized ∧
    (workflowStateHandler w workflowState).state.isFullscreen = w.state.isFullscreen ∧
    (workflowStateHandler w workflowState).state.canClick = w.state.canClick ∧
    (workflowStateHandler w workflowState).unitsDidChange = w.unitsDidChange ∧
    (workflowStateHandler w workflowState).config = w.config :=
  ⟨rfl, rfl, rfl, rfl, rfl, rfl, rfl, rfl, rfl, rfl, rfl, rfl, rfl, rfl, rfl, rfl, rfl, rfl,
    rfl⟩

/-- C26: with four different firmware tags, and a persisted configuration that
`mapValueToUnits` converts without error, the `'controller:state'` handlers of the G-code
widget and of the Probe widget, started from the same units, either both throw the same error
or both complete, and they end with the same units (the same value, or two values that are
`===`), for every pushed type and state. -/
theorem C26_units_agree (env : Env) (g m s t : String)
    (hG : env.GRBL = .str g) (hM : env.MARLIN = .str m) (hS : env.SMOOTHIE = .str s)
    (hT : env.TINYG = .str t) (hne : [g, m, s, t].Nodup)
    (w : Widget) (gs : GCodeState) (type state : JSVal)
    (hprev : gs.units = w.state.units)
    (hconv : ∀ units, ∃ values, persistedInUnits env w.config units = .ok values) :
    (GCodeWidget.controllerStateHandler env gs type state).2 =
        (controllerStateHandler env w type state).2 ∧
    ((GCodeWidget.controllerStateHandler env gs type state).1.units =
        (controllerStateHandler env w type state).1.state.units ∨
      (GCodeWidget.controllerStateHandler env gs type state).1.units.strictEq
        (controllerStateHandler env w type state).1.state.units = true) := by
  simp only [List.nodup_cons, List.mem_cons, List.mem_singleton, not_or, List.not_mem_nil,
    not_false_eq_true, List.nodup_nil, and_true] at hne
  obtain ⟨⟨hgm, hgs, hgt⟩, ⟨hms, hmt⟩, hst⟩ := hne
  have e1 : ∀ k : String, type ≠ .str k → type.strictEq (.str k) = false := by
    intro k hk
    cases h : type.strictEq (.str k)
    · rfl
    · exact absurd ((strictEq_str type k).mp h) hk
  have e2 : ∀ k : String, (JSVal.str k).strictEq (.str k) = true := by
    intro k; simp [JSVal.strictEq]
  have e3 : ∀ a b : String, a ≠ b → (JSVal.str a).strictEq (.str b) = false := by
    intro a b hab; simp [JSVal.strictEq, hab]
  by_cases c1 : type = .str g
  · subst c1
    apply one_block env w gs _ state (spreadMember state "parserstate") hprev hconv
    · simp [controllerStateUnits, hG, hM, hS, hT, Prim.val, e2, e3 _ _ hgm, e3 _ _ hgs,
        e3 _ _ hgt, bind, Except.bind, pure, Except.pure]
      generalize modalUnits env _ w.state.units = x
      cases x <;> rfl
    · simp [GCodeWidget.controllerStateHandler, hG, hM, hS, hT, Prim.val, e2, e3 _ _ hgm,
        e3 _ _ hgs, e3 _ _ hgt, unitsBlock_false]
  by_cases c2 : type = .str m
  · subst c2
    apply one_block env w gs _ state state hprev hconv
    · simp [controllerStateUnits, hG, hM, hS, hT, Prim.val, e2, e3 _ _ (Ne.symm hgm),
        e3 _ _ hms, e3 _ _ hmt, bind, Except.bind, pure, Except.pure]
      generalize modalUnits env _ w.state.units = x
      cases x <;> rfl
    · simp [GCodeWidget.controllerStateHandler, hG, hM, hS, hT, Prim.val, e2,
        e3 _ _ (Ne.symm hgm), e3 _ _ hms, e3 _ _ hmt, unitsBlock_false]
  by_cases c3 : type = .str s
  · subst c3
    apply one_block env w gs _ state (spreadMember state "parserstate") hprev hconv
    · simp [controllerStateUnits, hG, hM, hS, hT, Prim.val, e2, e3 _ _ (Ne.symm hgs),
        e3 _ _ (Ne.symm hms), e3 _ _ hst, bind, Except.bind, pure, Except.pure]
      generalize modalUnits env _ w.state.units = x
      cases x <;> rfl
    · simp [GCodeWidget.controllerStateHandler, hG, hM, hS, hT, Prim.val, e2,
        e3 _ _ (Ne.symm hgs), e3 _ _ (Ne.symm hms), e3 _ _ hst, unitsBlock_false]
  by_cases c4 : type = .str t
  · subst c4
    apply one_block env w gs _ state (spreadMember state "sr") hprev hconv
    · simp [controllerStateUnits, hG, hM, hS, hT, Prim.val, e2, e3 _ _ (Ne.symm hgt),
        e3 _ _ (Ne.symm hmt), e3 _ _ (Ne.symm hst), bind, Except.bind, pure, Except.pure]
      generalize modalUnits env _ w.state.units = x
      cases x <;> rfl
    · simp [GCodeWidget.controllerStateHandler, hG, hM, hS, hT, Prim.val, e2,
        e3 _ _ (Ne.symm hgt), e3 _ _ (Ne.symm hmt), e3 _ _ (Ne.symm hst), unitsBlock_false]
  · apply no_block env w gs type state hprev hconv
    · rw [hG]; exact e1 g c1
    · rw [hM]; exact e1 m c2
    · rw [hS]; exact e1 s c3
    · rw [hT]; exact e1 t c4

/-- C26 (witness): a Grbl push with the token `G20` on two widgets in millimetres. -/
theorem C26_units_agree_witness :
    (GCodeWidget.controllerStateHandler sampleEnv (sampleGCode (.str "mm")) (.str "Grbl")
        (.obj [("parserstate", .obj [("modal", .obj [("units", .str "G20")])])])).2 =
      (controllerStateHandler sampleEnv (sampleWidget (.str "mm") (.str "Grbl") (.obj []))
        (.str "Grbl")
        (.obj [("parserstate", .obj [("modal", .obj [("units", .str "G20")])])])).2 ∧
    ((GCodeWidget.controllerStateHandler sampleEnv (sampleGCode (.str "mm")) (.str "Grbl")
        (.obj [("parserstate", .obj [("modal", .obj [("units", .str "G20")])])])).1.units =
      (controllerStateHandler sampleEnv (sampleWidget (.str "mm") (.str "Grbl") (.obj []))
        (.str "Grbl")
        (.obj [("parserstate", .obj [("modal", .obj [("units", .str "G20")])])])).1.state.units ∨
      (GCodeWidget.controllerStateHandler sampleEnv (sampleGCode (.str "mm")) (.str "Grbl")
        (.obj [("parserstate", .obj [("modal", .obj [("units", .str "G20")])])])).1.units.strictEq
      (controllerStateHandler sampleEnv (sampleWidget (.str "mm") (.str "Grbl") (.obj []))
        (.str "Grbl")
        (.obj [("parserstate", .obj [("modal", .obj [("units", .str "G20")])])])).1.state.units
        = true) :=
  C26_units_agree sampleEnv "Grbl" "Marlin" "Smoothie" "TinyG" rfl rfl rfl rfl (by decide)
    (sampleWidget (.str "mm") (.str "Grbl") (.obj [])) (sampleGCode (.str "mm")) (.str "Grbl")
    (.obj [("parserstate", .obj [("modal", .obj [("units", .str "G20")])])]) rfl
    (fun _ => ⟨_, rfl⟩)

/-- C27: in every state that the G-code widget reaches from its initial state through any
sequence of its events (`'gcode:bbox'` messages of any content, `'gcode:unload'`,
`'serialport:close'`, and the other events, which keep the box), the stored bounding box has
`delta = max - min` on each of the axes x, y and z, as the operator `-` computes it. -/
theorem C27_bbox_invariant (env : Env) (controller : Controller) (config : Config)
    (events : List GCodeEvent) :
    (GCodeWidget.run env controller config events).bbox.consistent := by
  unfold GCodeWidget.run
  have key : ∀ (evs : List GCodeEvent) (g : GCodeState), g.bbox.consistent →
      (evs.foldl (GCodeWidget.step env) g).bbox.consistent := by
    intro evs
    induction evs with
    | nil => intro g hg; exact hg
    | cons ev rest ih => intro g hg; exact ih _ (step_consistent env g ev hg)
  exact key events _ zeroBbox_consistent

/-- C28: for a stored rotation that is missing (`undefined`) or an integer, and for every
value of the two flip flags, `rotateLeft` and `rotateRight` complete and store a rotation
that is one of 0, 1, 2, 3. -/
theorem C28_rotation_range (st : WebcamState)
    (hrot : st.rotation = .undefined ∨ ∃ s d, st.rotation = .num (.fin s d 0)) :
    (WebcamWidget.rotateLeft st).2 = none ∧
    isQuarterTurn (WebcamWidget.rotateLeft st).1.rotation = true ∧
    (WebcamWidget.rotateRight st).2 = none ∧
    isQuarterTurn (WebcamWidget.rotateRight st).1.rotation = true := by
  unfold WebcamWidget.rotateLeft WebcamWidget.rotateRight
  simp only [(step_cases _).1, (step_cases _).2]
  rcases hrot with h | ⟨s, d, h⟩
  · simp only [h, nextRotation_undefined, isQuarterTurn_mod, and_self]
  · simp only [h, nextRotation_int, isQuarterTurn_mod, and_self]

/-- C28 (witness): the stored rotation -7 with one flip set. -/
theorem C28_rotation_range_witness :
    (WebcamWidget.rotateLeft
      (sampleWebcam (.num (.fin true 7 0)) (.bool true) (.bool false))).2 = none ∧
    isQuarterTurn (WebcamWidget.rotateLeft
      (sampleWebcam (.num (.fin true 7 0)) (.bool true) (.bool false))).1.rotation = true ∧
    (WebcamWidget.rotateRight
      (sampleWebcam (.num (.fin true 7 0)) (.bool true) (.bool false))).2 = none ∧
    isQuarterTurn (WebcamWidget.rotateRight
      (sampleWebcam (.num (.fin true 7 0)) (.bool true) (.bool false))).1.rotation = true :=
  C28_rotation_range (sampleWebcam (.num (.fin true 7 0)) (.bool true) (.bool false))
    (Or.inr ⟨true, 7, rfl⟩)

/-- C29: for a rotation among 0, 1, 2, 3 and every value of the two flip flags, `rotateRight`
after `rotateLeft` and `rotateLeft` after `rotateRight` give back the state they started
from, and neither throws. -/
theorem C29_rotations_inverse (st : WebcamState) (r : Nat) (hr : r < 4)
    (hrot : st.rotation = .num (.ofNat r)) :
    WebcamWidget.rotateRight (WebcamWidget.rotateLeft st).1 = (st, none) ∧
    WebcamWidget.rotateLeft (WebcamWidget.rotateRight st).1 = (st, none) ∧
    (WebcamWidget.rotateLeft st).2 = none ∧ (WebcamWidget.rotateRight st).2 = none := by
  rw [rotateLeft_int st false r hrot, rotateRight_int st false r hrot]
  rw [rotateRight_int _ false _ rfl, rotateLeft_int _ false _ rfl]
  obtain ⟨a1, a2, a3, a4, a5, a6, a7, rot, fh, fv, a11, a12⟩ := st
  simp only at hrot
  subst hrot
  simp only [WebcamWidget.flipsAgree]
  rcases Bool.eq_false_or_eq_true (JSVal.or (fh.and fv) (fh.not.and fv.not)).truthy with h | h <;>
    interval_cases r <;> simp [h, JSNum.ofNat]

/-- C29 (witness): the rotation 2 with both flips set. -/
theorem C29_rotations_inverse_witness :
    WebcamWidget.rotateRight (WebcamWidget.rotateLeft
        (sampleWebcam (.num (.ofNat 2)) (.bool true) (.bool true))).1 =
      (sampleWebcam (.num (.ofNat 2)) (.bool true) (.bool true), none) ∧
    WebcamWidget.rotateLeft (WebcamWidget.rotateRight
        (sampleWebcam (.num (.ofNat 2)) (.bool true) (.bool true))).1 =
      (sampleWebcam (.num (.ofNat 2)) (.bool true) (.bool true), none) ∧
    (WebcamWidget.rotateLeft (sampleWebcam (.num (.ofNat 2)) (.bool true) (.bool true))).2 =
      none ∧
    (WebcamWidget.rotateRight (sampleWebcam (.num (.ofNat 2)) (.bool true) (.bool true))).2 =
      none :=
  C29_rotations_inverse (sampleWebcam (.num (.ofNat 2)) (.bool true) (.bool true)) 2
    (by decide) rfl

/-- C30: for every state of the Connection view, `canOpenPort` and `canClosePort` are not
both truthy. -/
theorem C30_open_close_exclusive (state : ConnectionState) :
    ((Connection.canOpenPort state).truthy && (Connection.canClosePort state).truthy) =
      false := by
  unfold Connection.canOpenPort Connection.canClosePort JSVal.and JSVal.not
  cases h : state.connected.truthy <;> simp [h, JSVal.truthy]
  split_ifs <;> simp_all [JSVal.truthy]

end Cncjs
